import Mathlib

/-!
# Cluster template composition (kubectl-gs): a shallow embedding

Embedding of `cmd/template/cluster/provider/aws.go` and of
`pkg/data/domain/organization/service.go`.

Conventions of the embedding.

* A Go `map[string]string` is an association list in which a key is looked up
  from the front and assigned in place (`mapGet`, `mapSet`); a map that may be
  `nil` is an `Option GoMap`.
* A Go `error` is a value of `Err`; `microerror.Mask` keeps the error it wraps,
  so masking is the identity here.  A run-time panic is a separate outcome.
* Code that talks to the outside (the clusterctl client, the SSH key lookup,
  the untyped-to-typed converter, the YAML encoder, the template engine, the
  process environment and the output writer) acts on an explicit `State` and
  takes the behaviour of the collaborator from a `World`.
* `State.log` records every call to a collaborator together with what the call
  is given; the embedded code never reads it.
* A YAML document is represented by the object it encodes, the empty string by
  `none`; whether `yaml.Marshal` fails on an object is up to the `World`.
* Constants and helpers of the packages `internal/key`, `internal/label` and
  `annotation` are not part of the embedded files; they are the fields of
  `Keys`.
-/

set_option autoImplicit false

namespace KubectlGs

/-! ## Go maps -/

/-- A Go `map[string]string` that is not nil. -/
abbrev GoMap := List (String × String)

/-- Reading `m[k]`: `none` when the key is absent. -/
def mapGet : GoMap → String → Option String
  | [], _ => none
  | (k', v) :: rest, k => if k' = k then some v else mapGet rest k

/-- The assignment `m[k] = v`. -/
def mapSet : GoMap → String → String → GoMap
  | [], k, v => [(k, v)]
  | (k', v') :: rest, k, v =>
    if k' = k then (k, v) :: rest else (k', v') :: mapSet rest k v

/-- The loop `for key, value := range src { dst[key] = value }`. -/
def mapMerge (dst : GoMap) : GoMap → GoMap
  | [] => dst
  | (k, v) :: rest => mapMerge (mapSet dst k v) rest

/-- Every key/value pair of `small` is a key/value pair of `big`. -/
def mapIncluded (small big : GoMap) : Prop :=
  ∀ k v, mapGet small k = some v → mapGet big k = some v

/-! ## Errors and outcomes -/

/-- The error values the embedded code returns or passes on. -/
inductive Err where
  /-- The package-level `invalidFlagError`, with the formatted message. -/
  | invalidFlag (msg : String)
  /-- The package-level `notFoundError` of the organization service. -/
  | notFound
  /-- The package-level `noResourcesError` of the organization service. -/
  | noResources
  /-- An error produced by a collaborator. -/
  | external (msg : String)
  deriving DecidableEq, Repr

/-- The function `microerror.Mask`: the masked error is the error itself. -/
def Mask (e : Err) : Err := e

/-- Outcome of a call that may return a value, return an error, or panic. -/
inductive Res (α : Type) where
  | ok (a : α)
  | error (e : Err)
  | panic (msg : String)
  deriving DecidableEq, Repr

/-! ## Process environment -/

/-- The process environment: a variable is unset (`none`) or set to a value. -/
abbrev Env := String → Option String

/-- The function `os.Getenv`: the value, or the empty string when unset. -/
def Getenv (env : Env) (k : String) : String := (env k).getD ""

/-- The function `os.Setenv`. -/
def Setenv (env : Env) (k v : String) : Env := fun x => if x = k then some v else env x

/-- The function `os.Unsetenv`. -/
def Unsetenv (env : Env) (k : String) : Env := fun x => if x = k then none else env x

/-- A call postponed by `defer` in `getCAPAClusterTemplate`. -/
inductive Deferred where
  | setenv (k v : String)
  | unsetenv (k : String)
  deriving DecidableEq, Repr

/-- Run one deferred call. -/
def Deferred.run (env : Env) : Deferred → Env
  | .setenv k v => Setenv env k v
  | .unsetenv k => Unsetenv env k

/-- Run the deferred calls at function exit; the head of the list is the call
deferred last, which runs first. -/
def runDeferred (env : Env) : List Deferred → Env
  | [] => env
  | d :: rest => runDeferred (d.run env) rest

/-! ## Object model

The records list the fields the embedded code reads or writes; `Rest` stands
for the remaining content of an object, which the code never looks at. -/

/-- The type `metav1.TypeMeta`. -/
structure TypeMeta where
  Kind : String
  APIVersion : String
  deriving DecidableEq, Repr

/-- The type `metav1.ObjectMeta`. -/
structure ObjectMeta where
  Name : String
  Namespace : String
  Labels : Option GoMap
  Annotations : Option GoMap
  deriving DecidableEq, Repr

/-- The method `SetLabels` of a typed object: the object keeps the very map it
is given. -/
def ObjectMeta.SetLabels (m : ObjectMeta) (labels : Option GoMap) : ObjectMeta :=
  { m with Labels := labels }

/-- The method `SetAnnotations` of a typed object. -/
def ObjectMeta.SetAnnotations (m : ObjectMeta) (annotations : Option GoMap) : ObjectMeta :=
  { m with Annotations := annotations }

/-- The method `SetNamespace` of a typed object. -/
def ObjectMeta.SetNamespace (m : ObjectMeta) (ns : String) : ObjectMeta :=
  { m with Namespace := ns }

/-- The type `v1.ObjectReference`. -/
structure ObjectReference where
  APIVersion : String
  Kind : String
  Name : String
  Namespace : String
  deriving DecidableEq, Repr

/-- The type `unstructured.Unstructured`: an object of the base set whose
concrete type is not known.  `Content` is everything below the metadata. -/
structure Unstructured where
  Kind : String
  APIVersion : String
  Name : String
  Namespace : String
  Labels : Option GoMap
  Annotations : Option GoMap
  Content : String
  deriving DecidableEq, Repr

/-- The method `GetKind`. -/
def Unstructured.GetKind (o : Unstructured) : String := o.Kind

/-- The method `SetLabels` of an untyped object: a nil map removes the field,
any other map is copied entry by entry into the object. -/
def Unstructured.SetLabels (o : Unstructured) (labels : Option GoMap) : Unstructured :=
  { o with Labels := labels }

/-- The method `SetAnnotations` of an untyped object. -/
def Unstructured.SetAnnotations (o : Unstructured) (annotations : Option GoMap) : Unstructured :=
  { o with Annotations := annotations }

/-- The type information of an untyped object, as the converter carries it over. -/
def Unstructured.typeMeta (o : Unstructured) : TypeMeta :=
  { Kind := o.Kind, APIVersion := o.APIVersion }

/-- The metadata of an untyped object, as the converter carries it over. -/
def Unstructured.objectMeta (o : Unstructured) : ObjectMeta :=
  { Name := o.Name, Namespace := o.Namespace, Labels := o.Labels, Annotations := o.Annotations }

/-! ### Cluster API provider AWS (`capav1alpha3`) -/

/-- The type `capav1alpha3.SubnetSpec`. -/
structure SubnetSpec where
  ID : String
  CidrBlock : String
  AvailabilityZone : String
  IsPublic : Bool
  deriving DecidableEq, Repr

/-- The type `capav1alpha3.AWSIdentityReference`. -/
structure AWSIdentityReference where
  Name : String
  Kind : String
  deriving DecidableEq, Repr

/-- The type `capav1alpha3.NetworkSpec`. -/
structure NetworkSpec where
  Subnets : List SubnetSpec
  deriving DecidableEq, Repr

/-- The type `capav1alpha3.AWSClusterSpec`. -/
structure AWSClusterSpec where
  Region : String
  IdentityRef : Option AWSIdentityReference
  NetworkSpec : NetworkSpec
  Rest : String
  deriving DecidableEq, Repr

/-- The type `capav1alpha3.AWSCluster`. -/
structure AWSCluster where
  TypeMeta : TypeMeta
  ObjectMeta : ObjectMeta
  Spec : AWSClusterSpec
  deriving DecidableEq, Repr

/-- The type `capav1alpha3.Filter`. -/
structure Filter where
  Name : String
  Values : List String
  deriving DecidableEq, Repr

/-- The type `capav1alpha3.AWSResourceReference`. -/
structure AWSResourceReference where
  Filters : List Filter
  deriving DecidableEq, Repr

/-- The type `capav1alpha3.AWSMachineSpec`, reached in a machine template as
`Spec.Template.Spec`; `InsecureSkipSecretsManager` is the field of `CloudInit`. -/
structure AWSMachineSpec where
  InsecureSkipSecretsManager : Bool
  UncompressedUserData : Option Bool
  IAMInstanceProfile : String
  PublicIP : Option Bool
  InstanceType : String
  AdditionalSecurityGroups : List AWSResourceReference
  SSHKeyName : Option String
  Subnet : Option AWSResourceReference
  ImageLookupOrg : String
  ImageLookupFormat : String
  Rest : String
  deriving DecidableEq, Repr

/-- The type `capav1alpha3.AWSMachineTemplate`; `Spec` is `Spec.Template.Spec`. -/
structure AWSMachineTemplate where
  TypeMeta : TypeMeta
  ObjectMeta : ObjectMeta
  Spec : AWSMachineSpec
  deriving DecidableEq, Repr

/-- The type `capav1alpha3.AWSClusterRoleIdentity`; `AllowedNamespaces` is the
`NamespaceList` of `Spec.AllowedNamespaces`. -/
structure AWSClusterRoleIdentity where
  TypeMeta : TypeMeta
  ObjectMeta : ObjectMeta
  SourceIdentityRef : Option AWSIdentityReference
  AllowedNamespaces : Option (List String)
  deriving DecidableEq, Repr

/-! ### Kubeadm control plane and bootstrap -/

/-- The type `bootstrap.File`. -/
structure File where
  Owner : String
  Permissions : String
  Path : String
  Content : String
  Encoding : String
  deriving DecidableEq, Repr

/-- The type `bootstrap.User`. -/
structure User where
  Name : String
  Groups : Option String
  Shell : Option String
  deriving DecidableEq, Repr

/-- The type `bootstrap.KubeadmConfigSpec`. -/
structure KubeadmConfigSpec where
  Files : List File
  PostKubeadmCommands : List String
  Users : List User
  Rest : String
  deriving DecidableEq, Repr

/-- The type `kubeadm.KubeadmControlPlaneSpec`; `Replicas` is an `*int32`. -/
structure KubeadmControlPlaneSpec where
  Replicas : Option Int
  Version : String
  KubeadmConfigSpec : KubeadmConfigSpec
  Rest : String
  deriving DecidableEq, Repr

/-- The type `kubeadm.KubeadmControlPlane`. -/
structure KubeadmControlPlane where
  TypeMeta : TypeMeta
  ObjectMeta : ObjectMeta
  Spec : KubeadmControlPlaneSpec
  deriving DecidableEq, Repr

/-! ### Core and Cluster API (`v1`, `capiv1alpha3`) -/

/-- The type `v1.Secret`. -/
structure Secret where
  TypeMeta : TypeMeta
  ObjectMeta : ObjectMeta
  Type_ : String
  StringData : GoMap
  deriving DecidableEq, Repr

/-- The type `capiv1alpha3.MachineRollingUpdateDeployment`, with the two
`intstr` values as integers. -/
structure MachineRollingUpdateDeployment where
  MaxSurge : Option Int
  MaxUnavailable : Option Int
  deriving DecidableEq, Repr

/-- The type `capiv1alpha3.MachineDeploymentStrategy`. -/
structure MachineDeploymentStrategy where
  Type_ : String
  RollingUpdate : Option MachineRollingUpdateDeployment
  deriving DecidableEq, Repr

/-- The type `capiv1alpha3.MachineSpec`; `DataSecretName` is the field of
`Bootstrap`. -/
structure MachineSpec where
  ClusterName : String
  DataSecretName : Option String
  InfrastructureRef : ObjectReference
  Version : Option String
  deriving DecidableEq, Repr

/-- The type `capiv1alpha3.MachineTemplateSpec`; `Labels` is the map of its
`ObjectMeta`. -/
structure MachineTemplateSpec where
  Labels : Option GoMap
  Spec : MachineSpec
  deriving DecidableEq, Repr

/-- The type `capiv1alpha3.MachineDeploymentSpec`; `MatchLabels` is the map of
`Selector`. -/
structure MachineDeploymentSpec where
  ClusterName : String
  Replicas : Option Int
  MatchLabels : Option GoMap
  Strategy : Option MachineDeploymentStrategy
  Template : MachineTemplateSpec
  deriving DecidableEq, Repr

/-- The type `capiv1alpha3.MachineDeployment`. -/
structure MachineDeployment where
  TypeMeta : TypeMeta
  ObjectMeta : ObjectMeta
  Spec : MachineDeploymentSpec
  deriving DecidableEq, Repr

/-- The type `capiv1alpha3.ClusterSpec`. -/
structure ClusterSpec where
  InfrastructureRef : ObjectReference
  Rest : String
  deriving DecidableEq, Repr

/-- The type `capiv1alpha3.Cluster`. -/
structure Cluster where
  TypeMeta : TypeMeta
  ObjectMeta : ObjectMeta
  Spec : ClusterSpec
  deriving DecidableEq, Repr

/-! ### Legacy schema (`v1alpha3` of apiextensions) -/

/-- The legacy type `v1alpha3.AWSCluster`. -/
structure GSAWSCluster where
  TypeMeta : TypeMeta
  ObjectMeta : ObjectMeta
  Rest : String
  deriving DecidableEq, Repr

/-- The type `v1alpha3.G8sControlPlaneSpec`. -/
structure G8sControlPlaneSpec where
  InfrastructureRef : ObjectReference
  Rest : String
  deriving DecidableEq, Repr

/-- The type `v1alpha3.G8sControlPlane`. -/
structure G8sControlPlane where
  TypeMeta : TypeMeta
  ObjectMeta : ObjectMeta
  Spec : G8sControlPlaneSpec
  deriving DecidableEq, Repr

/-- The type `v1alpha3.AWSControlPlane`. -/
structure AWSControlPlane where
  TypeMeta : TypeMeta
  ObjectMeta : ObjectMeta
  Rest : String
  deriving DecidableEq, Repr

/-- The type `v1alpha3.ClusterCRs`: the legacy object graph. -/
structure ClusterCRs where
  Cluster : Cluster
  AWSCluster : GSAWSCluster
  G8sControlPlane : G8sControlPlane
  AWSControlPlane : AWSControlPlane
  deriving DecidableEq, Repr

/-- The type `v1alpha3.ClusterCRsConfig`: the input of `v1alpha3.NewClusterCRs`. -/
structure CRsConfig where
  ClusterID : String
  ExternalSNAT : Bool
  MasterAZ : List String
  Description : String
  PodsCIDR : String
  Owner : String
  ReleaseVersion : String
  Labels : Option GoMap
  deriving DecidableEq, Repr

/-! ### Objects handed to the YAML encoder -/

/-- Any value the embedded code passes to `yaml.Marshal`. -/
inductive Object where
  | awsCluster (o : AWSCluster)
  | awsMachineTemplate (o : AWSMachineTemplate)
  | unstructured (o : Unstructured)
  | kubeadmControlPlane (o : KubeadmControlPlane)
  | awsClusterRoleIdentity (o : AWSClusterRoleIdentity)
  | secret (o : Secret)
  | machineDeployment (o : MachineDeployment)
  | cluster (o : Cluster)
  | gsAWSCluster (o : GSAWSCluster)
  | g8sControlPlane (o : G8sControlPlane)
  | awsControlPlane (o : AWSControlPlane)
  deriving DecidableEq, Repr

/-- The label map of an object. -/
def Object.labels : Object → Option GoMap
  | .awsCluster o => o.ObjectMeta.Labels
  | .awsMachineTemplate o => o.ObjectMeta.Labels
  | .unstructured o => o.Labels
  | .kubeadmControlPlane o => o.ObjectMeta.Labels
  | .awsClusterRoleIdentity o => o.ObjectMeta.Labels
  | .secret o => o.ObjectMeta.Labels
  | .machineDeployment o => o.ObjectMeta.Labels
  | .cluster o => o.ObjectMeta.Labels
  | .gsAWSCluster o => o.ObjectMeta.Labels
  | .g8sControlPlane o => o.ObjectMeta.Labels
  | .awsControlPlane o => o.ObjectMeta.Labels

/-- The namespace of an object. -/
def Object.namespace : Object → String
  | .awsCluster o => o.ObjectMeta.Namespace
  | .awsMachineTemplate o => o.ObjectMeta.Namespace
  | .unstructured o => o.Namespace
  | .kubeadmControlPlane o => o.ObjectMeta.Namespace
  | .awsClusterRoleIdentity o => o.ObjectMeta.Namespace
  | .secret o => o.ObjectMeta.Namespace
  | .machineDeployment o => o.ObjectMeta.Namespace
  | .cluster o => o.ObjectMeta.Namespace
  | .gsAWSCluster o => o.ObjectMeta.Namespace
  | .g8sControlPlane o => o.ObjectMeta.Namespace
  | .awsControlPlane o => o.ObjectMeta.Namespace

/-- A YAML document, represented by the value it encodes; `none` is the empty
string, the zero value of a template field. -/
abbrev Yaml := Option Object

/-! ## Request, constants, collaborators and state -/

/-- The type `ClusterCRsConfig` of the provider package, with the fields that
`aws.go` uses. -/
structure ClusterCRsConfig where
  FileName : String
  ControlPlaneAZ : List String
  ControlPlaneSubnet : String
  Description : String
  ExternalSNAT : Bool
  Name : String
  Owner : String
  PodsCIDR : String
  ReleaseVersion : String
  Labels : Option GoMap
  deriving DecidableEq, Repr

/-- Constants and helper functions that `aws.go` takes from the packages
`internal/key`, `internal/label`, `annotation` and from the API packages. -/
structure Keys where
  /-- The function `key.IsCAPAVersion`. -/
  IsCAPAVersion : String → Bool
  /-- The function `key.IsOrgNamespaceVersion`. -/
  IsOrgNamespaceVersion : String → Bool
  /-- The function `key.OrganizationNamespaceFromName`. -/
  OrganizationNamespaceFromName : String → String
  /-- The function `key.BastionResourceName`. -/
  BastionResourceName : String → String
  /-- The function `key.GetControlPlaneInstanceProfile`. -/
  GetControlPlaneInstanceProfile : String → String
  /-- The function `key.CAPAClusterOwnedTag`. -/
  CAPAClusterOwnedTag : String → String
  /-- The function `key.FlatcarAWSAccountID`. -/
  FlatcarAWSAccountID : String → String
  /-- The result of `key.GetCAPAEnvVars()`. -/
  CAPAEnvVars : List String
  /-- The result of `key.NodeSSHDConfigEncoded()`. -/
  NodeSSHDConfigEncoded : String
  /-- The result of `key.BastionSSHDConfigEncoded()`. -/
  BastionSSHDConfigEncoded : String
  /-- The result of `key.UbuntuSudoersConfigEncoded()`. -/
  UbuntuSudoersConfigEncoded : String
  /-- The constant `key.CAPIRoleLabel`. -/
  CAPIRoleLabel : String
  /-- The constant `key.RoleBastion`. -/
  RoleBastion : String
  /-- The constant `key.CAPARoleTag`. -/
  CAPARoleTag : String
  /-- The constant `key.AWSBastionInstanceType`. -/
  AWSBastionInstanceType : String
  /-- The constant `label.ReleaseVersion`. -/
  LabelReleaseVersion : String
  /-- The constant `label.Cluster`. -/
  LabelCluster : String
  /-- The constant `label.Organization`. -/
  LabelOrganization : String
  /-- The constant `capiv1alpha3.ClusterLabelName`. -/
  ClusterLabelName : String
  /-- The constant `annotation.ClusterDescription`. -/
  ClusterDescription : String
  /-- The constant `annotation.AWSSubnetSize`. -/
  AWSSubnetSize : String
  /-- The constant `capav1alpha3.ClusterRoleIdentityKind`. -/
  ClusterRoleIdentityKind : String
  /-- The result of `capav1alpha3.GroupVersion.String()`. -/
  CAPAGroupVersion : String
  /-- The result of `capiv1alpha3.GroupVersion.String()`. -/
  CAPIGroupVersion : String
  /-- The result of `v1.SchemeGroupVersion.String()`. -/
  CoreGroupVersion : String
  /-- The constant `bootstrap.Base64`. -/
  Base64 : String

/-- The type `client.ProviderRepositorySourceOptions`. -/
structure ProviderRepositorySourceOptions where
  InfrastructureProvider : String
  Flavor : String
  deriving DecidableEq, Repr

/-- The type `client.GetClusterTemplateOptions`; `ControlPlaneMachineCount` is
an `*int64`. -/
structure GetClusterTemplateOptions where
  ClusterName : String
  TargetNamespace : String
  KubernetesVersion : String
  ControlPlaneMachineCount : Option Int
  ProviderRepositorySource : Option ProviderRepositorySourceOptions
  deriving DecidableEq, Repr

/-- The anonymous struct `data` of `WriteCAPATemplate`. -/
structure CAPAData where
  AWSClusterCR : Yaml
  AWSMachineTemplateCR : Yaml
  ClusterCR : Yaml
  KubeadmControlPlaneCR : Yaml
  AWSClusterRoleIdentityCR : Yaml
  BastionBootstrapSecret : Yaml
  BastionMachineDeploymentCR : Yaml
  BastionAWSMachineTemplateCR : Yaml
  deriving DecidableEq, Repr

/-- The anonymous struct `data` of `WriteGSAWSTemplate`. -/
structure AWSData where
  AWSClusterCR : Yaml
  AWSControlPlaneCR : Yaml
  ClusterCR : Yaml
  G8sControlPlaneCR : Yaml
  deriving DecidableEq, Repr

/-- A call the embedded code makes to a collaborator, with what it passes. -/
inductive Event where
  /-- The call `client.New("")`. -/
  | clientNew
  /-- The call `c.GetClusterTemplate(templateOptions)`, with the environment
  the generator sees. -/
  | getClusterTemplate (env : Env) (options : GetClusterTemplateOptions)
  /-- The call `key.SSHSSOPublicKey()`. -/
  | sshSSOPublicKey
  /-- The call `v1alpha3.NewClusterCRs(crsConfig)`. -/
  | newClusterCRs (crsConfig : CRsConfig)
  /-- A call `yaml.Marshal(o)`. -/
  | marshal (o : Object)
  /-- The call `t.Execute(out, data)` of `WriteCAPATemplate`. -/
  | executeCAPA (data : CAPAData)
  /-- The call `t.Execute(out, data)` of `WriteGSAWSTemplate`. -/
  | executeAWS (data : AWSData)

/-- What the embedded code can change: the process environment, the text
written to `out`, and the record of the calls made so far (oldest first). -/
structure State where
  env : Env
  out : List String
  log : List Event

/-- Append a call to the record. -/
def State.record (s : State) (e : Event) : State :=
  { s with log := s.log ++ [e] }

/-- Behaviour of the collaborators. -/
structure World where
  /-- The error of `client.New("")`, if any. -/
  ClientNew : Option Err
  /-- The method `GetClusterTemplate` followed by `Objs()`: the generator reads
  the environment and the options. -/
  GetClusterTemplate : Env → GetClusterTemplateOptions → Except Err (List Unstructured)
  /-- The function `key.SSHSSOPublicKey`. -/
  SSHSSOPublicKey : Except Err String
  /-- The part of `FromUnstructured` that fills the spec of an `AWSCluster`. -/
  ConvertAWSCluster : Unstructured → Except Err AWSClusterSpec
  /-- The part of `FromUnstructured` that fills the spec of an `AWSMachineTemplate`. -/
  ConvertAWSMachineTemplate : Unstructured → Except Err AWSMachineSpec
  /-- The part of `FromUnstructured` that fills the spec of a `KubeadmControlPlane`. -/
  ConvertKubeadmControlPlane : Unstructured → Except Err KubeadmControlPlaneSpec
  /-- The error of `yaml.Marshal`, if any. -/
  MarshalError : Object → Option Err
  /-- Rendering of `key.BastionIgnitionTemplate` (file name, cluster name, SSH
  daemon configuration, SSO public key), base64 encoded. -/
  BastionIgnition : String → String → String → String → Except Err String
  /-- The method `Execute` of the parsed `key.ClusterCAPACRsTemplate`: the text
  it writes to `out` and the error it returns, if any. -/
  ExecuteCAPA : String → CAPAData → List String × Option Err
  /-- The method `Execute` of the parsed `key.ClusterAWSCRsTemplate`. -/
  ExecuteAWS : String → AWSData → List String × Option Err
  /-- The function `v1alpha3.NewClusterCRs`. -/
  NewClusterCRs : CRsConfig → Except Err ClusterCRs

/-- The call `yaml.Marshal(o)` followed by `string(...)`. -/
def yamlMarshal (W : World) (o : Object) (s : State) : Res Yaml × State :=
  match W.MarshalError o with
  | some e => (.error e, s.record (.marshal o))
  | none => (.ok (some o), s.record (.marshal o))

/-- The objects handed to `yaml.Marshal`, oldest first. -/
def marshalled : List Event → List Object
  | [] => []
  | .marshal o :: rest => o :: marshalled rest
  | _ :: rest => marshalled rest

/-! ## `aws.go`: the base template -/

/-- The loop of `getCAPAClusterTemplate` over `key.GetCAPAEnvVars()`: every
variable is set to the empty string, and a call that puts it back is pushed on
the stack of deferred calls. -/
def neutralizeEnv : List String → Env → List Deferred → Env × List Deferred
  | [], env, deferred => (env, deferred)
  | envVar :: rest, env, deferred =>
    if Getenv env envVar ≠ "" then
      let prevEnv := Getenv env envVar
      neutralizeEnv rest (Setenv env envVar "") (.setenv envVar prevEnv :: deferred)
    else
      neutralizeEnv rest (Setenv env envVar "") (.unsetenv envVar :: deferred)

/-- The function `getCAPAClusterTemplate`.  The length of a slice fits an
`int64`, so `int64(len(config.ControlPlaneAZ))` is the length itself. -/
def getCAPAClusterTemplate (K : Keys) (W : World) (config : ClusterCRsConfig) (s : State) :
    Res (List Unstructured) × State :=
  let s := s.record .clientNew
  match W.ClientNew with
  | some err => (.error err, s)
  | none =>
    let templateOptions : GetClusterTemplateOptions :=
      { ClusterName := config.Name
        TargetNamespace := K.OrganizationNamespaceFromName config.Owner
        KubernetesVersion := "v1.19.9"
        ControlPlaneMachineCount := none
        ProviderRepositorySource := some
          { InfrastructureProvider := "aws:v0.6.8", Flavor := "machinepool" } }
    let neutral := neutralizeEnv K.CAPAEnvVars s.env []
    let s := { s with env := neutral.1 }
    let replicas : Int := config.ControlPlaneAZ.length
    let templateOptions :=
      if replicas > 0 then { templateOptions with ControlPlaneMachineCount := some replicas }
      else templateOptions
    let s := s.record (.getClusterTemplate s.env templateOptions)
    match W.GetClusterTemplate s.env templateOptions with
    | .error err => (.error err, { s with env := runDeferred s.env neutral.2 })
    | .ok clusterTemplate => (.ok clusterTemplate, { s with env := runDeferred s.env neutral.2 })

/-! ## `aws.go`: conversion of the base objects -/

/-- The loop of `newAWSClusterFromUnstructured` over `config.ControlPlaneAZ`. -/
def appendSubnets (subnets : List SubnetSpec) : List String → List SubnetSpec
  | [] => subnets
  | az :: rest =>
    let privateSubnet : SubnetSpec :=
      { ID := "", CidrBlock := "", AvailabilityZone := az, IsPublic := false }
    let publicSubnet : SubnetSpec :=
      { ID := "", CidrBlock := "", AvailabilityZone := az, IsPublic := true }
    appendSubnets (subnets ++ [privateSubnet, publicSubnet]) rest

/-- The function `newAWSClusterFromUnstructured`. -/
def newAWSClusterFromUnstructured (K : Keys) (W : World) (config : ClusterCRsConfig)
    (o : Unstructured) : Res AWSCluster :=
  match W.ConvertAWSCluster o with
  | .error err => .error (Mask err)
  | .ok spec =>
    let awscluster : AWSCluster :=
      { TypeMeta := o.typeMeta, ObjectMeta := o.objectMeta, Spec := spec }
    let awscluster : AWSCluster :=
      { awscluster with
        Spec := { awscluster.Spec with
          IdentityRef := some { Name := config.Name, Kind := K.ClusterRoleIdentityKind } } }
    let awscluster : AWSCluster :=
      { awscluster with
        Spec := { awscluster.Spec with
          NetworkSpec :=
            { Subnets := appendSubnets awscluster.Spec.NetworkSpec.Subnets config.ControlPlaneAZ } } }
    let awscluster : AWSCluster :=
      if config.ControlPlaneSubnet ≠ "" then
        { awscluster with
          ObjectMeta := awscluster.ObjectMeta.SetAnnotations
            (some (mapSet [] K.AWSSubnetSize config.ControlPlaneSubnet)) }
      else awscluster
    .ok awscluster

/-- The function `newAWSMachineTemplateFromUnstructured`.  The write into
`awsmachinetemplate.Labels` panics when that map is nil. -/
def newAWSMachineTemplateFromUnstructured (K : Keys) (W : World) (config : ClusterCRsConfig)
    (o : Unstructured) : Res AWSMachineTemplate :=
  match W.ConvertAWSMachineTemplate o with
  | .error err => .error (Mask err)
  | .ok spec =>
    let awsmachinetemplate : AWSMachineTemplate :=
      { TypeMeta := o.typeMeta, ObjectMeta := o.objectMeta, Spec := spec }
    let awsmachinetemplate : AWSMachineTemplate :=
      { awsmachinetemplate with
        Spec := { awsmachinetemplate.Spec with
          IAMInstanceProfile := K.GetControlPlaneInstanceProfile config.Name } }
    match awsmachinetemplate.ObjectMeta.Labels with
    | none => .panic "assignment to entry in nil map"
    | some labels =>
      .ok { awsmachinetemplate with
            ObjectMeta := { awsmachinetemplate.ObjectMeta with
              Labels := some (mapSet labels "cluster.x-k8s.io/role" "control-plane") } }

/-- The function `newKubeadmControlPlaneFromUnstructured`. -/
def newKubeadmControlPlaneFromUnstructured (K : Keys) (W : World) (sshSSOPubKey : String)
    (sshdConfig : String) (o : Unstructured) : Res KubeadmControlPlane :=
  let groups := "sudo"
  let shell := "/bin/bash"
  match W.ConvertKubeadmControlPlane o with
  | .error err => .error (Mask err)
  | .ok spec =>
    let cp : KubeadmControlPlane :=
      { TypeMeta := o.typeMeta, ObjectMeta := o.objectMeta, Spec := spec }
    let cp : KubeadmControlPlane :=
      { cp with Spec := { cp.Spec with KubeadmConfigSpec := { cp.Spec.KubeadmConfigSpec with
          Files :=
            [ { Owner := "root", Permissions := "640", Path := "/etc/ssh/sshd_config",
                Content := sshdConfig, Encoding := K.Base64 },
              { Owner := "root", Permissions := "600", Path := "/etc/ssh/trusted-user-ca-keys.pem",
                Content := sshSSOPubKey, Encoding := K.Base64 },
              { Owner := "root", Permissions := "600", Path := "/etc/sudoers.d/giantswarm",
                Content := K.UbuntuSudoersConfigEncoded, Encoding := K.Base64 } ] } } }
    let cp : KubeadmControlPlane :=
      { cp with Spec := { cp.Spec with KubeadmConfigSpec := { cp.Spec.KubeadmConfigSpec with
          PostKubeadmCommands := ["service ssh restart"] } } }
    let cp : KubeadmControlPlane :=
      { cp with Spec := { cp.Spec with KubeadmConfigSpec := { cp.Spec.KubeadmConfigSpec with
          Users := [ { Name := "giantswarm", Groups := some groups, Shell := some shell } ] } } }
    .ok cp

/-! ## `aws.go`: synthesized objects -/

/-- The function `newAWSClusterRoleIdentity`. -/
def newAWSClusterRoleIdentity (K : Keys) (config : ClusterCRsConfig) : AWSClusterRoleIdentity :=
  { TypeMeta :=
      { Kind := "AWSClusterRoleIdentity", APIVersion := "infrastructure.cluster.x-k8s.io/v1alpha3" }
    ObjectMeta :=
      { Name := config.Name
        Namespace := K.OrganizationNamespaceFromName config.Owner
        Labels := none
        Annotations := none }
    SourceIdentityRef := some { Name := "", Kind := "" }
    AllowedNamespaces := some [K.OrganizationNamespaceFromName config.Owner] }

/-- The function `newBastionBootstrapSecret`. -/
def newBastionBootstrapSecret (K : Keys) (W : World) (config : ClusterCRsConfig)
    (sshdConfig : String) (sshSSOPublicKey : String) : Res Secret :=
  match W.BastionIgnition config.FileName config.Name sshdConfig sshSSOPublicKey with
  | .error err => .error (Mask err)
  | .ok ignition =>
    .ok
      { TypeMeta := { Kind := "Secret", APIVersion := K.CoreGroupVersion }
        ObjectMeta :=
          { Name := K.BastionResourceName config.Name
            Namespace := K.OrganizationNamespaceFromName config.Owner
            Labels := none
            Annotations := none }
        Type_ := "cluster.x-k8s.io/secret"
        StringData := mapSet [] "value" ignition }

/-- The function `newBastionMachineDeployment`. -/
def newBastionMachineDeployment (K : Keys) (config : ClusterCRsConfig) : MachineDeployment :=
  let replicas : Int := 1
  let rollupdateValue : Int := 1
  let dataSecretname := K.BastionResourceName config.Name
  let version := "v0.0.0"
  { TypeMeta := { Kind := "MachineDeployment", APIVersion := K.CAPIGroupVersion }
    ObjectMeta :=
      { Name := K.BastionResourceName config.Name
        Namespace := K.OrganizationNamespaceFromName config.Owner
        Labels := none
        Annotations := none }
    Spec :=
      { ClusterName := config.Name
        Replicas := some replicas
        MatchLabels := some
          (mapSet (mapSet [] "cluster.x-k8s.io/cluster-name" config.Name)
            "cluster.x-k8s.io/deployment-name" (K.BastionResourceName config.Name))
        Strategy := some
          { Type_ := "RollingUpdate"
            RollingUpdate := some
              { MaxSurge := some rollupdateValue, MaxUnavailable := some rollupdateValue } }
        Template :=
          { Labels := some
              (mapSet (mapSet [] "cluster.x-k8s.io/cluster-name" config.Name)
                "cluster.x-k8s.io/deployment-name" (K.BastionResourceName config.Name))
            Spec :=
              { ClusterName := config.Name
                DataSecretName := some dataSecretname
                InfrastructureRef :=
                  { APIVersion := K.CAPAGroupVersion
                    Kind := "AWSMachineTemplate"
                    Name := K.BastionResourceName config.Name
                    Namespace := "" }
                Version := some version } } } }

/-- The function `newBastionAWSMachineTemplate`. -/
def newBastionAWSMachineTemplate (K : Keys) (config : ClusterCRsConfig) (region : String) :
    AWSMachineTemplate :=
  let uncompressedUserData := true
  let publicIP := true
  let sshKey := ""
  { TypeMeta := { Kind := "AWSMachineTemplate", APIVersion := K.CAPAGroupVersion }
    ObjectMeta :=
      { Name := K.BastionResourceName config.Name
        Namespace := K.OrganizationNamespaceFromName config.Owner
        Labels := none
        Annotations := none }
    Spec :=
      { InsecureSkipSecretsManager := true
        UncompressedUserData := some uncompressedUserData
        IAMInstanceProfile := ""
        PublicIP := some publicIP
        InstanceType := K.AWSBastionInstanceType
        AdditionalSecurityGroups :=
          [ { Filters :=
                [ { Name := K.CAPARoleTag, Values := ["bastion"] },
                  { Name := K.CAPAClusterOwnedTag config.Name, Values := ["owned"] } ] } ]
        SSHKeyName := some sshKey
        Subnet := some { Filters := [ { Name := K.CAPARoleTag, Values := ["public"] } ] }
        ImageLookupOrg := K.FlatcarAWSAccountID region
        ImageLookupFormat := "Flatcar-stable-*"
        Rest := "" } }

/-- The function `moveCRsToOrgNamespace`. -/
def moveCRsToOrgNamespace (K : Keys) (crs : ClusterCRs) (organization : String) : ClusterCRs :=
  let crs : ClusterCRs :=
    { crs with Cluster := { crs.Cluster with
        ObjectMeta := crs.Cluster.ObjectMeta.SetNamespace
          (K.OrganizationNamespaceFromName organization) } }
  let crs : ClusterCRs :=
    { crs with Cluster := { crs.Cluster with Spec := { crs.Cluster.Spec with
        InfrastructureRef := { crs.Cluster.Spec.InfrastructureRef with
          Namespace := K.OrganizationNamespaceFromName organization } } } }
  let crs : ClusterCRs :=
    { crs with AWSCluster := { crs.AWSCluster with
        ObjectMeta := crs.AWSCluster.ObjectMeta.SetNamespace
          (K.OrganizationNamespaceFromName organization) } }
  let crs : ClusterCRs :=
    { crs with G8sControlPlane := { crs.G8sControlPlane with
        ObjectMeta := crs.G8sControlPlane.ObjectMeta.SetNamespace
          (K.OrganizationNamespaceFromName organization) } }
  let crs : ClusterCRs :=
    { crs with G8sControlPlane := { crs.G8sControlPlane with Spec := { crs.G8sControlPlane.Spec with
        InfrastructureRef := { crs.G8sControlPlane.Spec.InfrastructureRef with
          Namespace := K.OrganizationNamespaceFromName organization } } } }
  let crs : ClusterCRs :=
    { crs with AWSControlPlane := { crs.AWSControlPlane with
        ObjectMeta := crs.AWSControlPlane.ObjectMeta.SetNamespace
          (K.OrganizationNamespaceFromName organization) } }
  crs

/-! ## `aws.go`: the modern generation -/

/-- The local variables of `WriteCAPATemplate` that its blocks share.  The map
`crLabels` is one map: a typed object that was given it by `SetLabels` holds
the map itself, so a write through the object is a write to `crLabels`. -/
structure CAPAVars where
  data : CAPAData
  awsRegion : String
  crLabels : GoMap
  deriving DecidableEq, Repr

/-- The body of the loop `for _, o := range objects` of `WriteCAPATemplate`. -/
def WriteCAPATemplate.object (K : Keys) (W : World) (config : ClusterCRsConfig)
    (sshSSOPublicKey : String) (o : Unstructured) (v : CAPAVars) (s : State) :
    Res CAPAVars × State :=
  if o.GetKind = "AWSCluster" then
    let o := o.SetLabels (some v.crLabels)
    match newAWSClusterFromUnstructured K W config o with
    | .error err => (.error (Mask err), s)
    | .panic msg => (.panic msg, s)
    | .ok awscluster =>
      let v := { v with awsRegion := awscluster.Spec.Region }
      match yamlMarshal W (.awsCluster awscluster) s with
      | (.error err, s) => (.error (Mask err), s)
      | (.panic msg, s) => (.panic msg, s)
      | (.ok awsClusterCRYaml, s) =>
        (.ok { v with data := { v.data with AWSClusterCR := awsClusterCRYaml } }, s)
  else if o.GetKind = "AWSMachineTemplate" then
    let o := o.SetLabels (some v.crLabels)
    match newAWSMachineTemplateFromUnstructured K W config o with
    | .error err => (.error (Mask err), s)
    | .panic msg => (.panic msg, s)
    | .ok awsmachinetemplate =>
      match yamlMarshal W (.awsMachineTemplate awsmachinetemplate) s with
      | (.error err, s) => (.error (Mask err), s)
      | (.panic msg, s) => (.panic msg, s)
      | (.ok awsMachineTemplateCRYaml, s) =>
        (.ok { v with data := { v.data with AWSMachineTemplateCR := awsMachineTemplateCRYaml } }, s)
  else if o.GetKind = "Cluster" then
    -- `clusterLabels := crLabels` names the same map: the loop writes into `crLabels`
    let clusterLabels := mapMerge v.crLabels (config.Labels.getD [])
    let v := { v with crLabels := clusterLabels }
    let o := o.SetLabels (some clusterLabels)
    let o := o.SetAnnotations (some (mapSet [] K.ClusterDescription config.Description))
    match yamlMarshal W (.unstructured o) s with
    | (.error err, s) => (.error (Mask err), s)
    | (.panic msg, s) => (.panic msg, s)
    | (.ok clusterCRYaml, s) =>
      (.ok { v with data := { v.data with ClusterCR := clusterCRYaml } }, s)
  else if o.GetKind = "KubeadmControlPlane" then
    let o := o.SetLabels (some v.crLabels)
    match newKubeadmControlPlaneFromUnstructured K W sshSSOPublicKey K.NodeSSHDConfigEncoded o with
    | .error err => (.error (Mask err), s)
    | .panic msg => (.panic msg, s)
    | .ok kubeadmControlPlane =>
      match yamlMarshal W (.kubeadmControlPlane kubeadmControlPlane) s with
      | (.error err, s) => (.error (Mask err), s)
      | (.panic msg, s) => (.panic msg, s)
      | (.ok kubeadmControlPlaneCRYaml, s) =>
        (.ok { v with data := { v.data with KubeadmControlPlaneCR := kubeadmControlPlaneCRYaml } }, s)
  else
    (.ok v, s)

/-- The loop `for _, o := range objects` of `WriteCAPATemplate`. -/
def WriteCAPATemplate.objects (K : Keys) (W : World) (config : ClusterCRsConfig)
    (sshSSOPublicKey : String) : List Unstructured → CAPAVars → State → Res CAPAVars × State
  | [], v, s => (.ok v, s)
  | o :: rest, v, s =>
    match WriteCAPATemplate.object K W config sshSSOPublicKey o v s with
    | (.error err, s) => (.error err, s)
    | (.panic msg, s) => (.panic msg, s)
    | (.ok v, s) => WriteCAPATemplate.objects K W config sshSSOPublicKey rest v s

/-- The block of `WriteCAPATemplate` that builds the `AWSClusterRoleIdentity`. -/
def WriteCAPATemplate.identity (K : Keys) (W : World) (config : ClusterCRsConfig)
    (v : CAPAVars) (s : State) : Res CAPAVars × State :=
  let awsclusterroleidentity := newAWSClusterRoleIdentity K config
  let awsclusterroleidentity : AWSClusterRoleIdentity :=
    { awsclusterroleidentity with
      ObjectMeta := awsclusterroleidentity.ObjectMeta.SetLabels (some v.crLabels) }
  match yamlMarshal W (.awsClusterRoleIdentity awsclusterroleidentity) s with
  | (.error err, s) => (.error (Mask err), s)
  | (.panic msg, s) => (.panic msg, s)
  | (.ok awsClusterRoleIdentityCRYaml, s) =>
    (.ok { v with data := { v.data with AWSClusterRoleIdentityCR := awsClusterRoleIdentityCRYaml } }, s)

/-- The block of `WriteCAPATemplate` that prepares the objects of the bastion.
Each object is given `crLabels` itself, so each write of the role label is a
write to `crLabels`. -/
def WriteCAPATemplate.bastion (K : Keys) (W : World) (config : ClusterCRsConfig)
    (sshSSOPublicKey : String) (v : CAPAVars) (s : State) : Res CAPAVars × State :=
  match newBastionBootstrapSecret K W config K.BastionSSHDConfigEncoded sshSSOPublicKey with
  | .error err => (.error (Mask err), s)
  | .panic msg => (.panic msg, s)
  | .ok bastionSecret =>
    let v := { v with crLabels := mapSet v.crLabels K.CAPIRoleLabel K.RoleBastion }
    let bastionSecret : Secret :=
      { bastionSecret with ObjectMeta := bastionSecret.ObjectMeta.SetLabels (some v.crLabels) }
    match yamlMarshal W (.secret bastionSecret) s with
    | (.error err, s) => (.error (Mask err), s)
    | (.panic msg, s) => (.panic msg, s)
    | (.ok bastionSecretYaml, s) =>
      let v := { v with data := { v.data with BastionBootstrapSecret := bastionSecretYaml } }
      let md := newBastionMachineDeployment K config
      let v := { v with crLabels := mapSet v.crLabels K.CAPIRoleLabel K.RoleBastion }
      let md : MachineDeployment :=
        { md with ObjectMeta := md.ObjectMeta.SetLabels (some v.crLabels) }
      match yamlMarshal W (.machineDeployment md) s with
      | (.error err, s) => (.error (Mask err), s)
      | (.panic msg, s) => (.panic msg, s)
      | (.ok mdYaml, s) =>
        let v := { v with data := { v.data with BastionMachineDeploymentCR := mdYaml } }
        let awsmachinetemplate := newBastionAWSMachineTemplate K config v.awsRegion
        let v := { v with crLabels := mapSet v.crLabels K.CAPIRoleLabel K.RoleBastion }
        let awsmachinetemplate : AWSMachineTemplate :=
          { awsmachinetemplate with
            ObjectMeta := awsmachinetemplate.ObjectMeta.SetLabels (some v.crLabels) }
        match yamlMarshal W (.awsMachineTemplate awsmachinetemplate) s with
        | (.error err, s) => (.error (Mask err), s)
        | (.panic msg, s) => (.panic msg, s)
        | (.ok awsmachinetemplateYaml, s) =>
          (.ok { v with data := { v.data with BastionAWSMachineTemplateCR := awsmachinetemplateYaml } }, s)

/-- The map literal `crLabels` of `WriteCAPATemplate`. -/
def crLabels (K : Keys) (config : ClusterCRsConfig) : GoMap :=
  mapSet (mapSet (mapSet (mapSet (mapSet []
    K.LabelReleaseVersion config.ReleaseVersion)
    K.LabelCluster config.Name)
    K.ClusterLabelName config.Name)
    K.LabelOrganization config.Owner)
    "cluster.x-k8s.io/watch-filter" "capi"

/-- The function `WriteCAPATemplate`. -/
def WriteCAPATemplate (K : Keys) (W : World) (config : ClusterCRsConfig) (s : State) :
    Res Unit × State :=
  if config.ExternalSNAT then
    (.error (.invalidFlag
      ("--external-snat setting is not available for release " ++ config.ReleaseVersion)), s)
  else if config.PodsCIDR ≠ "" then
    (.error (.invalidFlag
      ("--pods-cidr setting is not available for release " ++ config.ReleaseVersion)), s)
  else
    match getCAPAClusterTemplate K W config s with
    | (.error err, s) => (.error err, s)
    | (.panic msg, s) => (.panic msg, s)
    | (.ok clusterTemplate, s) =>
      let s := s.record .sshSSOPublicKey
      match W.SSHSSOPublicKey with
      | .error err => (.error (Mask err), s)
      | .ok sshSSOPublicKey =>
        let data : CAPAData :=
          { AWSClusterCR := none, AWSMachineTemplateCR := none, ClusterCR := none,
            KubeadmControlPlaneCR := none, AWSClusterRoleIdentityCR := none,
            BastionBootstrapSecret := none, BastionMachineDeploymentCR := none,
            BastionAWSMachineTemplateCR := none }
        let v : CAPAVars := { data := data, awsRegion := "", crLabels := crLabels K config }
        match WriteCAPATemplate.objects K W config sshSSOPublicKey clusterTemplate v s with
        | (.error err, s) => (.error err, s)
        | (.panic msg, s) => (.panic msg, s)
        | (.ok v, s) =>
          match WriteCAPATemplate.identity K W config v s with
          | (.error err, s) => (.error err, s)
          | (.panic msg, s) => (.panic msg, s)
          | (.ok v, s) =>
            match WriteCAPATemplate.bastion K W config sshSSOPublicKey v s with
            | (.error err, s) => (.error err, s)
            | (.panic msg, s) => (.panic msg, s)
            | (.ok v, s) =>
              let s := s.record (.executeCAPA v.data)
              let written := W.ExecuteCAPA config.FileName v.data
              let s := { s with out := s.out ++ written.1 }
              match written.2 with
              | some err => (.error (Mask err), s)
              | none => (.ok (), s)

/-! ## `aws.go`: the legacy generation and the dispatcher -/

/-- The function `WriteGSAWSTemplate`.  The write into
`crs.AWSCluster.Annotations` panics when that map is nil. -/
def WriteGSAWSTemplate (K : Keys) (W : World) (config : ClusterCRsConfig) (s : State) :
    Res Unit × State :=
  let crsConfig : CRsConfig :=
    { ClusterID := config.Name
      ExternalSNAT := config.ExternalSNAT
      MasterAZ := config.ControlPlaneAZ
      Description := config.Description
      PodsCIDR := config.PodsCIDR
      Owner := config.Owner
      ReleaseVersion := config.ReleaseVersion
      Labels := config.Labels }
  let s := s.record (.newClusterCRs crsConfig)
  match W.NewClusterCRs crsConfig with
  | .error err => (.error (Mask err), s)
  | .ok crs =>
    let annotated : Res ClusterCRs :=
      if config.ControlPlaneSubnet ≠ "" then
        match crs.AWSCluster.ObjectMeta.Annotations with
        | none => .panic "assignment to entry in nil map"
        | some annotations =>
          .ok { crs with AWSCluster := { crs.AWSCluster with
                  ObjectMeta := { crs.AWSCluster.ObjectMeta with
                    Annotations := some (mapSet annotations K.AWSSubnetSize config.ControlPlaneSubnet) } } }
      else .ok crs
    match annotated with
    | .error err => (.error err, s)
    | .panic msg => (.panic msg, s)
    | .ok crs =>
      let crs :=
        if K.IsOrgNamespaceVersion config.ReleaseVersion then
          moveCRsToOrgNamespace K crs config.Owner
        else crs
      match yamlMarshal W (.cluster crs.Cluster) s with
      | (.error err, s) => (.error (Mask err), s)
      | (.panic msg, s) => (.panic msg, s)
      | (.ok clusterCRYaml, s) =>
        match yamlMarshal W (.gsAWSCluster crs.AWSCluster) s with
        | (.error err, s) => (.error (Mask err), s)
        | (.panic msg, s) => (.panic msg, s)
        | (.ok awsClusterCRYaml, s) =>
          match yamlMarshal W (.g8sControlPlane crs.G8sControlPlane) s with
          | (.error err, s) => (.error (Mask err), s)
          | (.panic msg, s) => (.panic msg, s)
          | (.ok g8sControlPlaneCRYaml, s) =>
            match yamlMarshal W (.awsControlPlane crs.AWSControlPlane) s with
            | (.error err, s) => (.error (Mask err), s)
            | (.panic msg, s) => (.panic msg, s)
            | (.ok awsControlPlaneCRYaml, s) =>
              let data : AWSData :=
                { AWSClusterCR := awsClusterCRYaml
                  ClusterCR := clusterCRYaml
                  G8sControlPlaneCR := g8sControlPlaneCRYaml
                  AWSControlPlaneCR := awsControlPlaneCRYaml }
              let s := s.record (.executeAWS data)
              let written := W.ExecuteAWS config.FileName data
              let s := { s with out := s.out ++ written.1 }
              match written.2 with
              | some err => (.error (Mask err), s)
              | none => (.ok (), s)

/-- The function `WriteAWSTemplate`. -/
def WriteAWSTemplate (K : Keys) (W : World) (config : ClusterCRsConfig) (s : State) :
    Res Unit × State :=
  if K.IsCAPAVersion config.ReleaseVersion then
    match WriteCAPATemplate K W config s with
    | (.error err, s) => (.error (Mask err), s)
    | (.panic msg, s) => (.panic msg, s)
    | (.ok _, s) => (.ok (), s)
  else
    match WriteGSAWSTemplate K W config s with
    | (.error err, s) => (.error (Mask err), s)
    | (.panic msg, s) => (.panic msg, s)
    | (.ok _, s) => (.ok (), s)

/-! ## `organization/service.go` -/

namespace organization

/-- The type `securityv1alpha1.Organization`, with the name of its metadata. -/
structure Organization where
  Name : String
  Rest : String
  deriving DecidableEq, Repr

/-- The type `GetOptions`. -/
structure GetOptions where
  Name : String
  deriving DecidableEq, Repr

/-- The interface `Resource`, with its two implementations `*Organization` and
`*Collection`. -/
inductive Resource where
  | Organization (o : Organization)
  | Collection (Items : List Organization)
  deriving DecidableEq, Repr

/-- The type `Service`.  `List` is the call `CtrlClient().List(ctx, organizations, ...)`
on the client: the organizations of the store, or an error. -/
structure Service where
  List : Except Err (List Organization)

/-- The method `Service.getAll`. -/
def Service.getAll (s : Service) : Res Resource :=
  match s.List with
  | .error err => .error (Mask err)
  | .ok items =>
    if items.length = 0 then .error (Mask .noResources)
    else .ok (.Collection items)

/-- The method `Service.getByName`. -/
def Service.getByName (s : Service) (_name : String) : Res Resource :=
  match s.List with
  | .error err => .error (Mask err)
  | .ok items =>
    match items with
    | [] => .error (Mask .notFound)
    | first :: _ => .ok (.Organization first)

/-- The method `Service.Get`. -/
def Service.Get (s : Service) (options : GetOptions) : Res Resource :=
  if options.Name.length > 0 then
    match s.getByName options.Name with
    | .error err => .error (Mask err)
    | .panic msg => .panic msg
    | .ok resource => .ok resource
  else
    match s.getAll with
    | .error err => .error (Mask err)
    | .panic msg => .panic msg
    | .ok resource => .ok resource

end organization

/-! ## Sample values

Concrete constants, collaborators and requests on which the definitions above
can be evaluated. -/

/-- Constants as the packages `key`, `label` and `annotation` define them; the
modern generation is taken to start at release `20.0.0`. -/
def sampleKeys : Keys where
  IsCAPAVersion := fun v => decide (v = "20.0.0")
  IsOrgNamespaceVersion := fun v => decide (v = "16.0.0")
  OrganizationNamespaceFromName := fun n => "org-" ++ n
  BastionResourceName := fun n => n ++ "-bastion"
  GetControlPlaneInstanceProfile := fun n => "control-plane-" ++ n
  CAPAClusterOwnedTag := fun n => "tag:sigs.k8s.io/cluster-api-provider-aws/cluster/" ++ n
  FlatcarAWSAccountID := fun _ => "075585003325"
  CAPAEnvVars := ["AWS_REGION", "AWS_SSH_KEY_NAME"]
  NodeSSHDConfigEncoded := "c3NoZA=="
  BastionSSHDConfigEncoded := "YmFzdGlvbg=="
  UbuntuSudoersConfigEncoded := "c3Vkbw=="
  CAPIRoleLabel := "cluster.x-k8s.io/role"
  RoleBastion := "bastion"
  CAPARoleTag := "tag:sigs.k8s.io/cluster-api-provider-aws/role"
  AWSBastionInstanceType := "t3.small"
  LabelReleaseVersion := "release.giantswarm.io/version"
  LabelCluster := "giantswarm.io/cluster"
  LabelOrganization := "giantswarm.io/organization"
  ClusterLabelName := "cluster.x-k8s.io/cluster-name"
  ClusterDescription := "cluster.giantswarm.io/description"
  AWSSubnetSize := "alpha.aws.giantswarm.io/aws-subnet-size"
  ClusterRoleIdentityKind := "AWSClusterRoleIdentity"
  CAPAGroupVersion := "infrastructure.cluster.x-k8s.io/v1alpha3"
  CAPIGroupVersion := "cluster.x-k8s.io/v1alpha3"
  CoreGroupVersion := "v1"
  Base64 := "base64"

/-- An untyped object of the given kind, as a generator may return it. -/
def sampleObject (kind : String) : Unstructured :=
  { Kind := kind, APIVersion := "v1alpha3", Name := "abc12", Namespace := "org-acme",
    Labels := none, Annotations := none, Content := "" }

/-- A legacy object graph in the namespace `default`. -/
def sampleCRs : ClusterCRs :=
  { Cluster :=
      { TypeMeta := { Kind := "Cluster", APIVersion := "cluster.x-k8s.io/v1alpha3" }
        ObjectMeta := { Name := "abc12", Namespace := "default", Labels := some [], Annotations := some [] }
        Spec := { InfrastructureRef :=
                    { APIVersion := "infrastructure.giantswarm.io/v1alpha3", Kind := "AWSCluster",
                      Name := "abc12", Namespace := "default" }
                  Rest := "" } }
    AWSCluster :=
      { TypeMeta := { Kind := "AWSCluster", APIVersion := "infrastructure.giantswarm.io/v1alpha3" }
        ObjectMeta := { Name := "abc12", Namespace := "default", Labels := some [], Annotations := some [] }
        Rest := "" }
    G8sControlPlane :=
      { TypeMeta := { Kind := "G8sControlPlane", APIVersion := "infrastructure.giantswarm.io/v1alpha3" }
        ObjectMeta := { Name := "cp001", Namespace := "default", Labels := some [], Annotations := some [] }
        Spec := { InfrastructureRef :=
                    { APIVersion := "infrastructure.giantswarm.io/v1alpha3", Kind := "AWSControlPlane",
                      Name := "cp001", Namespace := "default" }
                  Rest := "" } }
    AWSControlPlane :=
      { TypeMeta := { Kind := "AWSControlPlane", APIVersion := "infrastructure.giantswarm.io/v1alpha3" }
        ObjectMeta := { Name := "cp001", Namespace := "default", Labels := some [], Annotations := some [] }
        Rest := "" } }

/-- Collaborators that all succeed: the generator returns one object of each
of the four recognized kinds, the converters return empty specs. -/
def sampleWorld : World where
  ClientNew := none
  GetClusterTemplate := fun _ _ =>
    .ok [sampleObject "AWSCluster", sampleObject "AWSMachineTemplate", sampleObject "Cluster",
         sampleObject "KubeadmControlPlane"]
  SSHSSOPublicKey := .ok "c3NvLWtleQ=="
  ConvertAWSCluster := fun _ =>
    .ok { Region := "eu-central-1", IdentityRef := none, NetworkSpec := { Subnets := [] }, Rest := "" }
  ConvertAWSMachineTemplate := fun _ =>
    .ok { InsecureSkipSecretsManager := false, UncompressedUserData := none, IAMInstanceProfile := "",
          PublicIP := none, InstanceType := "m5.xlarge", AdditionalSecurityGroups := [],
          SSHKeyName := none, Subnet := none, ImageLookupOrg := "", ImageLookupFormat := "", Rest := "" }
  ConvertKubeadmControlPlane := fun _ =>
    .ok { Replicas := some 3, Version := "v1.19.9",
          KubeadmConfigSpec := { Files := [], PostKubeadmCommands := [], Users := [], Rest := "" },
          Rest := "" }
  MarshalError := fun _ => none
  BastionIgnition := fun _ _ _ _ => .ok "aWduaXRpb24="
  ExecuteCAPA := fun _ _ => (["bundle"], none)
  ExecuteAWS := fun _ _ => (["bundle"], none)
  NewClusterCRs := fun _ => .ok sampleCRs

/-- A request for the modern generation. -/
def sampleConfig : ClusterCRsConfig :=
  { FileName := "cluster.yaml", ControlPlaneAZ := ["eu-central-1a"], ControlPlaneSubnet := "",
    Description := "test", ExternalSNAT := false, Name := "abc12", Owner := "acme", PodsCIDR := "",
    ReleaseVersion := "20.0.0", Labels := none }

/-- A state in which no variable is set and nothing has been written. -/
def sampleState : State := { env := fun _ => none, out := [], log := [] }

/-- A request for the legacy generation with the tenant-namespace layout. -/
def sampleConfigLegacy : ClusterCRsConfig :=
  { sampleConfig with ReleaseVersion := "16.0.0" }

/-- A state in which `AWS_REGION` is set to the empty string. -/
def sampleStateEmptyVar : State :=
  { env := fun x => if x = "AWS_REGION" then some "" else none, out := [], log := [] }

/-- Collaborators as in `sampleWorld`, but the writer behind `out` fails after
the first document separator has been written. -/
def sampleWorldShortWrite : World :=
  { sampleWorld with
    ExecuteCAPA := fun _ _ => (["---\n"], some (.external "short write")) }

/-- A store that holds the single organization `acme`. -/
def sampleService : organization.Service :=
  { List := .ok [ { Name := "acme", Rest := "" } ] }

/-! ## Vocabulary of the properties -/

/-- The shared label set of a request, as key/value pairs. -/
def sharedLabels (K : Keys) (config : ClusterCRsConfig) : List (String × String) :=
  [ (K.LabelReleaseVersion, config.ReleaseVersion),
    (K.LabelCluster, config.Name),
    (K.ClusterLabelName, config.Name),
    (K.LabelOrganization, config.Owner),
    ("cluster.x-k8s.io/watch-filter", "capi") ]

/-- The keys of the shared label set. -/
def sharedKeys (K : Keys) : List String :=
  [ K.LabelReleaseVersion, K.LabelCluster, K.ClusterLabelName, K.LabelOrganization,
    "cluster.x-k8s.io/watch-filter" ]

/-- The value an object's label map gives to a key. -/
def Object.label (o : Object) (k : String) : Option String :=
  match o.labels with
  | none => none
  | some m => mapGet m k

/-- The map holds every pair of the shared label set. -/
def HoldsShared (K : Keys) (config : ClusterCRsConfig) (m : GoMap) : Prop :=
  ∀ kv ∈ sharedLabels K config, mapGet m kv.1 = some kv.2

/-- The object carries the complete shared label set. -/
def CarriesSharedLabels (K : Keys) (config : ClusterCRsConfig) (o : Object) : Prop :=
  ∀ kv ∈ sharedLabels K config, o.label kv.1 = some kv.2

instance (K : Keys) (config : ClusterCRsConfig) (o : Object) :
    Decidable (CarriesSharedLabels K config o) := by
  unfold CarriesSharedLabels; infer_instance

/-- The caller's labels give no key of the shared label set a different value. -/
def LabelsAgree (K : Keys) (config : ClusterCRsConfig) : Prop :=
  ∀ k v, (k, v) ∈ config.Labels.getD [] → ∀ v', (k, v') ∈ sharedLabels K config → v = v'

/-- A request for the modern generation whose labels use a key of the shared
label set. -/
def sampleConfigClash : ClusterCRsConfig :=
  { sampleConfig with Labels := some [("giantswarm.io/cluster", "other")] }

/-- One private and one public subnet descriptor for each entry of a list of
availability zones, in the order of the list. -/
def zonePairs : List String → List SubnetSpec
  | [] => []
  | az :: rest =>
    { ID := "", CidrBlock := "", AvailabilityZone := az, IsPublic := false } ::
    { ID := "", CidrBlock := "", AvailabilityZone := az, IsPublic := true } :: zonePairs rest

/-- The number of subnet descriptors of a zone that are public, or private. -/
def subnetCount (subnets : List SubnetSpec) (az : String) (isPublic : Bool) : Nat :=
  subnets.countP (fun sn => decide (sn.AvailabilityZone = az ∧ sn.IsPublic = isPublic))

/-- Collaborators as in `sampleWorld`, but the base `AWSCluster` of the
generator already has a subnet. -/
def sampleWorldSubnet : World :=
  { sampleWorld with
    ConvertAWSCluster := fun _ =>
      .ok { Region := "eu-central-1", IdentityRef := none,
            NetworkSpec := { Subnets := [ { ID := "subnet-0", CidrBlock := "10.0.0.0/24",
                                            AvailabilityZone := "eu-central-1a", IsPublic := false } ] },
            Rest := "" } }

/-- The event is a call of `t.Execute`, the one call that is given `out`. -/
def Event.isExecute : Event → Bool
  | .executeCAPA _ => true
  | .executeAWS _ => true
  | _ => false

/-- What `WriteCAPATemplate` and `WriteGSAWSTemplate` return after `t.Execute`
returned the given error, or none. -/
def ofExecute : Option Err → Res Unit
  | some err => .error (Mask err)
  | none => .ok ()

/-- Between the two states nothing was written to the output, and the record of
calls has grown by calls other than `t.Execute`. -/
def Quiet (before after : State) : Prop :=
  after.out = before.out ∧
    ∃ evs, after.log = before.log ++ evs ∧ ∀ e ∈ evs, e.isExecute = false

/-- The event is a call of the encoder on an object that satisfies `Q`. -/
def IsMarshalOf (Q : Object → Prop) : Event → Prop
  | .marshal o => Q o
  | _ => False

/-- Between the two states the environment and the output are the same, and the
record of calls has grown by calls of the encoder on objects satisfying `Q`. -/
def AddsOnly (Q : Object → Prop) (before after : State) : Prop :=
  after.env = before.env ∧ after.out = before.out ∧
    ∃ evs, after.log = before.log ++ evs ∧ ∀ e ∈ evs, IsMarshalOf Q e

/-- The kinds the loop of `WriteCAPATemplate` has a case for. -/
def recognizedKinds : List String :=
  ["AWSCluster", "AWSMachineTemplate", "Cluster", "KubeadmControlPlane"]

/-- The kinds of the objects of a base set that the loop has a case for, in
the order of the base set. -/
def kindsOf (objs : List Unstructured) : List String :=
  (objs.map Unstructured.GetKind).filter (fun k => decide (k ∈ recognizedKinds))

/-- The field of `data` that the loop fills for an object of the given kind. -/
def CAPAData.ofKind (d : CAPAData) (k : String) : Yaml :=
  if k = "AWSCluster" then d.AWSClusterCR
  else if k = "AWSMachineTemplate" then d.AWSMachineTemplateCR
  else if k = "Cluster" then d.ClusterCR
  else if k = "KubeadmControlPlane" then d.KubeadmControlPlaneCR
  else none

/-- The object documents of the bundle of `WriteCAPATemplate`: the fields of
`data` that are not empty, in the order of the fields. -/
def CAPAData.documents (d : CAPAData) : List Object :=
  d.AWSClusterCR.toList ++ d.AWSMachineTemplateCR.toList ++ d.ClusterCR.toList ++
    d.KubeadmControlPlaneCR.toList ++ d.AWSClusterRoleIdentityCR.toList ++
    d.BastionBootstrapSecret.toList ++ d.BastionMachineDeploymentCR.toList ++
    d.BastionAWSMachineTemplateCR.toList

/-- The object documents of the bundle of `WriteGSAWSTemplate`. -/
def AWSData.documents (d : AWSData) : List Object :=
  d.AWSClusterCR.toList ++ d.AWSControlPlaneCR.toList ++ d.ClusterCR.toList ++
    d.G8sControlPlaneCR.toList

/-- The bundles handed to `t.Execute` by `WriteCAPATemplate`, oldest first. -/
def executedCAPA : List Event → List CAPAData
  | [] => []
  | .executeCAPA data :: rest => data :: executedCAPA rest
  | _ :: rest => executedCAPA rest

/-- Collaborators as in `sampleWorld`, but the base set of the generator has the
`Cluster` object before the `AWSMachineTemplate`. -/
def sampleWorldClusterFirst : World :=
  { sampleWorld with
    GetClusterTemplate := fun _ _ =>
      .ok [sampleObject "Cluster", sampleObject "AWSCluster", sampleObject "KubeadmControlPlane",
           sampleObject "AWSMachineTemplate"] }

/-- A request for the modern generation with the caller label `team = rocket`. -/
def sampleConfigTeam : ClusterCRsConfig :=
  { sampleConfig with Labels := some [("team", "rocket")] }

/-! ## Lemmas on label maps -/

theorem mapGet_mapSet (m : GoMap) (k v k' : String) :
    mapGet (mapSet m k v) k' = if k = k' then some v else mapGet m k' := by
  induction m with
  | nil => simp [mapSet, mapGet]
  | cons p rest ih =>
    obtain ⟨a, b⟩ := p
    by_cases h : a = k
    · subst h
      by_cases h' : a = k' <;> simp [mapSet, mapGet, h']
    · by_cases h' : a = k'
      · subst h'
        have : ¬ k = a := fun e => h e.symm
        simp [mapSet, mapGet, h, this]
      · simp [mapSet, mapGet, h, h', ih]

theorem holdsShared_mapSet (K : Keys) (config : ClusterCRsConfig) (m : GoMap) (k v : String)
    (hm : HoldsShared K config m)
    (hk : ∀ v', (k, v') ∈ sharedLabels K config → v = v') :
    HoldsShared K config (mapSet m k v) := by
  intro kv hkv
  rw [mapGet_mapSet]
  by_cases h : k = kv.1
  · have : v = kv.2 := hk kv.2 (by rw [h]; exact hkv)
    simp [h, this]
  · simp [h, hm kv hkv]

theorem holdsShared_mapMerge (K : Keys) (config : ClusterCRsConfig) (l : GoMap) :
    ∀ m : GoMap, HoldsShared K config m →
      (∀ k v, (k, v) ∈ l → ∀ v', (k, v') ∈ sharedLabels K config → v = v') →
      HoldsShared K config (mapMerge m l) := by
  induction l with
  | nil => intro m hm _; simpa [mapMerge] using hm
  | cons p rest ih =>
    obtain ⟨a, b⟩ := p
    intro m hm hl
    simp only [mapMerge]
    apply ih
    · exact holdsShared_mapSet K config m a b hm (hl a b (by simp))
    · intro k v hkv
      exact hl k v (by simp [hkv])

theorem mem_sharedLabels_key (K : Keys) (config : ClusterCRsConfig) (k v : String)
    (h : (k, v) ∈ sharedLabels K config) : k ∈ sharedKeys K := by
  simp only [sharedLabels, List.mem_cons, Prod.mk.injEq, List.mem_singleton, List.not_mem_nil,
    or_false] at h
  simp only [sharedKeys, List.mem_cons, List.mem_singleton, List.not_mem_nil, or_false]
  rcases h with h | h | h | h | h
  · exact Or.inl h.1
  · exact Or.inr (Or.inl h.1)
  · exact Or.inr (Or.inr (Or.inl h.1))
  · exact Or.inr (Or.inr (Or.inr (Or.inl h.1)))
  · exact Or.inr (Or.inr (Or.inr (Or.inr h.1)))

theorem holdsShared_crLabels (K : Keys) (config : ClusterCRsConfig)
    (hkeys : (sharedKeys K).Nodup) : HoldsShared K config (crLabels K config) := by
  simp only [sharedKeys, List.nodup_cons, List.mem_cons, List.mem_singleton, not_or,
    List.not_mem_nil, not_false_eq_true, List.nodup_nil, and_true] at hkeys
  obtain ⟨⟨h12, h13, h14, h15⟩, ⟨h23, h24, h25⟩, ⟨h34, h35⟩, h45⟩ := hkeys
  intro kv hkv
  simp only [sharedLabels, List.mem_cons, List.mem_singleton, List.not_mem_nil, or_false] at hkv
  simp only [crLabels, mapGet_mapSet, mapGet]
  have h21 := Ne.symm h12
  have h31 := Ne.symm h13
  have h41 := Ne.symm h14
  have h51 := Ne.symm h15
  have h32 := Ne.symm h23
  have h42 := Ne.symm h24
  have h52 := Ne.symm h25
  have h43 := Ne.symm h34
  have h53 := Ne.symm h35
  have h54 := Ne.symm h45
  rcases hkv with h | h | h | h | h <;> subst h <;> simp [*]

/-! ## Lemmas on the record of calls -/

theorem marshalled_append (l₁ l₂ : List Event) :
    marshalled (l₁ ++ l₂) = marshalled l₁ ++ marshalled l₂ := by
  induction l₁ with
  | nil => rfl
  | cons e rest ih => cases e <;> simp [marshalled, ih]

theorem yamlMarshal_fst (W : World) (o : Object) (s : State) :
    (yamlMarshal W o s).1 =
      match W.MarshalError o with
      | some e => .error e
      | none => .ok (some o) := by
  unfold yamlMarshal; cases W.MarshalError o <;> rfl

theorem yamlMarshal_snd (W : World) (o : Object) (s : State) :
    (yamlMarshal W o s).2 = s.record (.marshal o) := by
  unfold yamlMarshal; cases W.MarshalError o <;> rfl

theorem AddsOnly.unchanged (Q : Object → Prop) (s : State) : AddsOnly Q s s :=
  ⟨rfl, rfl, [], by simp, by simp⟩

theorem AddsOnly.andThen {Q : Object → Prop} {a b c : State}
    (h₁ : AddsOnly Q a b) (h₂ : AddsOnly Q b c) : AddsOnly Q a c := by
  obtain ⟨e₁, o₁, evs₁, l₁, p₁⟩ := h₁
  obtain ⟨e₂, o₂, evs₂, l₂, p₂⟩ := h₂
  refine ⟨e₂.trans e₁, o₂.trans o₁, evs₁ ++ evs₂, ?_, ?_⟩
  · rw [l₂, l₁, List.append_assoc]
  · intro e he
    rcases List.mem_append.mp he with h | h
    · exact p₁ e h
    · exact p₂ e h

theorem AddsOnly.mono {Q R : Object → Prop} {a b : State} (h : AddsOnly Q a b)
    (hQR : ∀ o, Q o → R o) : AddsOnly R a b := by
  obtain ⟨e₁, o₁, evs₁, l₁, p₁⟩ := h
  refine ⟨e₁, o₁, evs₁, l₁, ?_⟩
  intro e he
  have := p₁ e he
  cases e <;> simp_all [IsMarshalOf]

theorem marshalled_of_isMarshalOf (Q : Object → Prop) (evs : List Event)
    (h : ∀ e ∈ evs, IsMarshalOf Q e) : ∀ o ∈ marshalled evs, Q o := by
  induction evs with
  | nil => intro o ho; simp [marshalled] at ho
  | cons e rest ih =>
    intro o ho
    have he := h e (by simp)
    have hrest : ∀ e ∈ rest, IsMarshalOf Q e := fun e' he' => h e' (by simp [he'])
    cases e with
    | marshal x =>
      simp only [marshalled, List.mem_cons] at ho
      rcases ho with ho | ho
      · subst ho; exact he
      · exact ih hrest o ho
    | _ => exact absurd he (by simp [IsMarshalOf])

theorem AddsOnly.marshalled {Q : Object → Prop} {a b : State} (h : AddsOnly Q a b) :
    ∀ o ∈ marshalled b.log, o ∈ marshalled a.log ∨ Q o := by
  obtain ⟨_, _, evs, l, p⟩ := h
  intro o ho
  rw [l, marshalled_append] at ho
  rcases List.mem_append.mp ho with h | h
  · exact Or.inl h
  · exact Or.inr (marshalled_of_isMarshalOf Q evs p o h)

theorem addsOnly_record_marshal (Q : Object → Prop) (o : Object) (s : State) (h : Q o) :
    AddsOnly Q s (s.record (.marshal o)) :=
  ⟨rfl, rfl, [.marshal o], rfl, by simpa [IsMarshalOf] using h⟩

/-! ## The shared label set in `WriteCAPATemplate` -/

theorem carries_of_labels (K : Keys) (config : ClusterCRsConfig) (o : Object) (m : GoMap)
    (hl : o.labels = some m) (hm : HoldsShared K config m) : CarriesSharedLabels K config o := by
  intro kv hkv
  simp [Object.label, hl, hm kv hkv]

theorem not_shared_key (K : Keys) (config : ClusterCRsConfig) (k v : String)
    (hk : k ∉ sharedKeys K) : ∀ v', (k, v') ∈ sharedLabels K config → v = v' :=
  fun v' h => absurd (mem_sharedLabels_key K config k v' h) hk

theorem yamlMarshal_cases (W : World) (o : Object) (s : State) :
    (∃ e, yamlMarshal W o s = (.error e, s.record (.marshal o))) ∨
      yamlMarshal W o s = (.ok (some o), s.record (.marshal o)) := by
  unfold yamlMarshal
  cases W.MarshalError o with
  | none => exact Or.inr rfl
  | some e => exact Or.inl ⟨e, rfl⟩

theorem newAWSClusterFromUnstructured_labels (K : Keys) (W : World) (config : ClusterCRsConfig)
    (o : Unstructured) (a : AWSCluster)
    (h : newAWSClusterFromUnstructured K W config o = .ok a) :
    a.ObjectMeta.Labels = o.Labels := by
  unfold newAWSClusterFromUnstructured at h
  cases hc : W.ConvertAWSCluster o with
  | error e => simp [hc] at h
  | ok spec =>
    simp only [hc, Res.ok.injEq] at h
    subst h
    split <;> rfl

theorem newAWSMachineTemplateFromUnstructured_labels (K : Keys) (W : World)
    (config : ClusterCRsConfig) (o : Unstructured) (a : AWSMachineTemplate)
    (h : newAWSMachineTemplateFromUnstructured K W config o = .ok a) :
    ∃ m, o.Labels = some m ∧
      a.ObjectMeta.Labels = some (mapSet m "cluster.x-k8s.io/role" "control-plane") := by
  unfold newAWSMachineTemplateFromUnstructured at h
  cases hc : W.ConvertAWSMachineTemplate o with
  | error e => simp [hc] at h
  | ok spec =>
    simp only [hc] at h
    cases hl : o.Labels with
    | none => simp [Unstructured.objectMeta, hl] at h
    | some m =>
      simp only [Unstructured.objectMeta, hl, Res.ok.injEq] at h
      subst h
      exact ⟨m, rfl, rfl⟩

theorem newKubeadmControlPlaneFromUnstructured_labels (K : Keys) (W : World)
    (key sshd : String) (o : Unstructured) (a : KubeadmControlPlane)
    (h : newKubeadmControlPlaneFromUnstructured K W key sshd o = .ok a) :
    a.ObjectMeta.Labels = o.Labels := by
  unfold newKubeadmControlPlaneFromUnstructured at h
  cases hc : W.ConvertKubeadmControlPlane o with
  | error e => simp [hc] at h
  | ok spec =>
    simp only [hc, Res.ok.injEq] at h
    subst h
    rfl

theorem object_carries (K : Keys) (W : World) (config : ClusterCRsConfig) (key : String)
    (o : Unstructured) (v : CAPAVars) (s : State)
    (hrole : "cluster.x-k8s.io/role" ∉ sharedKeys K)
    (hagree : LabelsAgree K config)
    (hv : HoldsShared K config v.crLabels) :
    AddsOnly (CarriesSharedLabels K config) s (WriteCAPATemplate.object K W config key o v s).2 ∧
      ∀ v', (WriteCAPATemplate.object K W config key o v s).1 = .ok v' →
        HoldsShared K config v'.crLabels := by
  unfold WriteCAPATemplate.object
  split
  · -- AWSCluster
    cases hr : newAWSClusterFromUnstructured K W config (o.SetLabels (some v.crLabels)) with
    | error e => simp [hr, AddsOnly.unchanged]
    | panic msg => simp [hr, AddsOnly.unchanged]
    | ok a =>
      simp only [hr]
      have hl := newAWSClusterFromUnstructured_labels K W config _ a hr
      have hc : CarriesSharedLabels K config (.awsCluster a) :=
        carries_of_labels K config _ v.crLabels hl hv
      rcases yamlMarshal_cases W (.awsCluster a) s with ⟨e, h⟩ | h
      · simp only [h]
        exact ⟨addsOnly_record_marshal _ _ _ hc, by simp⟩
      · simp only [h]
        refine ⟨addsOnly_record_marshal _ _ _ hc, ?_⟩
        intro v' hv'
        simp only [Res.ok.injEq] at hv'
        subst hv'
        exact hv
  · split
    · -- AWSMachineTemplate
      cases hr : newAWSMachineTemplateFromUnstructured K W config (o.SetLabels (some v.crLabels)) with
      | error e => simp [hr, AddsOnly.unchanged]
      | panic msg => simp [hr, AddsOnly.unchanged]
      | ok a =>
        simp only [hr]
        obtain ⟨m, hm, hl⟩ := newAWSMachineTemplateFromUnstructured_labels K W config _ a hr
        have hm' : m = v.crLabels := by
          simp only [Unstructured.SetLabels, Option.some.injEq] at hm; exact hm.symm
        subst hm'
        have hc : CarriesSharedLabels K config (.awsMachineTemplate a) :=
          carries_of_labels K config _ _ hl
            (holdsShared_mapSet K config _ _ _ hv (not_shared_key K config _ _ hrole))
        rcases yamlMarshal_cases W (.awsMachineTemplate a) s with ⟨e, h⟩ | h
        · simp only [h]
          exact ⟨addsOnly_record_marshal _ _ _ hc, by simp⟩
        · simp only [h]
          refine ⟨addsOnly_record_marshal _ _ _ hc, ?_⟩
          intro v' hv'
          simp only [Res.ok.injEq] at hv'
          subst hv'
          exact hv
    · split
      · -- Cluster
        have hmerge : HoldsShared K config (mapMerge v.crLabels (config.Labels.getD [])) :=
          holdsShared_mapMerge K config _ _ hv hagree
        have hc : CarriesSharedLabels K config
            (.unstructured ((o.SetLabels (some (mapMerge v.crLabels (config.Labels.getD [])))).SetAnnotations
              (some (mapSet [] K.ClusterDescription config.Description)))) :=
          carries_of_labels K config _ _ rfl hmerge
        rcases yamlMarshal_cases W
          (.unstructured ((o.SetLabels (some (mapMerge v.crLabels (config.Labels.getD [])))).SetAnnotations
              (some (mapSet [] K.ClusterDescription config.Description)))) s with ⟨e, h⟩ | h
        · simp only [h]
          exact ⟨addsOnly_record_marshal _ _ _ hc, by simp⟩
        · simp only [h]
          refine ⟨addsOnly_record_marshal _ _ _ hc, ?_⟩
          intro v' hv'
          simp only [Res.ok.injEq] at hv'
          subst hv'
          exact hmerge
      · split
        · -- KubeadmControlPlane
          cases hr : newKubeadmControlPlaneFromUnstructured K W key K.NodeSSHDConfigEncoded
              (o.SetLabels (some v.crLabels)) with
          | error e => simp [hr, AddsOnly.unchanged]
          | panic msg => simp [hr, AddsOnly.unchanged]
          | ok a =>
            simp only [hr]
            have hl := newKubeadmControlPlaneFromUnstructured_labels K W _ _ _ a hr
            have hc : CarriesSharedLabels K config (.kubeadmControlPlane a) :=
              carries_of_labels K config _ v.crLabels hl hv
            rcases yamlMarshal_cases W (.kubeadmControlPlane a) s with ⟨e, h⟩ | h
            · simp only [h]
              exact ⟨addsOnly_record_marshal _ _ _ hc, by simp⟩
            · simp only [h]
              refine ⟨addsOnly_record_marshal _ _ _ hc, ?_⟩
              intro v' hv'
              simp only [Res.ok.injEq] at hv'
              subst hv'
              exact hv
        · refine ⟨AddsOnly.unchanged _ _, ?_⟩
          intro v' hv'
          simp only [Res.ok.injEq] at hv'
          subst hv'
          exact hv

theorem objects_carry (K : Keys) (W : World) (config : ClusterCRsConfig) (key : String)
    (hrole : "cluster.x-k8s.io/role" ∉ sharedKeys K)
    (hagree : LabelsAgree K config) (objs : List Unstructured) :
    ∀ (v : CAPAVars) (s : State), HoldsShared K config v.crLabels →
      AddsOnly (CarriesSharedLabels K config) s
          (WriteCAPATemplate.objects K W config key objs v s).2 ∧
        ∀ v', (WriteCAPATemplate.objects K W config key objs v s).1 = .ok v' →
          HoldsShared K config v'.crLabels := by
  induction objs with
  | nil =>
    intro v s hv
    refine ⟨AddsOnly.unchanged _ _, ?_⟩
    intro v' hv'
    simp only [WriteCAPATemplate.objects, Res.ok.injEq] at hv'
    subst hv'
    exact hv
  | cons o rest ih =>
    intro v s hv
    obtain ⟨h₁, h₂⟩ := object_carries K W config key o v s hrole hagree hv
    unfold WriteCAPATemplate.objects
    rcases hstep : WriteCAPATemplate.object K W config key o v s with ⟨r, s'⟩
    rw [hstep] at h₁ h₂
    cases r with
    | error e => exact ⟨h₁, by simp⟩
    | panic msg => exact ⟨h₁, by simp⟩
    | ok v₁ =>
      obtain ⟨h₃, h₄⟩ := ih v₁ s' (h₂ v₁ rfl)
      exact ⟨h₁.andThen h₃, h₄⟩

theorem identity_carries (K : Keys) (W : World) (config : ClusterCRsConfig)
    (v : CAPAVars) (s : State) (hv : HoldsShared K config v.crLabels) :
    AddsOnly (CarriesSharedLabels K config) s (WriteCAPATemplate.identity K W config v s).2 ∧
      ∀ v', (WriteCAPATemplate.identity K W config v s).1 = .ok v' →
        HoldsShared K config v'.crLabels := by
  unfold WriteCAPATemplate.identity
  have hc : CarriesSharedLabels K config
      (.awsClusterRoleIdentity { newAWSClusterRoleIdentity K config with
        ObjectMeta := (newAWSClusterRoleIdentity K config).ObjectMeta.SetLabels (some v.crLabels) }) :=
    carries_of_labels K config _ _ rfl hv
  rcases yamlMarshal_cases W
      (.awsClusterRoleIdentity { newAWSClusterRoleIdentity K config with
        ObjectMeta := (newAWSClusterRoleIdentity K config).ObjectMeta.SetLabels (some v.crLabels) }) s
    with ⟨e, h⟩ | h
  · simp only [h]
    exact ⟨addsOnly_record_marshal _ _ _ hc, by simp⟩
  · simp only [h]
    refine ⟨addsOnly_record_marshal _ _ _ hc, ?_⟩
    intro v' hv'
    simp only [Res.ok.injEq] at hv'
    subst hv'
    exact hv

theorem bastion_carries (K : Keys) (W : World) (config : ClusterCRsConfig) (key : String)
    (v : CAPAVars) (s : State)
    (hrole : K.CAPIRoleLabel ∉ sharedKeys K)
    (hv : HoldsShared K config v.crLabels) :
    AddsOnly (CarriesSharedLabels K config) s (WriteCAPATemplate.bastion K W config key v s).2 := by
  have h₁ : HoldsShared K config (mapSet v.crLabels K.CAPIRoleLabel K.RoleBastion) :=
    holdsShared_mapSet K config _ _ _ hv (not_shared_key K config _ _ hrole)
  have h₂ := holdsShared_mapSet K config _ K.CAPIRoleLabel K.RoleBastion h₁
    (not_shared_key K config _ _ hrole)
  have h₃ := holdsShared_mapSet K config _ K.CAPIRoleLabel K.RoleBastion h₂
    (not_shared_key K config _ _ hrole)
  unfold WriteCAPATemplate.bastion
  cases hr : newBastionBootstrapSecret K W config K.BastionSSHDConfigEncoded key with
  | error e => simp [hr, AddsOnly.unchanged]
  | panic msg => simp [hr, AddsOnly.unchanged]
  | ok sec =>
    simp only [hr]
    have hc₁ : CarriesSharedLabels K config (.secret { sec with
        ObjectMeta := sec.ObjectMeta.SetLabels
          (some (mapSet v.crLabels K.CAPIRoleLabel K.RoleBastion)) }) :=
      carries_of_labels K config _ _ rfl h₁
    rcases yamlMarshal_cases W (.secret { sec with
        ObjectMeta := sec.ObjectMeta.SetLabels
          (some (mapSet v.crLabels K.CAPIRoleLabel K.RoleBastion)) }) s with ⟨e, h⟩ | h
    · simp only [h]
      exact addsOnly_record_marshal _ _ _ hc₁
    · simp only [h]
      have a₁ := addsOnly_record_marshal (CarriesSharedLabels K config) _ s hc₁
      refine a₁.andThen ?_
      generalize s.record _ = s₁
      have hc₂ : CarriesSharedLabels K config (.machineDeployment
          { newBastionMachineDeployment K config with
            ObjectMeta := (newBastionMachineDeployment K config).ObjectMeta.SetLabels
              (some (mapSet (mapSet v.crLabels K.CAPIRoleLabel K.RoleBastion)
                K.CAPIRoleLabel K.RoleBastion)) }) :=
        carries_of_labels K config _ _ rfl h₂
      rcases yamlMarshal_cases W (.machineDeployment
          { newBastionMachineDeployment K config with
            ObjectMeta := (newBastionMachineDeployment K config).ObjectMeta.SetLabels
              (some (mapSet (mapSet v.crLabels K.CAPIRoleLabel K.RoleBastion)
                K.CAPIRoleLabel K.RoleBastion)) }) s₁ with ⟨e, h⟩ | h
      · simp only [h]
        exact addsOnly_record_marshal _ _ _ hc₂
      · simp only [h]
        have a₂ := addsOnly_record_marshal (CarriesSharedLabels K config) _ s₁ hc₂
        refine a₂.andThen ?_
        generalize s₁.record _ = s₂
        have hc₃ : CarriesSharedLabels K config (.awsMachineTemplate
            { newBastionAWSMachineTemplate K config v.awsRegion with
              ObjectMeta := (newBastionAWSMachineTemplate K config v.awsRegion).ObjectMeta.SetLabels
                (some (mapSet (mapSet (mapSet v.crLabels K.CAPIRoleLabel K.RoleBastion)
                  K.CAPIRoleLabel K.RoleBastion) K.CAPIRoleLabel K.RoleBastion)) }) :=
          carries_of_labels K config _ _ rfl h₃
        rcases yamlMarshal_cases W (.awsMachineTemplate
            { newBastionAWSMachineTemplate K config v.awsRegion with
              ObjectMeta := (newBastionAWSMachineTemplate K config v.awsRegion).ObjectMeta.SetLabels
                (some (mapSet (mapSet (mapSet v.crLabels K.CAPIRoleLabel K.RoleBastion)
                  K.CAPIRoleLabel K.RoleBastion) K.CAPIRoleLabel K.RoleBastion)) }) s₂
          with ⟨e, h⟩ | h
        · simp only [h]
          exact addsOnly_record_marshal _ _ _ hc₃
        · simp only [h]
          exact addsOnly_record_marshal _ _ _ hc₃

/-! ## Lemmas on `getCAPAClusterTemplate` -/

theorem getCAPAClusterTemplate_out (K : Keys) (W : World) (config : ClusterCRsConfig) (s : State) :
    (getCAPAClusterTemplate K W config s).2.out = s.out := by
  unfold getCAPAClusterTemplate
  cases W.ClientNew with
  | some err => rfl
  | none =>
    simp only
    split <;> rfl

theorem getCAPAClusterTemplate_marshalled (K : Keys) (W : World) (config : ClusterCRsConfig)
    (s : State) :
    marshalled (getCAPAClusterTemplate K W config s).2.log = marshalled s.log := by
  unfold getCAPAClusterTemplate
  cases W.ClientNew with
  | some err => simp [State.record, marshalled_append, marshalled]
  | none =>
    simp only
    split <;> simp [State.record, marshalled_append, marshalled]

theorem getCAPAClusterTemplate_not_panic (K : Keys) (W : World) (config : ClusterCRsConfig)
    (s : State) (msg : String) : (getCAPAClusterTemplate K W config s).1 ≠ .panic msg := by
  unfold getCAPAClusterTemplate
  cases W.ClientNew with
  | some err => simp
  | none =>
    simp only
    split <;> simp

/-! ## The shared label set over the whole of `WriteCAPATemplate` -/

theorem writeCAPATemplate_carries (K : Keys) (W : World) (config : ClusterCRsConfig) (s : State)
    (hkeys : (sharedKeys K).Nodup)
    (hrole : "cluster.x-k8s.io/role" ∉ sharedKeys K)
    (hbastion : K.CAPIRoleLabel ∉ sharedKeys K)
    (hagree : LabelsAgree K config) :
    ∀ o ∈ marshalled (WriteCAPATemplate K W config s).2.log,
      o ∈ marshalled s.log ∨ CarriesSharedLabels K config o := by
  unfold WriteCAPATemplate
  split
  · exact fun o h => Or.inl h
  split
  · exact fun o h => Or.inl h
  have hg := getCAPAClusterTemplate_marshalled K W config s
  rcases hgr : getCAPAClusterTemplate K W config s with ⟨r, s₁⟩
  rw [hgr] at hg
  simp only at hg
  cases r with
  | error e => simp only; rw [hg]; exact fun o h => Or.inl h
  | panic msg => simp only; rw [hg]; exact fun o h => Or.inl h
  | ok objs =>
    simp only
    cases hk : W.SSHSSOPublicKey with
    | error e =>
      simp only [State.record, marshalled_append, marshalled, List.append_nil, hg]
      exact fun o h => Or.inl h
    | ok key =>
      simp only
      have hs₂ : marshalled (s₁.record .sshSSOPublicKey).log = marshalled s.log := by
        simp [State.record, marshalled_append, marshalled, hg]
      generalize s₁.record .sshSSOPublicKey = s₂ at hs₂ ⊢
      have fin : ∀ s' : State, AddsOnly (CarriesSharedLabels K config) s₂ s' →
          ∀ o ∈ marshalled s'.log, o ∈ marshalled s.log ∨ CarriesSharedLabels K config o := by
        intro s' h o ho
        have := h.marshalled o ho
        rwa [hs₂] at this
      obtain ⟨ho₁, ho₂⟩ := objects_carry K W config key hrole hagree objs
        { data :=
            { AWSClusterCR := none, AWSMachineTemplateCR := none, ClusterCR := none,
              KubeadmControlPlaneCR := none, AWSClusterRoleIdentityCR := none,
              BastionBootstrapSecret := none, BastionMachineDeploymentCR := none,
              BastionAWSMachineTemplateCR := none }
          awsRegion := "", crLabels := crLabels K config } s₂
        (holdsShared_crLabels K config hkeys)
      rcases hobj : WriteCAPATemplate.objects K W config key objs _ s₂ with ⟨r, s₃⟩
      rw [hobj] at ho₁ ho₂
      cases r with
      | error e => exact fin _ ho₁
      | panic msg => exact fin _ ho₁
      | ok v₁ =>
        simp only
        obtain ⟨hi₁, hi₂⟩ := identity_carries K W config v₁ s₃ (ho₂ v₁ rfl)
        rcases hid : WriteCAPATemplate.identity K W config v₁ s₃ with ⟨r, s₄⟩
        rw [hid] at hi₁ hi₂
        cases r with
        | error e => exact fin _ (ho₁.andThen hi₁)
        | panic msg => exact fin _ (ho₁.andThen hi₁)
        | ok v₂ =>
          simp only
          have hb := bastion_carries K W config key v₂ s₄ hbastion (hi₂ v₂ rfl)
          rcases hba : WriteCAPATemplate.bastion K W config key v₂ s₄ with ⟨r, s₅⟩
          rw [hba] at hb
          have h₅ := fin _ ((ho₁.andThen hi₁).andThen hb)
          cases r with
          | error e => exact h₅
          | panic msg => exact h₅
          | ok v₃ =>
            simp only
            have hlog : ∀ st : State, marshalled st.log = marshalled s₅.log →
                ∀ o ∈ marshalled st.log, o ∈ marshalled s.log ∨ CarriesSharedLabels K config o := by
              intro st hst o ho
              rw [hst] at ho
              exact h₅ o ho
            split <;> apply hlog <;> simp [State.record, marshalled_append, marshalled]


/-! ## Lemmas on the subnets of the `AWSCluster` -/

theorem appendSubnets_eq (azs : List String) :
    ∀ subnets : List SubnetSpec, appendSubnets subnets azs = subnets ++ zonePairs azs := by
  induction azs with
  | nil => intro subnets; simp [appendSubnets, zonePairs]
  | cons az rest ih =>
    intro subnets
    simp [appendSubnets, zonePairs, ih]

theorem zonePairs_length (azs : List String) : (zonePairs azs).length = 2 * azs.length := by
  induction azs with
  | nil => rfl
  | cons az rest ih => simp [zonePairs, ih]; omega

theorem subnetCount_zonePairs_absent (azs : List String) (z : String) (b : Bool)
    (h : z ∉ azs) : subnetCount (zonePairs azs) z b = 0 := by
  induction azs with
  | nil => rfl
  | cons az rest ih =>
    have hne : ¬ az = z := fun e => h (by simp [e])
    have hrest : z ∉ rest := fun e => h (by simp [e])
    have := ih hrest
    simp only [subnetCount] at this ⊢
    simp only [zonePairs, List.countP_cons, this]
    simp [hne]

theorem subnetCount_zonePairs (azs : List String) (z : String) (b : Bool)
    (hnodup : azs.Nodup) (h : z ∈ azs) : subnetCount (zonePairs azs) z b = 1 := by
  induction azs with
  | nil => simp at h
  | cons az rest ih =>
    rw [List.nodup_cons] at hnodup
    by_cases hz : az = z
    · subst hz
      have := subnetCount_zonePairs_absent rest az b hnodup.1
      simp only [subnetCount] at this ⊢
      simp only [zonePairs, List.countP_cons, this]
      cases b <;> simp
    · have hin : z ∈ rest := by
        rcases List.mem_cons.mp h with e | e
        · exact absurd e.symm hz
        · exact e
      have := ih hnodup.2 hin
      simp only [subnetCount] at this ⊢
      simp only [zonePairs, List.countP_cons, this]
      simp [hz]

theorem newAWSClusterFromUnstructured_subnets (K : Keys) (W : World) (config : ClusterCRsConfig)
    (o : Unstructured) (spec : AWSClusterSpec) (hconv : W.ConvertAWSCluster o = .ok spec) :
    ∃ r, newAWSClusterFromUnstructured K W config o = .ok r ∧
      r.Spec.NetworkSpec.Subnets = spec.NetworkSpec.Subnets ++ zonePairs config.ControlPlaneAZ ∧
      r.Spec.Region = spec.Region := by
  unfold newAWSClusterFromUnstructured
  simp only [hconv]
  split
  · exact ⟨_, rfl, appendSubnets_eq _ _, rfl⟩
  · exact ⟨_, rfl, appendSubnets_eq _ _, rfl⟩

theorem newAWSClusterFromUnstructured_error (K : Keys) (W : World) (config : ClusterCRsConfig)
    (o : Unstructured) (e : Err) (hconv : W.ConvertAWSCluster o = .error e) :
    newAWSClusterFromUnstructured K W config o = .error e := by
  unfold newAWSClusterFromUnstructured
  simp [hconv, Mask]


/-! ## Lemmas on the environment -/

theorem runDeferred_append (a b : List Deferred) :
    ∀ env : Env, runDeferred env (a ++ b) = runDeferred (runDeferred env a) b := by
  induction a with
  | nil => intro env; rfl
  | cons d rest ih => intro env; simp [runDeferred, ih]

theorem neutralizeEnv_fst (vars : List String) :
    ∀ (env : Env) (deferred : List Deferred),
      (neutralizeEnv vars env deferred).1 = fun x => if x ∈ vars then some "" else env x := by
  induction vars with
  | nil => intro env deferred; simp [neutralizeEnv]
  | cons v rest ih =>
    intro env deferred
    unfold neutralizeEnv
    split
    · simp only [ih]
      funext x
      by_cases hx : x = v
      · subst hx; by_cases hr : x ∈ rest <;> simp [hr, Setenv]
      · by_cases hr : x ∈ rest <;> simp [hr, hx, Setenv]
    · simp only [ih]
      funext x
      by_cases hx : x = v
      · subst hx; by_cases hr : x ∈ rest <;> simp [hr, Setenv]
      · by_cases hr : x ∈ rest <;> simp [hr, hx, Setenv]

theorem getenv_setenv_ne (env : Env) (k v x : String) (h : x ≠ k) :
    Getenv (Setenv env k v) x = Getenv env x := by
  simp [Getenv, Setenv, h]

theorem neutralizeEnv_snd (vars : List String) :
    ∀ (env : Env) (deferred : List Deferred),
      ∃ pushed, (neutralizeEnv vars env deferred).2 = pushed ++ deferred ∧
        ∀ e : Env, runDeferred e pushed = fun x =>
          if x ∈ vars then (if Getenv env x ≠ "" then some (Getenv env x) else none) else e x := by
  induction vars with
  | nil => intro env deferred; exact ⟨[], by simp [neutralizeEnv], by intro e; simp [runDeferred]⟩
  | cons v rest ih =>
    intro env deferred
    unfold neutralizeEnv
    split
    · rename_i hv
      obtain ⟨pushed, h₁, h₂⟩ := ih (Setenv env v "") (.setenv v (Getenv env v) :: deferred)
      refine ⟨pushed ++ [.setenv v (Getenv env v)], by simp [h₁], ?_⟩
      intro e
      rw [runDeferred_append, h₂]
      funext x
      by_cases hx : x = v
      · subst hx; simp [runDeferred, Deferred.run, Setenv, hv]
      · by_cases hr : x ∈ rest <;>
          simp [runDeferred, Deferred.run, Setenv, hx, hr, getenv_setenv_ne env v "" x hx]
    · rename_i hv
      obtain ⟨pushed, h₁, h₂⟩ := ih (Setenv env v "") (.unsetenv v :: deferred)
      refine ⟨pushed ++ [.unsetenv v], by simp [h₁], ?_⟩
      intro e
      rw [runDeferred_append, h₂]
      funext x
      by_cases hx : x = v
      · subst hx; simp [runDeferred, Deferred.run, Unsetenv, hv]
      · by_cases hr : x ∈ rest <;>
          simp [runDeferred, Deferred.run, Unsetenv, hx, hr, getenv_setenv_ne env v "" x hx]

/-- The environment after the deferred calls of `getCAPAClusterTemplate` have run. -/
theorem neutralizeEnv_restored (vars : List String) (env : Env) :
    runDeferred (neutralizeEnv vars env []).1 (neutralizeEnv vars env []).2 =
      fun x => if x ∈ vars ∧ env x = some "" then none else env x := by
  obtain ⟨pushed, h₁, h₂⟩ := neutralizeEnv_snd vars env []
  rw [h₁, List.append_nil, h₂, neutralizeEnv_fst]
  funext x
  by_cases hx : x ∈ vars
  · cases hv : env x with
    | none => simp [hx, Getenv, hv]
    | some val =>
      by_cases he : val = ""
      · simp [hx, Getenv, hv, he]
      · simp [hx, Getenv, hv, he]
  · simp [hx]

theorem getCAPAClusterTemplate_some (K : Keys) (W : World) (config : ClusterCRsConfig) (s : State)
    (err : Err) (h : W.ClientNew = some err) :
    getCAPAClusterTemplate K W config s = (.error err, s.record .clientNew) := by
  unfold getCAPAClusterTemplate
  simp [h]

theorem getCAPAClusterTemplate_none (K : Keys) (W : World) (config : ClusterCRsConfig) (s : State)
    (h : W.ClientNew = none) :
    ∃ options : GetClusterTemplateOptions,
      options.ControlPlaneMachineCount =
        (if config.ControlPlaneAZ.length = 0 then none
         else some (config.ControlPlaneAZ.length : Int)) ∧
      options.ClusterName = config.Name ∧
      options.TargetNamespace = K.OrganizationNamespaceFromName config.Owner ∧
      getCAPAClusterTemplate K W config s =
        ((match W.GetClusterTemplate (fun x => if x ∈ K.CAPAEnvVars then some "" else s.env x)
              options with
          | .error err => .error err
          | .ok clusterTemplate => .ok clusterTemplate),
         { env := fun x => if x ∈ K.CAPAEnvVars ∧ s.env x = some "" then none else s.env x
           out := s.out
           log := s.log ++ [.clientNew,
             .getClusterTemplate (fun x => if x ∈ K.CAPAEnvVars then some "" else s.env x)
               options] }) := by
  unfold getCAPAClusterTemplate
  simp only [h, State.record]
  have hr := neutralizeEnv_restored K.CAPAEnvVars s.env
  rw [neutralizeEnv_fst] at hr
  simp only [neutralizeEnv_fst]
  by_cases hz : config.ControlPlaneAZ.length = 0
  · refine ⟨{ ClusterName := config.Name,
              TargetNamespace := K.OrganizationNamespaceFromName config.Owner,
              KubernetesVersion := "v1.19.9", ControlPlaneMachineCount := none,
              ProviderRepositorySource := some
                { InfrastructureProvider := "aws:v0.6.8", Flavor := "machinepool" } },
            by simp [hz], rfl, rfl, ?_⟩
    have hle : ¬ (config.ControlPlaneAZ.length : Int) > 0 := by omega
    simp only [hle, hr, if_false]
    split <;> simp [*]
  · have hpos : (config.ControlPlaneAZ.length : Int) > 0 := by omega
    refine ⟨{ ClusterName := config.Name,
              TargetNamespace := K.OrganizationNamespaceFromName config.Owner,
              KubernetesVersion := "v1.19.9",
              ControlPlaneMachineCount := some (config.ControlPlaneAZ.length : Int),
              ProviderRepositorySource := some
                { InfrastructureProvider := "aws:v0.6.8", Flavor := "machinepool" } },
            by simp [hz], rfl, rfl, ?_⟩
    simp only [hpos, hr, if_true]
    split <;> simp [*]


/-! ## What the blocks of `WriteCAPATemplate` leave alone -/

theorem object_addsOnly (K : Keys) (W : World) (config : ClusterCRsConfig) (key : String)
    (o : Unstructured) (v : CAPAVars) (s : State) :
    AddsOnly (fun _ => True) s (WriteCAPATemplate.object K W config key o v s).2 := by
  unfold WriteCAPATemplate.object
  split
  · cases hr : newAWSClusterFromUnstructured K W config (o.SetLabels (some v.crLabels)) with
    | error e => simp [hr, AddsOnly.unchanged]
    | panic msg => simp [hr, AddsOnly.unchanged]
    | ok a =>
      simp only [hr]
      rcases yamlMarshal_cases W (.awsCluster a) s with ⟨e, h⟩ | h <;> simp only [h] <;>
        exact addsOnly_record_marshal _ _ _ trivial
  · split
    · cases hr : newAWSMachineTemplateFromUnstructured K W config (o.SetLabels (some v.crLabels)) with
      | error e => simp [hr, AddsOnly.unchanged]
      | panic msg => simp [hr, AddsOnly.unchanged]
      | ok a =>
        simp only [hr]
        rcases yamlMarshal_cases W (.awsMachineTemplate a) s with ⟨e, h⟩ | h <;> simp only [h] <;>
          exact addsOnly_record_marshal _ _ _ trivial
    · split
      · rcases yamlMarshal_cases W
          (.unstructured ((o.SetLabels (some (mapMerge v.crLabels (config.Labels.getD [])))).SetAnnotations
              (some (mapSet [] K.ClusterDescription config.Description)))) s with ⟨e, h⟩ | h <;>
          simp only [h] <;> exact addsOnly_record_marshal _ _ _ trivial
      · split
        · cases hr : newKubeadmControlPlaneFromUnstructured K W key K.NodeSSHDConfigEncoded
              (o.SetLabels (some v.crLabels)) with
          | error e => simp [hr, AddsOnly.unchanged]
          | panic msg => simp [hr, AddsOnly.unchanged]
          | ok a =>
            simp only [hr]
            rcases yamlMarshal_cases W (.kubeadmControlPlane a) s with ⟨e, h⟩ | h <;>
              simp only [h] <;> exact addsOnly_record_marshal _ _ _ trivial
        · exact AddsOnly.unchanged _ _

theorem objects_addsOnly (K : Keys) (W : World) (config : ClusterCRsConfig) (key : String)
    (objs : List Unstructured) :
    ∀ (v : CAPAVars) (s : State),
      AddsOnly (fun _ => True) s (WriteCAPATemplate.objects K W config key objs v s).2 := by
  induction objs with
  | nil => intro v s; exact AddsOnly.unchanged _ _
  | cons o rest ih =>
    intro v s
    have h₁ := object_addsOnly K W config key o v s
    unfold WriteCAPATemplate.objects
    rcases hstep : WriteCAPATemplate.object K W config key o v s with ⟨r, s'⟩
    rw [hstep] at h₁
    cases r with
    | error e => exact h₁
    | panic msg => exact h₁
    | ok v₁ => exact h₁.andThen (ih v₁ s')

theorem identity_addsOnly (K : Keys) (W : World) (config : ClusterCRsConfig)
    (v : CAPAVars) (s : State) :
    AddsOnly (fun _ => True) s (WriteCAPATemplate.identity K W config v s).2 := by
  unfold WriteCAPATemplate.identity
  rcases yamlMarshal_cases W
      (.awsClusterRoleIdentity { newAWSClusterRoleIdentity K config with
        ObjectMeta := (newAWSClusterRoleIdentity K config).ObjectMeta.SetLabels (some v.crLabels) }) s
    with ⟨e, h⟩ | h <;> simp only [h] <;> exact addsOnly_record_marshal _ _ _ trivial

/-- When the bastion block succeeds, the three bastion fields of `data` hold the
secret, the machine deployment and the machine template, each with `crLabels`
and the role label; the other fields of `data` are as before. -/
theorem bastion_ok (K : Keys) (W : World) (config : ClusterCRsConfig) (key : String)
    (v v' : CAPAVars) (s s' : State)
    (h : WriteCAPATemplate.bastion K W config key v s = (.ok v', s')) :
    ∃ sec, newBastionBootstrapSecret K W config K.BastionSSHDConfigEncoded key = .ok sec ∧
      v'.data =
        { v.data with
          BastionBootstrapSecret := some (.secret { sec with
            ObjectMeta := sec.ObjectMeta.SetLabels
              (some (mapSet v.crLabels K.CAPIRoleLabel K.RoleBastion)) })
          BastionMachineDeploymentCR := some (.machineDeployment
            { newBastionMachineDeployment K config with
              ObjectMeta := (newBastionMachineDeployment K config).ObjectMeta.SetLabels
                (some (mapSet (mapSet v.crLabels K.CAPIRoleLabel K.RoleBastion)
                  K.CAPIRoleLabel K.RoleBastion)) })
          BastionAWSMachineTemplateCR := some (.awsMachineTemplate
            { newBastionAWSMachineTemplate K config v.awsRegion with
              ObjectMeta := (newBastionAWSMachineTemplate K config v.awsRegion).ObjectMeta.SetLabels
                (some (mapSet (mapSet (mapSet v.crLabels K.CAPIRoleLabel K.RoleBastion)
                  K.CAPIRoleLabel K.RoleBastion) K.CAPIRoleLabel K.RoleBastion)) }) } := by
  unfold WriteCAPATemplate.bastion at h
  cases hr : newBastionBootstrapSecret K W config K.BastionSSHDConfigEncoded key with
  | error e => simp [hr] at h
  | panic msg => simp [hr] at h
  | ok sec =>
    refine ⟨sec, rfl, ?_⟩
    simp only [hr] at h
    rcases yamlMarshal_cases W (.secret { sec with
        ObjectMeta := sec.ObjectMeta.SetLabels
          (some (mapSet v.crLabels K.CAPIRoleLabel K.RoleBastion)) }) s with ⟨e, h₁⟩ | h₁
    · simp [h₁] at h
    · simp only [h₁] at h
      generalize s.record _ = s₁ at h
      rcases yamlMarshal_cases W (.machineDeployment
          { newBastionMachineDeployment K config with
            ObjectMeta := (newBastionMachineDeployment K config).ObjectMeta.SetLabels
              (some (mapSet (mapSet v.crLabels K.CAPIRoleLabel K.RoleBastion)
                K.CAPIRoleLabel K.RoleBastion)) }) s₁ with ⟨e, h₂⟩ | h₂
      · simp [h₂] at h
      · simp only [h₂] at h
        generalize s₁.record _ = s₂ at h
        rcases yamlMarshal_cases W (.awsMachineTemplate
            { newBastionAWSMachineTemplate K config v.awsRegion with
              ObjectMeta := (newBastionAWSMachineTemplate K config v.awsRegion).ObjectMeta.SetLabels
                (some (mapSet (mapSet (mapSet v.crLabels K.CAPIRoleLabel K.RoleBastion)
                  K.CAPIRoleLabel K.RoleBastion) K.CAPIRoleLabel K.RoleBastion)) }) s₂
          with ⟨e, h₃⟩ | h₃
        · simp [h₃] at h
        · simp only [h₃, Prod.mk.injEq, Res.ok.injEq] at h
          rw [← h.1]

theorem bastion_addsOnly (K : Keys) (W : World) (config : ClusterCRsConfig) (key : String)
    (v : CAPAVars) (s : State) :
    AddsOnly (fun _ => True) s (WriteCAPATemplate.bastion K W config key v s).2 := by
  unfold WriteCAPATemplate.bastion
  cases hr : newBastionBootstrapSecret K W config K.BastionSSHDConfigEncoded key with
  | error e => simp [hr, AddsOnly.unchanged]
  | panic msg => simp [hr, AddsOnly.unchanged]
  | ok sec =>
    simp only [hr]
    have a₁ : AddsOnly (fun _ => True) s (s.record (.marshal (.secret { sec with
        ObjectMeta := sec.ObjectMeta.SetLabels
          (some (mapSet v.crLabels K.CAPIRoleLabel K.RoleBastion)) }))) :=
      addsOnly_record_marshal _ _ _ trivial
    rcases yamlMarshal_cases W (.secret { sec with
        ObjectMeta := sec.ObjectMeta.SetLabels
          (some (mapSet v.crLabels K.CAPIRoleLabel K.RoleBastion)) }) s with ⟨e, h⟩ | h
    · simp only [h]
      exact a₁
    · simp only [h]
      refine a₁.andThen ?_
      generalize s.record _ = s₁
      have a₂ : AddsOnly (fun _ => True) s₁ (s₁.record (.marshal (.machineDeployment
          { newBastionMachineDeployment K config with
            ObjectMeta := (newBastionMachineDeployment K config).ObjectMeta.SetLabels
              (some (mapSet (mapSet v.crLabels K.CAPIRoleLabel K.RoleBastion)
                K.CAPIRoleLabel K.RoleBastion)) }))) :=
        addsOnly_record_marshal _ _ _ trivial
      rcases yamlMarshal_cases W (.machineDeployment
          { newBastionMachineDeployment K config with
            ObjectMeta := (newBastionMachineDeployment K config).ObjectMeta.SetLabels
              (some (mapSet (mapSet v.crLabels K.CAPIRoleLabel K.RoleBastion)
                K.CAPIRoleLabel K.RoleBastion)) }) s₁ with ⟨e, h⟩ | h
      · simp only [h]
        exact a₂
      · simp only [h]
        refine a₂.andThen ?_
        generalize s₁.record _ = s₂
        rcases yamlMarshal_cases W (.awsMachineTemplate
            { newBastionAWSMachineTemplate K config v.awsRegion with
              ObjectMeta := (newBastionAWSMachineTemplate K config v.awsRegion).ObjectMeta.SetLabels
                (some (mapSet (mapSet (mapSet v.crLabels K.CAPIRoleLabel K.RoleBastion)
                  K.CAPIRoleLabel K.RoleBastion) K.CAPIRoleLabel K.RoleBastion)) }) s₂
          with ⟨e, h⟩ | h <;> simp only [h] <;> exact addsOnly_record_marshal _ _ _ trivial


/-! ## The output is written by `t.Execute` only -/

theorem Quiet.still (s : State) : Quiet s s := ⟨rfl, [], by simp, by simp⟩

theorem Quiet.followedBy {a b c : State} (h₁ : Quiet a b) (h₂ : Quiet b c) : Quiet a c := by
  obtain ⟨o₁, evs₁, l₁, p₁⟩ := h₁
  obtain ⟨o₂, evs₂, l₂, p₂⟩ := h₂
  refine ⟨o₂.trans o₁, evs₁ ++ evs₂, by rw [l₂, l₁, List.append_assoc], ?_⟩
  intro e he
  rcases List.mem_append.mp he with h | h
  · exact p₁ e h
  · exact p₂ e h

theorem AddsOnly.quiet {Q : Object → Prop} {a b : State} (h : AddsOnly Q a b) : Quiet a b := by
  obtain ⟨_, o, evs, l, p⟩ := h
  refine ⟨o, evs, l, ?_⟩
  intro e he
  have := p e he
  cases e <;> simp_all [IsMarshalOf, Event.isExecute]

theorem quiet_record (s : State) (e : Event) (h : e.isExecute = false) : Quiet s (s.record e) :=
  ⟨rfl, [e], rfl, by simpa using h⟩

theorem getCAPAClusterTemplate_quiet (K : Keys) (W : World) (config : ClusterCRsConfig)
    (s : State) : Quiet s (getCAPAClusterTemplate K W config s).2 := by
  cases h : W.ClientNew with
  | some err =>
    rw [getCAPAClusterTemplate_some K W config s err h]
    exact quiet_record s _ rfl
  | none =>
    obtain ⟨options, _, _, _, heq⟩ := getCAPAClusterTemplate_none K W config s h
    rw [heq]
    exact ⟨rfl, _, rfl, by simp [Event.isExecute]⟩

theorem writeCAPATemplate_path (K : Keys) (W : World) (config : ClusterCRsConfig) (s : State) :
    ∃ evs, (WriteCAPATemplate K W config s).2.log = s.log ++ evs ∧
      (((∀ e ∈ evs, e.isExecute = false) ∧ (WriteCAPATemplate K W config s).2.out = s.out ∧
          ∀ u, (WriteCAPATemplate K W config s).1 ≠ .ok u) ∨
        ∃ pre key v₂ s₄ v₃ s₅,
          evs = pre ++ [.executeCAPA v₃.data] ∧ (∀ e ∈ pre, e.isExecute = false) ∧
          WriteCAPATemplate.bastion K W config key v₂ s₄ = (.ok v₃, s₅) ∧
          (WriteCAPATemplate K W config s).2.out
            = s.out ++ (W.ExecuteCAPA config.FileName v₃.data).1 ∧
          (WriteCAPATemplate K W config s).1
            = ofExecute (W.ExecuteCAPA config.FileName v₃.data).2) := by
  have stop : ∀ (r : Res Unit) (s' : State), Quiet s s' → (∀ u, r ≠ .ok u) →
      ∃ evs, s'.log = s.log ++ evs ∧
        (((∀ e ∈ evs, e.isExecute = false) ∧ s'.out = s.out ∧ ∀ u, r ≠ .ok u) ∨
          ∃ pre key v₂ s₄ v₃ s₅,
            evs = pre ++ [.executeCAPA v₃.data] ∧ (∀ e ∈ pre, e.isExecute = false) ∧
            WriteCAPATemplate.bastion K W config key v₂ s₄ = (.ok v₃, s₅) ∧
            s'.out = s.out ++ (W.ExecuteCAPA config.FileName v₃.data).1 ∧
            r = ofExecute (W.ExecuteCAPA config.FileName v₃.data).2) := by
    intro r s' hq hr
    obtain ⟨ho, evs, hl, hp⟩ := hq
    exact ⟨evs, hl, Or.inl ⟨hp, ho, hr⟩⟩
  unfold WriteCAPATemplate
  split
  · dsimp only; refine stop _ _ (Quiet.still s) ?_; simp
  split
  · dsimp only; refine stop _ _ (Quiet.still s) ?_; simp
  have hg := getCAPAClusterTemplate_quiet K W config s
  rcases hgr : getCAPAClusterTemplate K W config s with ⟨r, s₁⟩
  rw [hgr] at hg
  cases r with
  | error e => dsimp only; refine stop _ _ hg ?_; simp
  | panic msg => dsimp only; refine stop _ _ hg ?_; simp
  | ok objs =>
    simp only
    have hq₂ : Quiet s (s₁.record .sshSSOPublicKey) := hg.followedBy (quiet_record _ _ rfl)
    cases hk : W.SSHSSOPublicKey with
    | error e => dsimp only; refine stop _ _ hq₂ ?_; simp
    | ok key =>
      simp only
      generalize s₁.record .sshSSOPublicKey = s₂ at hq₂ ⊢
      have ho := (objects_addsOnly K W config key objs
        { data :=
            { AWSClusterCR := none, AWSMachineTemplateCR := none, ClusterCR := none,
              KubeadmControlPlaneCR := none, AWSClusterRoleIdentityCR := none,
              BastionBootstrapSecret := none, BastionMachineDeploymentCR := none,
              BastionAWSMachineTemplateCR := none }
          awsRegion := "", crLabels := crLabels K config } s₂).quiet
      rcases hobj : WriteCAPATemplate.objects K W config key objs _ s₂ with ⟨r, s₃⟩
      rw [hobj] at ho
      cases r with
      | error e => dsimp only; refine stop _ _ (hq₂.followedBy ho) ?_; simp
      | panic msg => dsimp only; refine stop _ _ (hq₂.followedBy ho) ?_; simp
      | ok v₁ =>
        simp only
        have hi := (identity_addsOnly K W config v₁ s₃).quiet
        rcases hid : WriteCAPATemplate.identity K W config v₁ s₃ with ⟨r, s₄⟩
        rw [hid] at hi
        cases r with
        | error e => dsimp only; refine stop _ _ ((hq₂.followedBy ho).followedBy hi) ?_; simp
        | panic msg => dsimp only; refine stop _ _ ((hq₂.followedBy ho).followedBy hi) ?_; simp
        | ok v₂ =>
          simp only
          have hb := (bastion_addsOnly K W config key v₂ s₄).quiet
          rcases hba : WriteCAPATemplate.bastion K W config key v₂ s₄ with ⟨r, s₅⟩
          rw [hba] at hb
          have h₅ := ((hq₂.followedBy ho).followedBy hi).followedBy hb
          cases r with
          | error e => dsimp only; refine stop _ _ h₅ ?_; simp
          | panic msg => dsimp only; refine stop _ _ h₅ ?_; simp
          | ok v₃ =>
            simp only
            obtain ⟨hout, pre, hlog, hpre⟩ := h₅
            dsimp only at hout hlog
            refine ⟨pre ++ [.executeCAPA v₃.data], ?_, Or.inr ⟨pre, key, v₂, s₄, v₃, s₅, rfl, hpre,
              hba, ?_, ?_⟩⟩
            · split <;> simp [State.record, hlog]
            · split <;> simp [State.record, hout]
            · split <;> simp_all [ofExecute]


theorem writeGSAWSTemplate_path (K : Keys) (W : World) (config : ClusterCRsConfig) (s : State) :
    ∃ evs, (WriteGSAWSTemplate K W config s).2.log = s.log ++ evs ∧
      (((∀ e ∈ evs, e.isExecute = false) ∧ (WriteGSAWSTemplate K W config s).2.out = s.out ∧
          ∀ u, (WriteGSAWSTemplate K W config s).1 ≠ .ok u) ∨
        ∃ pre crs₁ data,
          evs = pre ++ [.executeAWS data] ∧ (∀ e ∈ pre, e.isExecute = false) ∧
          data =
            (let crs := if K.IsOrgNamespaceVersion config.ReleaseVersion then
                moveCRsToOrgNamespace K crs₁ config.Owner else crs₁
             { AWSClusterCR := some (.gsAWSCluster crs.AWSCluster)
               ClusterCR := some (.cluster crs.Cluster)
               G8sControlPlaneCR := some (.g8sControlPlane crs.G8sControlPlane)
               AWSControlPlaneCR := some (.awsControlPlane crs.AWSControlPlane) }) ∧
          (WriteGSAWSTemplate K W config s).2.out
            = s.out ++ (W.ExecuteAWS config.FileName data).1 ∧
          (WriteGSAWSTemplate K W config s).1
            = ofExecute (W.ExecuteAWS config.FileName data).2) := by
  have stop : ∀ (r : Res Unit) (s' : State), Quiet s s' → (∀ u, r ≠ .ok u) →
      ∃ evs, s'.log = s.log ++ evs ∧
        (((∀ e ∈ evs, e.isExecute = false) ∧ s'.out = s.out ∧ ∀ u, r ≠ .ok u) ∨
          ∃ pre crs₁ data,
            evs = pre ++ [.executeAWS data] ∧ (∀ e ∈ pre, e.isExecute = false) ∧
            data =
              (let crs := if K.IsOrgNamespaceVersion config.ReleaseVersion then
                  moveCRsToOrgNamespace K crs₁ config.Owner else crs₁
               { AWSClusterCR := some (.gsAWSCluster crs.AWSCluster)
                 ClusterCR := some (.cluster crs.Cluster)
                 G8sControlPlaneCR := some (.g8sControlPlane crs.G8sControlPlane)
                 AWSControlPlaneCR := some (.awsControlPlane crs.AWSControlPlane) }) ∧
            s'.out = s.out ++ (W.ExecuteAWS config.FileName data).1 ∧
            r = ofExecute (W.ExecuteAWS config.FileName data).2) := by
    intro r s' hq hr
    obtain ⟨ho, evs, hl, hp⟩ := hq
    exact ⟨evs, hl, Or.inl ⟨hp, ho, hr⟩⟩
  have main : ∀ (crs₁ : ClusterCRs) (s₀ : State), Quiet s s₀ →
      let crs := if K.IsOrgNamespaceVersion config.ReleaseVersion then
          moveCRsToOrgNamespace K crs₁ config.Owner else crs₁
      ∀ r : Res Unit × State,
      r = (match yamlMarshal W (.cluster crs.Cluster) s₀ with
        | (.error err, s) => (.error (Mask err), s)
        | (.panic msg, s) => (.panic msg, s)
        | (.ok clusterCRYaml, s) =>
          match yamlMarshal W (.gsAWSCluster crs.AWSCluster) s with
          | (.error err, s) => (.error (Mask err), s)
          | (.panic msg, s) => (.panic msg, s)
          | (.ok awsClusterCRYaml, s) =>
            match yamlMarshal W (.g8sControlPlane crs.G8sControlPlane) s with
            | (.error err, s) => (.error (Mask err), s)
            | (.panic msg, s) => (.panic msg, s)
            | (.ok g8sControlPlaneCRYaml, s) =>
              match yamlMarshal W (.awsControlPlane crs.AWSControlPlane) s with
              | (.error err, s) => (.error (Mask err), s)
              | (.panic msg, s) => (.panic msg, s)
              | (.ok awsControlPlaneCRYaml, s) =>
                let data : AWSData :=
                  { AWSClusterCR := awsClusterCRYaml
                    ClusterCR := clusterCRYaml
                    G8sControlPlaneCR := g8sControlPlaneCRYaml
                    AWSControlPlaneCR := awsControlPlaneCRYaml }
                let s := s.record (.executeAWS data)
                let written := W.ExecuteAWS config.FileName data
                let s := { s with out := s.out ++ written.1 }
                match written.2 with
                | some err => (.error (Mask err), s)
                | none => (.ok (), s)) →
      ∃ evs, r.2.log = s.log ++ evs ∧
        (((∀ e ∈ evs, e.isExecute = false) ∧ r.2.out = s.out ∧ ∀ u, r.1 ≠ .ok u) ∨
          ∃ pre crs₁ data,
            evs = pre ++ [.executeAWS data] ∧ (∀ e ∈ pre, e.isExecute = false) ∧
            data =
              (let crs := if K.IsOrgNamespaceVersion config.ReleaseVersion then
                  moveCRsToOrgNamespace K crs₁ config.Owner else crs₁
               { AWSClusterCR := some (.gsAWSCluster crs.AWSCluster)
                 ClusterCR := some (.cluster crs.Cluster)
                 G8sControlPlaneCR := some (.g8sControlPlane crs.G8sControlPlane)
                 AWSControlPlaneCR := some (.awsControlPlane crs.AWSControlPlane) }) ∧
            r.2.out = s.out ++ (W.ExecuteAWS config.FileName data).1 ∧
            r.1 = ofExecute (W.ExecuteAWS config.FileName data).2) := by
    intro crs₁ s₀ hq₀ crs r hr
    subst hr
    have q₁ := hq₀.followedBy (quiet_record s₀ (.marshal (.cluster crs.Cluster)) rfl)
    rcases yamlMarshal_cases W (.cluster crs.Cluster) s₀ with ⟨e, h⟩ | h
    · simp only [h]; refine stop _ _ q₁ ?_; simp
    simp only [h]
    generalize s₀.record _ = s₁ at q₁ ⊢
    have q₂ := q₁.followedBy (quiet_record s₁ (.marshal (.gsAWSCluster crs.AWSCluster)) rfl)
    rcases yamlMarshal_cases W (.gsAWSCluster crs.AWSCluster) s₁ with ⟨e, h⟩ | h
    · simp only [h]; refine stop _ _ q₂ ?_; simp
    simp only [h]
    generalize s₁.record _ = s₂ at q₂ ⊢
    have q₃ := q₂.followedBy (quiet_record s₂ (.marshal (.g8sControlPlane crs.G8sControlPlane)) rfl)
    rcases yamlMarshal_cases W (.g8sControlPlane crs.G8sControlPlane) s₂ with ⟨e, h⟩ | h
    · simp only [h]; refine stop _ _ q₃ ?_; simp
    simp only [h]
    generalize s₂.record _ = s₃ at q₃ ⊢
    have q₄ := q₃.followedBy (quiet_record s₃ (.marshal (.awsControlPlane crs.AWSControlPlane)) rfl)
    rcases yamlMarshal_cases W (.awsControlPlane crs.AWSControlPlane) s₃ with ⟨e, h⟩ | h
    · simp only [h]; refine stop _ _ q₄ ?_; simp
    simp only [h]
    generalize s₃.record _ = s₄ at q₄ ⊢
    obtain ⟨hout, pre, hlog, hpre⟩ := q₄
    refine ⟨pre ++ [.executeAWS _], ?_, Or.inr ⟨pre, crs₁, _, rfl, hpre, rfl, ?_, ?_⟩⟩
    · split <;> simp [State.record, hlog]
    · split <;> simp [State.record, hout]
    · split <;> simp_all [ofExecute]
  unfold WriteGSAWSTemplate
  simp only
  have q₀ : Quiet s (s.record (.newClusterCRs
      { ClusterID := config.Name, ExternalSNAT := config.ExternalSNAT,
        MasterAZ := config.ControlPlaneAZ, Description := config.Description,
        PodsCIDR := config.PodsCIDR, Owner := config.Owner,
        ReleaseVersion := config.ReleaseVersion, Labels := config.Labels })) :=
    quiet_record _ _ rfl
  generalize s.record _ = s₀ at q₀ ⊢
  cases hn : W.NewClusterCRs _ with
  | error e => dsimp only; refine stop _ _ q₀ ?_; simp
  | ok crs =>
    dsimp only
    by_cases hsub : config.ControlPlaneSubnet = ""
    · simp only [hsub, ne_eq, not_true_eq_false, if_false]
      exact main crs s₀ q₀ _ rfl
    · simp only [ne_eq, hsub, not_false_eq_true, if_true]
      cases ha : crs.AWSCluster.ObjectMeta.Annotations with
      | none => dsimp only; refine stop _ _ q₀ ?_; simp
      | some annotations =>
        dsimp only
        exact main _ s₀ q₀ _ rfl


/-! ## Lemmas on the synthesized objects -/

theorem newBastionBootstrapSecret_meta (K : Keys) (W : World) (config : ClusterCRsConfig)
    (sshd key : String) (sec : Secret)
    (h : newBastionBootstrapSecret K W config sshd key = .ok sec) :
    sec.ObjectMeta.Name = K.BastionResourceName config.Name ∧
      sec.ObjectMeta.Namespace = K.OrganizationNamespaceFromName config.Owner := by
  unfold newBastionBootstrapSecret at h
  cases hi : W.BastionIgnition config.FileName config.Name sshd key with
  | error e => simp [hi] at h
  | ok ignition =>
    simp only [hi, Res.ok.injEq] at h
    subst h
    exact ⟨rfl, rfl⟩

theorem newKubeadmControlPlaneFromUnstructured_ok (K : Keys) (W : World) (key sshd : String)
    (o : Unstructured) (spec : KubeadmControlPlaneSpec)
    (h : W.ConvertKubeadmControlPlane o = .ok spec) :
    ∃ cp, newKubeadmControlPlaneFromUnstructured K W key sshd o = .ok cp ∧
      cp.Spec.Replicas = spec.Replicas ∧ cp.Spec.Version = spec.Version ∧
      cp.Spec.Rest = spec.Rest ∧
      cp.Spec.KubeadmConfigSpec.Rest = spec.KubeadmConfigSpec.Rest ∧
      cp.TypeMeta = o.typeMeta ∧ cp.ObjectMeta = o.objectMeta := by
  unfold newKubeadmControlPlaneFromUnstructured
  simp only [h]
  exact ⟨_, rfl, rfl, rfl, rfl, rfl, rfl, rfl⟩

/-! ## The claims -/

/-- C1: when the release selects the modern generation and the SNAT toggle is
set or the pods CIDR is not empty, `WriteCAPATemplate`, and `WriteAWSTemplate`
through it, return the invalid-flag error whatever the other fields and the
collaborators are, and the state comes back as it was: the record of calls has
not grown, so neither the generator nor the SSH key lookup nor the encoder has
been reached, and nothing has been written. -/
theorem capa_rejects_legacy_flags (K : Keys) (W : World) (config : ClusterCRsConfig) (s : State)
    (hcapa : K.IsCAPAVersion config.ReleaseVersion = true)
    (hflag : config.ExternalSNAT = true ∨ config.PodsCIDR ≠ "") :
    ∃ msg, WriteCAPATemplate K W config s = (.error (.invalidFlag msg), s) ∧
      WriteAWSTemplate K W config s = (.error (.invalidFlag msg), s) := by
  by_cases hsnat : config.ExternalSNAT = true
  · refine ⟨"--external-snat setting is not available for release " ++ config.ReleaseVersion, ?_, ?_⟩
    · simp [WriteCAPATemplate, hsnat]
    · simp [WriteAWSTemplate, WriteCAPATemplate, hcapa, hsnat, Mask]
  · have hpods : config.PodsCIDR ≠ "" := by
      rcases hflag with h | h
      · exact absurd h hsnat
      · exact h
    refine ⟨"--pods-cidr setting is not available for release " ++ config.ReleaseVersion, ?_, ?_⟩
    · simp [WriteCAPATemplate, hsnat, hpods]
    · simp [WriteAWSTemplate, WriteCAPATemplate, hcapa, hsnat, hpods, Mask]

/-- C1 at a request of release `20.0.0` with a pods CIDR. -/
theorem capa_rejects_legacy_flags_witness :
    sampleKeys.IsCAPAVersion ({ sampleConfig with PodsCIDR := "10.0.0.0/16" }).ReleaseVersion = true ∧
    (({ sampleConfig with PodsCIDR := "10.0.0.0/16" }).ExternalSNAT = true ∨
      ({ sampleConfig with PodsCIDR := "10.0.0.0/16" }).PodsCIDR ≠ "") ∧
    ∃ msg,
      WriteCAPATemplate sampleKeys sampleWorld { sampleConfig with PodsCIDR := "10.0.0.0/16" }
          sampleState = (.error (.invalidFlag msg), sampleState) ∧
      WriteAWSTemplate sampleKeys sampleWorld { sampleConfig with PodsCIDR := "10.0.0.0/16" }
          sampleState = (.error (.invalidFlag msg), sampleState) :=
  ⟨by decide, Or.inr (by decide),
    capa_rejects_legacy_flags sampleKeys sampleWorld { sampleConfig with PodsCIDR := "10.0.0.0/16" }
      sampleState (by decide) (Or.inr (by decide))⟩

/-- C2 as stated fails: with the caller label `giantswarm.io/cluster = other`
the `Cluster` object, and every object encoded after it, carries that value
instead of the cluster name. -/
theorem shared_labels_overridden_by_caller_labels :
    ¬ ∀ o ∈ marshalled (WriteCAPATemplate sampleKeys sampleWorld sampleConfigClash sampleState).2.log,
        CarriesSharedLabels sampleKeys sampleConfigClash o := by
  decide

/-- C2, amended: when the caller's labels give no key of the shared label set a
different value (the five keys being distinct constants, none of them a role
key), every object that `WriteCAPATemplate` hands to the encoder carries the
complete shared label set. -/
theorem capa_objects_carry_shared_labels (K : Keys) (W : World) (config : ClusterCRsConfig)
    (s : State)
    (hkeys : (sharedKeys K).Nodup)
    (hrole : "cluster.x-k8s.io/role" ∉ sharedKeys K)
    (hbastion : K.CAPIRoleLabel ∉ sharedKeys K)
    (hagree : LabelsAgree K config) :
    ∀ o ∈ marshalled (WriteCAPATemplate K W config s).2.log,
      o ∈ marshalled s.log ∨ CarriesSharedLabels K config o :=
  writeCAPATemplate_carries K W config s hkeys hrole hbastion hagree

/-- C2, amended, at a request with the caller label `team = rocket`: all eight
objects are encoded and each carries the shared label set. -/
theorem capa_objects_carry_shared_labels_witness :
    (sharedKeys sampleKeys).Nodup ∧
    "cluster.x-k8s.io/role" ∉ sharedKeys sampleKeys ∧
    sampleKeys.CAPIRoleLabel ∉ sharedKeys sampleKeys ∧
    LabelsAgree sampleKeys { sampleConfig with Labels := some [("team", "rocket")] } ∧
    (marshalled (WriteCAPATemplate sampleKeys sampleWorld
      { sampleConfig with Labels := some [("team", "rocket")] } sampleState).2.log).length = 8 ∧
    ∀ o ∈ marshalled (WriteCAPATemplate sampleKeys sampleWorld
        { sampleConfig with Labels := some [("team", "rocket")] } sampleState).2.log,
      o ∈ marshalled sampleState.log ∨
        CarriesSharedLabels sampleKeys { sampleConfig with Labels := some [("team", "rocket")] } o := by
  have hagree : LabelsAgree sampleKeys { sampleConfig with Labels := some [("team", "rocket")] } := by
    intro k v hkv v' hs
    simp only [sampleConfig, Option.getD_some, List.mem_singleton, Prod.mk.injEq] at hkv
    obtain ⟨rfl, rfl⟩ := hkv
    simp [sharedLabels, sampleKeys] at hs
  exact ⟨by decide, by decide, by decide, hagree, by decide,
    capa_objects_carry_shared_labels sampleKeys sampleWorld _ sampleState (by decide) (by decide)
      (by decide) hagree⟩


/-- C3 as stated fails: for a base `AWSCluster` that already has one subnet
and a request with one availability zone, the `AWSCluster` returned has three
subnet descriptors, not two. -/
theorem subnets_of_base_object_are_kept :
    ∃ r, 0 < sampleConfig.ControlPlaneAZ.length ∧
      newAWSClusterFromUnstructured sampleKeys sampleWorldSubnet sampleConfig
        (sampleObject "AWSCluster") = .ok r ∧
      r.Spec.NetworkSpec.Subnets.length ≠ 2 * sampleConfig.ControlPlaneAZ.length :=
  ⟨_, by decide, rfl, by decide⟩

/-- C3, amended: when the base object converts, the `AWSCluster` returned by
`newAWSClusterFromUnstructured` has the subnet descriptors of the base object
followed by one private and one public descriptor for each entry of the zone
list, in the order of the list, so `2N` more than the base object; when the
base object has no subnets and the zones are pairwise distinct, these are
exactly `2N` descriptors, one private and one public for each zone. -/
theorem awscluster_subnets_per_zone (K : Keys) (W : World) (config : ClusterCRsConfig)
    (o : Unstructured) (spec : AWSClusterSpec) (hconv : W.ConvertAWSCluster o = .ok spec) :
    ∃ r, newAWSClusterFromUnstructured K W config o = .ok r ∧
      r.Spec.NetworkSpec.Subnets = spec.NetworkSpec.Subnets ++ zonePairs config.ControlPlaneAZ ∧
      r.Spec.NetworkSpec.Subnets.length
        = spec.NetworkSpec.Subnets.length + 2 * config.ControlPlaneAZ.length ∧
      (spec.NetworkSpec.Subnets = [] → config.ControlPlaneAZ.Nodup →
        r.Spec.NetworkSpec.Subnets.length = 2 * config.ControlPlaneAZ.length ∧
        ∀ az ∈ config.ControlPlaneAZ,
          subnetCount r.Spec.NetworkSpec.Subnets az false = 1 ∧
          subnetCount r.Spec.NetworkSpec.Subnets az true = 1) := by
  obtain ⟨r, hr, hsub, _⟩ := newAWSClusterFromUnstructured_subnets K W config o spec hconv
  refine ⟨r, hr, hsub, ?_, ?_⟩
  · rw [hsub, List.length_append, zonePairs_length]
  · intro hempty hnodup
    rw [hsub, hempty, List.nil_append]
    refine ⟨zonePairs_length _, ?_⟩
    intro az haz
    exact ⟨subnetCount_zonePairs _ az false hnodup haz, subnetCount_zonePairs _ az true hnodup haz⟩

/-- C3, amended, at a request with one zone and a base object with one subnet. -/
theorem awscluster_subnets_per_zone_witness :
    sampleWorldSubnet.ConvertAWSCluster (sampleObject "AWSCluster")
      = .ok { Region := "eu-central-1", IdentityRef := none,
              NetworkSpec := { Subnets := [ { ID := "subnet-0", CidrBlock := "10.0.0.0/24",
                                              AvailabilityZone := "eu-central-1a",
                                              IsPublic := false } ] },
              Rest := "" } ∧
    ∃ r, newAWSClusterFromUnstructured sampleKeys sampleWorldSubnet sampleConfig
        (sampleObject "AWSCluster") = .ok r ∧
      r.Spec.NetworkSpec.Subnets
        = [ { ID := "subnet-0", CidrBlock := "10.0.0.0/24", AvailabilityZone := "eu-central-1a",
              IsPublic := false } ] ++ zonePairs sampleConfig.ControlPlaneAZ ∧
      r.Spec.NetworkSpec.Subnets.length = 1 + 2 * sampleConfig.ControlPlaneAZ.length ∧
      (([ { ID := "subnet-0", CidrBlock := "10.0.0.0/24", AvailabilityZone := "eu-central-1a",
            IsPublic := false } ] : List SubnetSpec) = [] → sampleConfig.ControlPlaneAZ.Nodup →
        r.Spec.NetworkSpec.Subnets.length = 2 * sampleConfig.ControlPlaneAZ.length ∧
        ∀ az ∈ sampleConfig.ControlPlaneAZ,
          subnetCount r.Spec.NetworkSpec.Subnets az false = 1 ∧
          subnetCount r.Spec.NetworkSpec.Subnets az true = 1) :=
  ⟨rfl, awscluster_subnets_per_zone sampleKeys sampleWorldSubnet sampleConfig
    (sampleObject "AWSCluster") _ rfl⟩

/-- C4: `moveCRsToOrgNamespace` returns a graph in which the namespace of the
four objects and the namespace of the infrastructure reference of `Cluster`
and of `G8sControlPlane` are the organization namespace, so the reference of
the cluster points into the namespace of the `AWSCluster`; and when the
release has the tenant-namespace layout, a run of `WriteGSAWSTemplate` that
succeeds has handed exactly such a graph to the template. -/
theorem moved_graph_in_org_namespace (K : Keys) (W : World) (config : ClusterCRsConfig)
    (s : State) (crs : ClusterCRs) (org : String)
    (hlayout : K.IsOrgNamespaceVersion config.ReleaseVersion = true)
    (hok : (WriteGSAWSTemplate K W config s).1 = .ok ()) :
    ((moveCRsToOrgNamespace K crs org).Cluster.ObjectMeta.Namespace
        = K.OrganizationNamespaceFromName org ∧
      (moveCRsToOrgNamespace K crs org).AWSCluster.ObjectMeta.Namespace
        = K.OrganizationNamespaceFromName org ∧
      (moveCRsToOrgNamespace K crs org).G8sControlPlane.ObjectMeta.Namespace
        = K.OrganizationNamespaceFromName org ∧
      (moveCRsToOrgNamespace K crs org).AWSControlPlane.ObjectMeta.Namespace
        = K.OrganizationNamespaceFromName org ∧
      (moveCRsToOrgNamespace K crs org).Cluster.Spec.InfrastructureRef.Namespace
        = K.OrganizationNamespaceFromName org ∧
      (moveCRsToOrgNamespace K crs org).G8sControlPlane.Spec.InfrastructureRef.Namespace
        = K.OrganizationNamespaceFromName org ∧
      (moveCRsToOrgNamespace K crs org).Cluster.Spec.InfrastructureRef.Namespace
        = (moveCRsToOrgNamespace K crs org).AWSCluster.ObjectMeta.Namespace) ∧
    ∃ pre c a g p,
      (WriteGSAWSTemplate K W config s).2.log = s.log ++ pre ++
        [.executeAWS { AWSClusterCR := some (.gsAWSCluster a), AWSControlPlaneCR := some (.awsControlPlane p),
                       ClusterCR := some (.cluster c), G8sControlPlaneCR := some (.g8sControlPlane g) }] ∧
      c.ObjectMeta.Namespace = K.OrganizationNamespaceFromName config.Owner ∧
      a.ObjectMeta.Namespace = K.OrganizationNamespaceFromName config.Owner ∧
      g.ObjectMeta.Namespace = K.OrganizationNamespaceFromName config.Owner ∧
      p.ObjectMeta.Namespace = K.OrganizationNamespaceFromName config.Owner ∧
      c.Spec.InfrastructureRef.Namespace = a.ObjectMeta.Namespace ∧
      g.Spec.InfrastructureRef.Namespace = p.ObjectMeta.Namespace := by
  refine ⟨⟨rfl, rfl, rfl, rfl, rfl, rfl, rfl⟩, ?_⟩
  obtain ⟨evs, hlog, hcase⟩ := writeGSAWSTemplate_path K W config s
  rcases hcase with ⟨_, _, hne⟩ | ⟨pre, crs₁, data, hevs, _, hdata, _, _⟩
  · exact absurd hok (hne ())
  · simp only [hlayout, if_true] at hdata
    refine ⟨pre, (moveCRsToOrgNamespace K crs₁ config.Owner).Cluster,
      (moveCRsToOrgNamespace K crs₁ config.Owner).AWSCluster,
      (moveCRsToOrgNamespace K crs₁ config.Owner).G8sControlPlane,
      (moveCRsToOrgNamespace K crs₁ config.Owner).AWSControlPlane, ?_, rfl, rfl, rfl, rfl, rfl, rfl⟩
    rw [hlog, hevs, hdata, List.append_assoc]

/-- C4 at a request of release `16.0.0`, which has the tenant-namespace layout. -/
theorem moved_graph_in_org_namespace_witness :
    sampleKeys.IsOrgNamespaceVersion sampleConfigLegacy.ReleaseVersion = true ∧
    (WriteGSAWSTemplate sampleKeys sampleWorld sampleConfigLegacy sampleState).1 = .ok () ∧
    (moveCRsToOrgNamespace sampleKeys sampleCRs "acme").Cluster.Spec.InfrastructureRef.Namespace
      = (moveCRsToOrgNamespace sampleKeys sampleCRs "acme").AWSCluster.ObjectMeta.Namespace ∧
    (moveCRsToOrgNamespace sampleKeys sampleCRs "acme").AWSCluster.ObjectMeta.Namespace = "org-acme" :=
  ⟨by decide, by decide,
    (moved_graph_in_org_namespace sampleKeys sampleWorld sampleConfigLegacy sampleState sampleCRs
      "acme" (by decide) (by decide)).1.2.2.2.2.2.2,
    by decide⟩

/-- C5: moving a legacy graph to the namespace of an organization twice is the
same as moving it once. -/
theorem move_to_org_namespace_idempotent (K : Keys) (crs : ClusterCRs) (org : String) :
    moveCRsToOrgNamespace K (moveCRsToOrgNamespace K crs org) org
      = moveCRsToOrgNamespace K crs org := rfl


/-- C6: when `WriteCAPATemplate` succeeds, the template has been given the
bootstrap `Secret`, the `MachineDeployment` and the `AWSMachineTemplate` of the
bastion; the three carry the label `key.CAPIRoleLabel = key.RoleBastion`, the
`DataSecretName` of the deployment is the name of the secret, its
`InfrastructureRef` is of kind `AWSMachineTemplate` and has the name of the
machine template, and the three are in one namespace. -/
theorem bastion_objects_refer_to_each_other (K : Keys) (W : World) (config : ClusterCRsConfig)
    (s : State) (hok : (WriteCAPATemplate K W config s).1 = .ok ()) :
    ∃ pre data sec md tpl,
      (WriteCAPATemplate K W config s).2.log = s.log ++ pre ++ [.executeCAPA data] ∧
      data.BastionBootstrapSecret = some (.secret sec) ∧
      data.BastionMachineDeploymentCR = some (.machineDeployment md) ∧
      data.BastionAWSMachineTemplateCR = some (.awsMachineTemplate tpl) ∧
      (Object.secret sec).label K.CAPIRoleLabel = some K.RoleBastion ∧
      (Object.machineDeployment md).label K.CAPIRoleLabel = some K.RoleBastion ∧
      (Object.awsMachineTemplate tpl).label K.CAPIRoleLabel = some K.RoleBastion ∧
      md.Spec.Template.Spec.DataSecretName = some sec.ObjectMeta.Name ∧
      md.Spec.Template.Spec.InfrastructureRef.Kind = "AWSMachineTemplate" ∧
      tpl.TypeMeta.Kind = "AWSMachineTemplate" ∧
      md.Spec.Template.Spec.InfrastructureRef.Name = tpl.ObjectMeta.Name ∧
      sec.ObjectMeta.Namespace = md.ObjectMeta.Namespace ∧
      md.ObjectMeta.Namespace = tpl.ObjectMeta.Namespace := by
  obtain ⟨evs, hlog, hcase⟩ := writeCAPATemplate_path K W config s
  rcases hcase with ⟨_, _, hne⟩ | ⟨pre, key, v₂, s₄, v₃, s₅, hevs, _, hba, _, _⟩
  · exact absurd hok (hne ())
  · obtain ⟨sec, hsec, hdata⟩ := bastion_ok K W config key v₂ v₃ s₄ s₅ hba
    obtain ⟨hname, hns⟩ := newBastionBootstrapSecret_meta K W config _ _ sec hsec
    refine ⟨pre, v₃.data,
      ({ sec with
        ObjectMeta := sec.ObjectMeta.SetLabels
          (some (mapSet v₂.crLabels K.CAPIRoleLabel K.RoleBastion)) } : Secret),
      ({ newBastionMachineDeployment K config with
        ObjectMeta := (newBastionMachineDeployment K config).ObjectMeta.SetLabels
          (some (mapSet (mapSet v₂.crLabels K.CAPIRoleLabel K.RoleBastion)
            K.CAPIRoleLabel K.RoleBastion)) } : MachineDeployment),
      ({ newBastionAWSMachineTemplate K config v₂.awsRegion with
        ObjectMeta := (newBastionAWSMachineTemplate K config v₂.awsRegion).ObjectMeta.SetLabels
          (some (mapSet (mapSet (mapSet v₂.crLabels K.CAPIRoleLabel K.RoleBastion)
            K.CAPIRoleLabel K.RoleBastion) K.CAPIRoleLabel K.RoleBastion)) } : AWSMachineTemplate),
      ?_, ?_, ?_, ?_, ?_, ?_, ?_, ?_, ?_, ?_, ?_, ?_, ?_⟩
    · rw [hlog, hevs, List.append_assoc]
    · rw [hdata]
    · rw [hdata]
    · rw [hdata]
    · simp [Object.label, Object.labels, ObjectMeta.SetLabels, mapGet_mapSet]
    · simp [Object.label, Object.labels, ObjectMeta.SetLabels, mapGet_mapSet]
    · simp [Object.label, Object.labels, ObjectMeta.SetLabels, mapGet_mapSet]
    · simp [ObjectMeta.SetLabels, hname, newBastionMachineDeployment]
    · rfl
    · rfl
    · rfl
    · simp [ObjectMeta.SetLabels, hns, newBastionMachineDeployment]
    · rfl

/-- C6 at the sample request, on which `WriteCAPATemplate` succeeds. -/
theorem bastion_objects_refer_to_each_other_witness :
    (WriteCAPATemplate sampleKeys sampleWorld sampleConfig sampleState).1 = .ok () ∧
    ∃ pre data sec md tpl,
      (WriteCAPATemplate sampleKeys sampleWorld sampleConfig sampleState).2.log
        = sampleState.log ++ pre ++ [.executeCAPA data] ∧
      data.BastionBootstrapSecret = some (.secret sec) ∧
      data.BastionMachineDeploymentCR = some (.machineDeployment md) ∧
      data.BastionAWSMachineTemplateCR = some (.awsMachineTemplate tpl) ∧
      (Object.secret sec).label sampleKeys.CAPIRoleLabel = some sampleKeys.RoleBastion ∧
      (Object.machineDeployment md).label sampleKeys.CAPIRoleLabel = some sampleKeys.RoleBastion ∧
      (Object.awsMachineTemplate tpl).label sampleKeys.CAPIRoleLabel = some sampleKeys.RoleBastion ∧
      md.Spec.Template.Spec.DataSecretName = some sec.ObjectMeta.Name ∧
      md.Spec.Template.Spec.InfrastructureRef.Kind = "AWSMachineTemplate" ∧
      tpl.TypeMeta.Kind = "AWSMachineTemplate" ∧
      md.Spec.Template.Spec.InfrastructureRef.Name = tpl.ObjectMeta.Name ∧
      sec.ObjectMeta.Namespace = md.ObjectMeta.Namespace ∧
      md.ObjectMeta.Namespace = tpl.ObjectMeta.Namespace :=
  ⟨by decide,
    bastion_objects_refer_to_each_other sampleKeys sampleWorld sampleConfig sampleState (by decide)⟩

/-- C7 fails on the code: in a store that holds the single organization `acme`,
`Get` with the name `other` does not fail with `NotFound`; it succeeds and
returns `acme`. -/
theorem get_by_name_returns_first_organization :
    organization.Service.Get sampleService { Name := "other" }
      = .ok (.Organization { Name := "acme", Rest := "" }) ∧
    (∀ o ∈ [ ({ Name := "acme", Rest := "" } : organization.Organization) ], o.Name ≠ "other") := by
  decide


/-- C8 as stated fails: a listed variable that was set to the empty string
before the call (here `AWS_REGION`) is unset after `getCAPAClusterTemplate`
has returned. -/
theorem empty_variable_is_unset_afterwards :
    "AWS_REGION" ∈ sampleKeys.CAPAEnvVars ∧
    sampleStateEmptyVar.env "AWS_REGION" = some "" ∧
    (getCAPAClusterTemplate sampleKeys sampleWorld sampleConfig sampleStateEmptyVar).2.env
      "AWS_REGION" = none := by
  decide

/-- C8, amended: whatever the generator returns, after `getCAPAClusterTemplate`
every variable reads as it read before the call; a variable that is not listed
is untouched, a listed variable that was unset or set to a value other than
the empty string is in the state it had, and a listed variable that was set to
the empty string is unset unless `client.New` failed; when `client.New`
succeeds the generator is called once, in an environment in which every listed
variable is set to the empty string and every other variable is as before, and
its outcome is the outcome of the function. -/
theorem capa_environment_restored (K : Keys) (W : World) (config : ClusterCRsConfig) (s : State) :
    (∀ x, Getenv (getCAPAClusterTemplate K W config s).2.env x = Getenv s.env x) ∧
    (∀ x, x ∉ K.CAPAEnvVars → (getCAPAClusterTemplate K W config s).2.env x = s.env x) ∧
    (∀ x, x ∈ K.CAPAEnvVars → s.env x ≠ some "" →
      (getCAPAClusterTemplate K W config s).2.env x = s.env x) ∧
    (∀ x, x ∈ K.CAPAEnvVars → s.env x = some "" →
      (getCAPAClusterTemplate K W config s).2.env x = if W.ClientNew = none then none else some "") ∧
    (W.ClientNew = none →
      ∃ options,
        (getCAPAClusterTemplate K W config s).2.log = s.log ++ [.clientNew,
          .getClusterTemplate (fun x => if x ∈ K.CAPAEnvVars then some "" else s.env x) options] ∧
        (getCAPAClusterTemplate K W config s).1 =
          (match W.GetClusterTemplate (fun x => if x ∈ K.CAPAEnvVars then some "" else s.env x)
              options with
           | .error err => .error err
           | .ok clusterTemplate => .ok clusterTemplate)) := by
  cases hc : W.ClientNew with
  | some err =>
    rw [getCAPAClusterTemplate_some K W config s err hc]
    refine ⟨fun _ => rfl, fun _ _ => rfl, fun _ _ _ => rfl, ?_, ?_⟩
    · intro x _ hx
      simp [State.record, hx]
    · intro h; exact absurd h (by simp)
  | none =>
    obtain ⟨options, _, _, _, heq⟩ := getCAPAClusterTemplate_none K W config s hc
    rw [heq]
    refine ⟨?_, ?_, ?_, ?_, ?_⟩
    · intro x
      by_cases hx : x ∈ K.CAPAEnvVars ∧ s.env x = some ""
      · simp [Getenv, hx]
      · simp only [Getenv, hx, if_false]
    · intro x hx
      simp [hx]
    · intro x _ hne
      simp [hne]
    · intro x hx he
      simp [hx, he]
    · intro _
      exact ⟨options, rfl, rfl⟩

/-- C8, amended, at a state in which `AWS_REGION` is set to the empty string. -/
theorem capa_environment_restored_witness :
    sampleWorld.ClientNew = none ∧
    Getenv (getCAPAClusterTemplate sampleKeys sampleWorld sampleConfig sampleStateEmptyVar).2.env
      "AWS_REGION" = Getenv sampleStateEmptyVar.env "AWS_REGION" ∧
    (getCAPAClusterTemplate sampleKeys sampleWorld sampleConfig sampleStateEmptyVar).2.env
      "HOME" = sampleStateEmptyVar.env "HOME" :=
  ⟨rfl,
    (capa_environment_restored sampleKeys sampleWorld sampleConfig sampleStateEmptyVar).1 "AWS_REGION",
    (capa_environment_restored sampleKeys sampleWorld sampleConfig sampleStateEmptyVar).2.1 "HOME"
      (by decide)⟩

/-- C9 as stated fails: when the writer behind `out` fails after the first
piece of the template, `WriteAWSTemplate` returns an error and that piece has
been written. -/
theorem error_after_output_was_written :
    (WriteAWSTemplate sampleKeys sampleWorldShortWrite sampleConfig sampleState).1
      = .error (.external "short write") ∧
    sampleState.out = [] ∧
    (WriteAWSTemplate sampleKeys sampleWorldShortWrite sampleConfig sampleState).2.out
      = ["---\n"] := by
  decide

/-- C9, amended: `WriteAWSTemplate` writes to the output through the final
`t.Execute` only.  A run that does not reach that call (a flag rejection, a
failure of the generator, of the SSH key lookup, of a conversion or of the
encoder) is not a success and leaves the output as it was; a run that reaches
it has made no earlier call of `t.Execute`, the output has grown by what that
call wrote, and the run returns the error of that call, or none. -/
theorem output_written_by_execute_only (K : Keys) (W : World) (config : ClusterCRsConfig)
    (s : State) :
    ∃ evs, (WriteAWSTemplate K W config s).2.log = s.log ++ evs ∧
      (((∀ e ∈ evs, e.isExecute = false) ∧ (WriteAWSTemplate K W config s).2.out = s.out ∧
          ∀ u, (WriteAWSTemplate K W config s).1 ≠ .ok u) ∨
        (∃ pre data, evs = pre ++ [.executeCAPA data] ∧ (∀ e ∈ pre, e.isExecute = false) ∧
          (WriteAWSTemplate K W config s).2.out = s.out ++ (W.ExecuteCAPA config.FileName data).1 ∧
          (WriteAWSTemplate K W config s).1 = ofExecute (W.ExecuteCAPA config.FileName data).2) ∨
        (∃ pre data, evs = pre ++ [.executeAWS data] ∧ (∀ e ∈ pre, e.isExecute = false) ∧
          (WriteAWSTemplate K W config s).2.out = s.out ++ (W.ExecuteAWS config.FileName data).1 ∧
          (WriteAWSTemplate K W config s).1 = ofExecute (W.ExecuteAWS config.FileName data).2)) := by
  unfold WriteAWSTemplate
  split
  · obtain ⟨evs, hlog, hcase⟩ := writeCAPATemplate_path K W config s
    rcases hr : WriteCAPATemplate K W config s with ⟨r, s'⟩
    rw [hr] at hlog hcase
    refine ⟨evs, ?_, ?_⟩
    · cases r <;> exact hlog
    · rcases hcase with ⟨h₁, h₂, h₃⟩ | ⟨pre, _, _, _, v₃, _, h₁, h₂, _, h₃, h₄⟩
      · refine Or.inl ⟨h₁, ?_, ?_⟩
        · cases r <;> exact h₂
        · cases r with
          | ok u => exact absurd rfl (h₃ u)
          | error e => simp
          | panic msg => simp
      · refine Or.inr (Or.inl ⟨pre, v₃.data, h₁, h₂, ?_, ?_⟩)
        · cases r <;> exact h₃
        · dsimp only at h₄
          rw [h₄]
          cases (W.ExecuteCAPA config.FileName v₃.data).2 <;> simp [ofExecute, Mask]
  · obtain ⟨evs, hlog, hcase⟩ := writeGSAWSTemplate_path K W config s
    rcases hr : WriteGSAWSTemplate K W config s with ⟨r, s'⟩
    rw [hr] at hlog hcase
    refine ⟨evs, ?_, ?_⟩
    · cases r <;> exact hlog
    · rcases hcase with ⟨h₁, h₂, h₃⟩ | ⟨pre, _, data, h₁, h₂, _, h₃, h₄⟩
      · refine Or.inl ⟨h₁, ?_, ?_⟩
        · cases r <;> exact h₂
        · cases r with
          | ok u => exact absurd rfl (h₃ u)
          | error e => simp
          | panic msg => simp
      · refine Or.inr (Or.inr ⟨pre, data, h₁, h₂, ?_, ?_⟩)
        · cases r <;> exact h₃
        · dsimp only at h₄
          rw [h₄]
          cases (W.ExecuteAWS config.FileName data).2 <;> simp [ofExecute, Mask]

/-- C10: when `client.New` succeeds, the options that `getCAPAClusterTemplate`
passes to the generator leave `ControlPlaneMachineCount` unset for an empty
zone list and hold the length of the list otherwise; and when the base object
converts, `newKubeadmControlPlaneFromUnstructured` returns a control plane with
the replica count, the version, the metadata and the remaining content of the
base object. -/
theorem control_plane_count_follows_zones (K : Keys) (W : World) (config : ClusterCRsConfig)
    (s : State) (sshSSOPubKey sshdConfig : String) (o : Unstructured)
    (spec : KubeadmControlPlaneSpec)
    (hclient : W.ClientNew = none)
    (hconv : W.ConvertKubeadmControlPlane o = .ok spec) :
    (∃ env options,
      (getCAPAClusterTemplate K W config s).2.log
        = s.log ++ [.clientNew, .getClusterTemplate env options] ∧
      (getCAPAClusterTemplate K W config s).1 =
        (match W.GetClusterTemplate env options with
         | .error err => .error err
         | .ok clusterTemplate => .ok clusterTemplate) ∧
      (config.ControlPlaneAZ = [] → options.ControlPlaneMachineCount = none) ∧
      (0 < config.ControlPlaneAZ.length →
        options.ControlPlaneMachineCount = some (config.ControlPlaneAZ.length : Int))) ∧
    ∃ cp, newKubeadmControlPlaneFromUnstructured K W sshSSOPubKey sshdConfig o = .ok cp ∧
      cp.Spec.Replicas = spec.Replicas ∧ cp.Spec.Version = spec.Version ∧
      cp.Spec.Rest = spec.Rest ∧
      cp.Spec.KubeadmConfigSpec.Rest = spec.KubeadmConfigSpec.Rest ∧
      cp.TypeMeta = o.typeMeta ∧ cp.ObjectMeta = o.objectMeta := by
  refine ⟨?_, newKubeadmControlPlaneFromUnstructured_ok K W _ _ o spec hconv⟩
  obtain ⟨options, hcount, _, _, heq⟩ := getCAPAClusterTemplate_none K W config s hclient
  refine ⟨fun x => if x ∈ K.CAPAEnvVars then some "" else s.env x, options, ?_, ?_, ?_, ?_⟩
  · rw [heq]
  · rw [heq]
  · intro hnil
    rw [hcount]; simp [hnil]
  · intro hpos
    rw [hcount]
    have : config.ControlPlaneAZ.length ≠ 0 := by omega
    simp [this]

/-- C10 at the sample request, which has one availability zone, and a base
control plane with three replicas. -/
theorem control_plane_count_follows_zones_witness :
    sampleWorld.ClientNew = none ∧
    sampleWorld.ConvertKubeadmControlPlane (sampleObject "KubeadmControlPlane")
      = .ok { Replicas := some 3, Version := "v1.19.9",
              KubeadmConfigSpec := { Files := [], PostKubeadmCommands := [], Users := [], Rest := "" },
              Rest := "" } ∧
    (∃ env options,
      (getCAPAClusterTemplate sampleKeys sampleWorld sampleConfig sampleState).2.log
        = sampleState.log ++ [.clientNew, .getClusterTemplate env options] ∧
      (getCAPAClusterTemplate sampleKeys sampleWorld sampleConfig sampleState).1 =
        (match sampleWorld.GetClusterTemplate env options with
         | .error err => .error err
         | .ok clusterTemplate => .ok clusterTemplate) ∧
      (sampleConfig.ControlPlaneAZ = [] → options.ControlPlaneMachineCount = none) ∧
      (0 < sampleConfig.ControlPlaneAZ.length →
        options.ControlPlaneMachineCount = some (sampleConfig.ControlPlaneAZ.length : Int))) ∧
    ∃ cp, newKubeadmControlPlaneFromUnstructured sampleKeys sampleWorld "c3NvLWtleQ==" "c3NoZA=="
        (sampleObject "KubeadmControlPlane") = .ok cp ∧
      cp.Spec.Replicas = some 3 ∧ cp.Spec.Version = "v1.19.9" ∧
      cp.Spec.Rest = "" ∧
      cp.Spec.KubeadmConfigSpec.Rest = "" ∧
      cp.TypeMeta = (sampleObject "KubeadmControlPlane").typeMeta ∧
      cp.ObjectMeta = (sampleObject "KubeadmControlPlane").objectMeta :=
  ⟨rfl, rfl,
    control_plane_count_follows_zones sampleKeys sampleWorld sampleConfig sampleState
      "c3NvLWtleQ==" "c3NoZA==" (sampleObject "KubeadmControlPlane") _ rfl rfl⟩


/-! ## The bundle handed to the template -/

theorem documents_set_awsCluster (d : CAPAData) (x : Object) (h : d.AWSClusterCR = none) :
    ({ d with AWSClusterCR := some x } : CAPAData).documents.Perm (d.documents ++ [x]) := by
  rw [List.perm_iff_count]
  intro a
  simp only [CAPAData.documents, h, Option.toList, List.count_append, List.count_cons,
    List.count_nil]
  omega

theorem documents_set_awsMachineTemplate (d : CAPAData) (x : Object)
    (h : d.AWSMachineTemplateCR = none) :
    ({ d with AWSMachineTemplateCR := some x } : CAPAData).documents.Perm (d.documents ++ [x]) := by
  rw [List.perm_iff_count]
  intro a
  simp only [CAPAData.documents, h, Option.toList, List.count_append, List.count_cons,
    List.count_nil]
  omega

theorem documents_set_cluster (d : CAPAData) (x : Object) (h : d.ClusterCR = none) :
    ({ d with ClusterCR := some x } : CAPAData).documents.Perm (d.documents ++ [x]) := by
  rw [List.perm_iff_count]
  intro a
  simp only [CAPAData.documents, h, Option.toList, List.count_append, List.count_cons,
    List.count_nil]
  omega

theorem documents_set_kubeadmControlPlane (d : CAPAData) (x : Object)
    (h : d.KubeadmControlPlaneCR = none) :
    ({ d with KubeadmControlPlaneCR := some x } : CAPAData).documents.Perm (d.documents ++ [x]) := by
  rw [List.perm_iff_count]
  intro a
  simp only [CAPAData.documents, h, Option.toList, List.count_append, List.count_cons,
    List.count_nil]
  omega

theorem documents_set_identity (d : CAPAData) (x : Object)
    (h : d.AWSClusterRoleIdentityCR = none) :
    ({ d with AWSClusterRoleIdentityCR := some x } : CAPAData).documents.Perm
      (d.documents ++ [x]) := by
  rw [List.perm_iff_count]
  intro a
  simp only [CAPAData.documents, h, Option.toList, List.count_append, List.count_cons,
    List.count_nil]
  omega

theorem documents_set_bastion (d : CAPAData) (x₁ x₂ x₃ : Object)
    (h₁ : d.BastionBootstrapSecret = none) (h₂ : d.BastionMachineDeploymentCR = none)
    (h₃ : d.BastionAWSMachineTemplateCR = none) :
    ({ d with BastionBootstrapSecret := some x₁, BastionMachineDeploymentCR := some x₂,
              BastionAWSMachineTemplateCR := some x₃ } : CAPAData).documents.Perm
      (d.documents ++ [x₁, x₂, x₃]) := by
  rw [List.perm_iff_count]
  intro a
  simp only [CAPAData.documents, h₁, h₂, h₃, Option.toList, List.count_append, List.count_cons,
    List.count_nil]
  omega

/-- What one pass of the loop of `WriteCAPATemplate` has done when it did not
stop the function. -/
theorem object_ok (K : Keys) (W : World) (config : ClusterCRsConfig) (key : String)
    (o : Unstructured) (v v' : CAPAVars) (s s' : State)
    (h : WriteCAPATemplate.object K W config key o v s = (.ok v', s')) :
    (o.GetKind = "AWSCluster" ∧ ∃ x, v'.data = { v.data with AWSClusterCR := some x } ∧
        s' = s.record (.marshal x) ∧ v'.crLabels = v.crLabels) ∨
    (o.GetKind = "AWSMachineTemplate" ∧ ∃ a : AWSMachineTemplate,
        a.ObjectMeta.Labels = some (mapSet v.crLabels "cluster.x-k8s.io/role" "control-plane") ∧
        v'.data = { v.data with AWSMachineTemplateCR := some (.awsMachineTemplate a) } ∧
        s' = s.record (.marshal (.awsMachineTemplate a)) ∧ v'.crLabels = v.crLabels) ∨
    (o.GetKind = "Cluster" ∧ ∃ x, v'.data = { v.data with ClusterCR := some x } ∧
        s' = s.record (.marshal x) ∧
        v'.crLabels = mapMerge v.crLabels (config.Labels.getD [])) ∨
    (o.GetKind = "KubeadmControlPlane" ∧ ∃ x,
        v'.data = { v.data with KubeadmControlPlaneCR := some x } ∧
        s' = s.record (.marshal x) ∧ v'.crLabels = v.crLabels) ∨
    (o.GetKind ∉ recognizedKinds ∧ v' = v ∧ s' = s) := by
  unfold WriteCAPATemplate.object at h
  split at h
  · rename_i hk
    refine Or.inl ⟨hk, ?_⟩
    cases hr : newAWSClusterFromUnstructured K W config (o.SetLabels (some v.crLabels)) with
    | error e => simp [hr] at h
    | panic msg => simp [hr] at h
    | ok a =>
      simp only [hr] at h
      rcases yamlMarshal_cases W (.awsCluster a) s with ⟨e, hm⟩ | hm
      · simp [hm] at h
      · simp only [hm, Prod.mk.injEq, Res.ok.injEq] at h
        obtain ⟨rfl, rfl⟩ := h
        exact ⟨_, rfl, rfl, rfl⟩
  · rename_i hk₁
    split at h
    · rename_i hk
      refine Or.inr (Or.inl ⟨hk, ?_⟩)
      cases hr : newAWSMachineTemplateFromUnstructured K W config
          (o.SetLabels (some v.crLabels)) with
      | error e => simp [hr] at h
      | panic msg => simp [hr] at h
      | ok a =>
        simp only [hr] at h
        obtain ⟨m, hm₁, hm₂⟩ := newAWSMachineTemplateFromUnstructured_labels K W config _ a hr
        have hm' : m = v.crLabels := by
          simp only [Unstructured.SetLabels, Option.some.injEq] at hm₁; exact hm₁.symm
        subst hm'
        rcases yamlMarshal_cases W (.awsMachineTemplate a) s with ⟨e, hm⟩ | hm
        · simp [hm] at h
        · simp only [hm, Prod.mk.injEq, Res.ok.injEq] at h
          obtain ⟨rfl, rfl⟩ := h
          exact ⟨a, hm₂, rfl, rfl, rfl⟩
    · rename_i hk₂
      split at h
      · rename_i hk
        refine Or.inr (Or.inr (Or.inl ⟨hk, ?_⟩))
        rcases yamlMarshal_cases W
          (.unstructured ((o.SetLabels (some (mapMerge v.crLabels (config.Labels.getD [])))).SetAnnotations
              (some (mapSet [] K.ClusterDescription config.Description)))) s with ⟨e, hm⟩ | hm
        · simp [hm] at h
        · simp only [hm, Prod.mk.injEq, Res.ok.injEq] at h
          obtain ⟨rfl, rfl⟩ := h
          exact ⟨_, rfl, rfl, rfl⟩
      · rename_i hk₃
        split at h
        · rename_i hk
          refine Or.inr (Or.inr (Or.inr (Or.inl ⟨hk, ?_⟩)))
          cases hr : newKubeadmControlPlaneFromUnstructured K W key K.NodeSSHDConfigEncoded
              (o.SetLabels (some v.crLabels)) with
          | error e => simp [hr] at h
          | panic msg => simp [hr] at h
          | ok a =>
            simp only [hr] at h
            rcases yamlMarshal_cases W (.kubeadmControlPlane a) s with ⟨e, hm⟩ | hm
            · simp [hm] at h
            · simp only [hm, Prod.mk.injEq, Res.ok.injEq] at h
              obtain ⟨rfl, rfl⟩ := h
              exact ⟨_, rfl, rfl, rfl⟩
        · rename_i hk₄
          simp only [Prod.mk.injEq, Res.ok.injEq] at h
          obtain ⟨rfl, rfl⟩ := h
          refine Or.inr (Or.inr (Or.inr (Or.inr ⟨?_, rfl, rfl⟩)))
          simp [recognizedKinds, hk₁, hk₂, hk₃, hk₄]


theorem kindsOf_cons_recognized (o : Unstructured) (rest : List Unstructured)
    (h : o.GetKind ∈ recognizedKinds) : kindsOf (o :: rest) = o.GetKind :: kindsOf rest := by
  simp [kindsOf, h]

theorem kindsOf_cons_other (o : Unstructured) (rest : List Unstructured)
    (h : o.GetKind ∉ recognizedKinds) : kindsOf (o :: rest) = kindsOf rest := by
  simp [kindsOf, h]

theorem mem_recognizedKinds_of_mem_kindsOf (objs : List Unstructured) (k : String)
    (h : k ∈ kindsOf objs) : k ∈ recognizedKinds := by
  simp only [kindsOf, List.mem_filter, decide_eq_true_eq] at h
  exact h.2

/-- When the loop of `WriteCAPATemplate` has run through a base set in which no
recognized kind occurs twice, starting with the fields of these kinds empty, it
has handed one object to the encoder for each object of a recognized kind, and
the documents of `data` have grown by exactly these objects. -/
theorem objects_ok (K : Keys) (W : World) (config : ClusterCRsConfig) (key : String)
    (objs : List Unstructured) :
    ∀ (v v' : CAPAVars) (s s' : State),
      WriteCAPATemplate.objects K W config key objs v s = (.ok v', s') →
      (kindsOf objs).Nodup → (∀ k ∈ kindsOf objs, v.data.ofKind k = none) →
      ∃ xs : List Object, s'.log = s.log ++ xs.map Event.marshal ∧
        xs.length = (kindsOf objs).length ∧
        v'.data.documents.Perm (v.data.documents ++ xs) ∧
        v'.data.AWSClusterRoleIdentityCR = v.data.AWSClusterRoleIdentityCR ∧
        v'.data.BastionBootstrapSecret = v.data.BastionBootstrapSecret ∧
        v'.data.BastionMachineDeploymentCR = v.data.BastionMachineDeploymentCR ∧
        v'.data.BastionAWSMachineTemplateCR = v.data.BastionAWSMachineTemplateCR := by
  induction objs with
  | nil =>
    intro v v' s s' h _ _
    simp only [WriteCAPATemplate.objects, Prod.mk.injEq, Res.ok.injEq] at h
    obtain ⟨rfl, rfl⟩ := h
    exact ⟨[], by simp, rfl, by simp, rfl, rfl, rfl, rfl⟩
  | cons o rest ih =>
    intro v v' s s' h hnodup hnone
    unfold WriteCAPATemplate.objects at h
    rcases hstep : WriteCAPATemplate.object K W config key o v s with ⟨r, s₁⟩
    rw [hstep] at h
    cases r with
    | error e => simp at h
    | panic msg => simp at h
    | ok v₁ =>
      simp only at h
      -- a pass for an object of a recognized kind whose field was empty
      have pass : ∀ (x : Object), o.GetKind ∈ recognizedKinds →
          s₁ = s.record (.marshal x) →
          v₁.data.documents.Perm (v.data.documents ++ [x]) →
          (∀ k, k ≠ o.GetKind → v₁.data.ofKind k = v.data.ofKind k) →
          v₁.data.AWSClusterRoleIdentityCR = v.data.AWSClusterRoleIdentityCR →
          v₁.data.BastionBootstrapSecret = v.data.BastionBootstrapSecret →
          v₁.data.BastionMachineDeploymentCR = v.data.BastionMachineDeploymentCR →
          v₁.data.BastionAWSMachineTemplateCR = v.data.BastionAWSMachineTemplateCR →
          ∃ xs : List Object, s'.log = s.log ++ xs.map Event.marshal ∧
            xs.length = (kindsOf (o :: rest)).length ∧
            v'.data.documents.Perm (v.data.documents ++ xs) ∧
            v'.data.AWSClusterRoleIdentityCR = v.data.AWSClusterRoleIdentityCR ∧
            v'.data.BastionBootstrapSecret = v.data.BastionBootstrapSecret ∧
            v'.data.BastionMachineDeploymentCR = v.data.BastionMachineDeploymentCR ∧
            v'.data.BastionAWSMachineTemplateCR = v.data.BastionAWSMachineTemplateCR := by
        intro x hrec hs₁ hperm hother e₁ e₂ e₃ e₄
        rw [kindsOf_cons_recognized o rest hrec] at hnodup hnone ⊢
        rw [List.nodup_cons] at hnodup
        have hnone' : ∀ k ∈ kindsOf rest, v₁.data.ofKind k = none := by
          intro k hk
          have hne : k ≠ o.GetKind := fun e => hnodup.1 (e ▸ hk)
          rw [hother k hne]
          exact hnone k (List.mem_cons_of_mem _ hk)
        obtain ⟨xs, hlog, hlen, hp, f₁, f₂, f₃, f₄⟩ := ih v₁ v' s₁ s' h hnodup.2 hnone'
        refine ⟨x :: xs, ?_, ?_, ?_, f₁.trans e₁, f₂.trans e₂, f₃.trans e₃, f₄.trans e₄⟩
        · rw [hlog, hs₁]; simp [State.record]
        · simp [hlen]
        · refine hp.trans ?_
          refine (List.Perm.append_right xs hperm).trans ?_
          simp
      rcases object_ok K W config key o v v₁ s s₁ hstep with
        ⟨hk, x, hd, hs, _⟩ | ⟨hk, a, _, hd, hs, _⟩ | ⟨hk, x, hd, hs, _⟩ | ⟨hk, x, hd, hs, _⟩ |
        ⟨hk, hv, hs⟩
      · have hrec : o.GetKind ∈ recognizedKinds := by simp [recognizedKinds, hk]
        have hf : v.data.AWSClusterCR = none := by
          have := hnone o.GetKind (by rw [kindsOf_cons_recognized o rest hrec]; simp)
          simpa [CAPAData.ofKind, hk] using this
        refine pass x hrec hs (hd ▸ documents_set_awsCluster v.data x hf) ?_
          (by rw [hd]) (by rw [hd]) (by rw [hd]) (by rw [hd])
        intro k hne
        rw [hk] at hne
        rw [hd]; simp [CAPAData.ofKind, hne]
      · have hrec : o.GetKind ∈ recognizedKinds := by simp [recognizedKinds, hk]
        have hf : v.data.AWSMachineTemplateCR = none := by
          have := hnone o.GetKind (by rw [kindsOf_cons_recognized o rest hrec]; simp)
          simpa [CAPAData.ofKind, hk] using this
        refine pass _ hrec hs (hd ▸ documents_set_awsMachineTemplate v.data _ hf) ?_
          (by rw [hd]) (by rw [hd]) (by rw [hd]) (by rw [hd])
        intro k hne
        rw [hk] at hne
        rw [hd]; simp [CAPAData.ofKind, hne]
      · have hrec : o.GetKind ∈ recognizedKinds := by simp [recognizedKinds, hk]
        have hf : v.data.ClusterCR = none := by
          have := hnone o.GetKind (by rw [kindsOf_cons_recognized o rest hrec]; simp)
          simpa [CAPAData.ofKind, hk] using this
        refine pass x hrec hs (hd ▸ documents_set_cluster v.data x hf) ?_
          (by rw [hd]) (by rw [hd]) (by rw [hd]) (by rw [hd])
        intro k hne
        rw [hk] at hne
        rw [hd]; simp [CAPAData.ofKind, hne]
      · have hrec : o.GetKind ∈ recognizedKinds := by simp [recognizedKinds, hk]
        have hf : v.data.KubeadmControlPlaneCR = none := by
          have := hnone o.GetKind (by rw [kindsOf_cons_recognized o rest hrec]; simp)
          simpa [CAPAData.ofKind, hk] using this
        refine pass x hrec hs (hd ▸ documents_set_kubeadmControlPlane v.data x hf) ?_
          (by rw [hd]) (by rw [hd]) (by rw [hd]) (by rw [hd])
        intro k hne
        rw [hk] at hne
        rw [hd]; simp [CAPAData.ofKind, hne]
      · subst hv; subst hs
        rw [kindsOf_cons_other o rest hk] at hnodup hnone ⊢
        exact ih v₁ v' s₁ s' h hnodup hnone


theorem identity_ok (K : Keys) (W : World) (config : ClusterCRsConfig)
    (v v' : CAPAVars) (s s' : State)
    (h : WriteCAPATemplate.identity K W config v s = (.ok v', s')) :
    ∃ x, v'.data = { v.data with AWSClusterRoleIdentityCR := some x } ∧
      s' = s.record (.marshal x) := by
  unfold WriteCAPATemplate.identity at h
  rcases yamlMarshal_cases W
      (.awsClusterRoleIdentity { newAWSClusterRoleIdentity K config with
        ObjectMeta := (newAWSClusterRoleIdentity K config).ObjectMeta.SetLabels (some v.crLabels) }) s
    with ⟨e, hm⟩ | hm
  · simp [hm] at h
  · simp only [hm, Prod.mk.injEq, Res.ok.injEq] at h
    obtain ⟨rfl, rfl⟩ := h
    exact ⟨_, rfl, rfl⟩

theorem bastion_ok_log (K : Keys) (W : World) (config : ClusterCRsConfig) (key : String)
    (v v' : CAPAVars) (s s' : State)
    (h : WriteCAPATemplate.bastion K W config key v s = (.ok v', s')) :
    ∃ x₁ x₂ x₃,
      v'.data = { v.data with BastionBootstrapSecret := some x₁,
                              BastionMachineDeploymentCR := some x₂,
                              BastionAWSMachineTemplateCR := some x₃ } ∧
      s'.log = s.log ++ [.marshal x₁, .marshal x₂, .marshal x₃] := by
  unfold WriteCAPATemplate.bastion at h
  cases hr : newBastionBootstrapSecret K W config K.BastionSSHDConfigEncoded key with
  | error e => simp [hr] at h
  | panic msg => simp [hr] at h
  | ok sec =>
    simp only [hr] at h
    rcases yamlMarshal_cases W (.secret { sec with
        ObjectMeta := sec.ObjectMeta.SetLabels
          (some (mapSet v.crLabels K.CAPIRoleLabel K.RoleBastion)) }) s with ⟨e, h₁⟩ | h₁
    · simp [h₁] at h
    · simp only [h₁] at h
      rcases yamlMarshal_cases W (.machineDeployment
          { newBastionMachineDeployment K config with
            ObjectMeta := (newBastionMachineDeployment K config).ObjectMeta.SetLabels
              (some (mapSet (mapSet v.crLabels K.CAPIRoleLabel K.RoleBastion)
                K.CAPIRoleLabel K.RoleBastion)) })
          (s.record (.marshal (.secret { sec with
            ObjectMeta := sec.ObjectMeta.SetLabels
              (some (mapSet v.crLabels K.CAPIRoleLabel K.RoleBastion)) }))) with ⟨e, h₂⟩ | h₂
      · simp [h₂] at h
      · simp only [h₂] at h
        rcases yamlMarshal_cases W (.awsMachineTemplate
            { newBastionAWSMachineTemplate K config v.awsRegion with
              ObjectMeta := (newBastionAWSMachineTemplate K config v.awsRegion).ObjectMeta.SetLabels
                (some (mapSet (mapSet (mapSet v.crLabels K.CAPIRoleLabel K.RoleBastion)
                  K.CAPIRoleLabel K.RoleBastion) K.CAPIRoleLabel K.RoleBastion)) })
            ((s.record (.marshal (.secret { sec with
              ObjectMeta := sec.ObjectMeta.SetLabels
                (some (mapSet v.crLabels K.CAPIRoleLabel K.RoleBastion)) }))).record
              (.marshal (.machineDeployment
                { newBastionMachineDeployment K config with
                  ObjectMeta := (newBastionMachineDeployment K config).ObjectMeta.SetLabels
                    (some (mapSet (mapSet v.crLabels K.CAPIRoleLabel K.RoleBastion)
                      K.CAPIRoleLabel K.RoleBastion)) })))
          with ⟨e, h₃⟩ | h₃
        · simp [h₃] at h
        · simp only [h₃, Prod.mk.injEq, Res.ok.injEq] at h
          obtain ⟨rfl, rfl⟩ := h
          exact ⟨_, _, _, rfl, by simp [State.record]⟩

/-- The steps of a run of `WriteCAPATemplate` that succeeds. -/
theorem writeCAPATemplate_ok (K : Keys) (W : World) (config : ClusterCRsConfig) (s : State)
    (hok : (WriteCAPATemplate K W config s).1 = .ok ()) :
    ∃ objs s₁ key v₁ s₃ v₂ s₄ v₃ s₅,
      getCAPAClusterTemplate K W config s = (.ok objs, s₁) ∧
      W.SSHSSOPublicKey = .ok key ∧
      WriteCAPATemplate.objects K W config key objs
        { data :=
            { AWSClusterCR := none, AWSMachineTemplateCR := none, ClusterCR := none,
              KubeadmControlPlaneCR := none, AWSClusterRoleIdentityCR := none,
              BastionBootstrapSecret := none, BastionMachineDeploymentCR := none,
              BastionAWSMachineTemplateCR := none }
          awsRegion := "", crLabels := crLabels K config }
        (s₁.record .sshSSOPublicKey) = (.ok v₁, s₃) ∧
      WriteCAPATemplate.identity K W config v₁ s₃ = (.ok v₂, s₄) ∧
      WriteCAPATemplate.bastion K W config key v₂ s₄ = (.ok v₃, s₅) ∧
      (WriteCAPATemplate K W config s).2.log = s₅.log ++ [.executeCAPA v₃.data] := by
  unfold WriteCAPATemplate at hok ⊢
  by_cases h₁ : config.ExternalSNAT = true
  · simp [h₁] at hok
  by_cases h₂ : config.PodsCIDR ≠ ""
  · simp [h₁, h₂] at hok
  rw [if_neg h₁, if_neg h₂] at hok ⊢
  rcases hgr : getCAPAClusterTemplate K W config s with ⟨r, s₁⟩
  rw [hgr] at hok
  cases r with
  | error e => simp at hok
  | panic msg => simp at hok
  | ok objs =>
    simp only at hok ⊢
    cases hk : W.SSHSSOPublicKey with
    | error e => simp [hk] at hok
    | ok key =>
      simp only [hk] at hok ⊢
      rcases hobj : WriteCAPATemplate.objects K W config key objs
        { data :=
            { AWSClusterCR := none, AWSMachineTemplateCR := none, ClusterCR := none,
              KubeadmControlPlaneCR := none, AWSClusterRoleIdentityCR := none,
              BastionBootstrapSecret := none, BastionMachineDeploymentCR := none,
              BastionAWSMachineTemplateCR := none }
          awsRegion := "", crLabels := crLabels K config }
        (s₁.record .sshSSOPublicKey) with ⟨r, s₃⟩
      rw [hobj] at hok
      cases r with
      | error e => simp at hok
      | panic msg => simp at hok
      | ok v₁ =>
        simp only at hok ⊢
        rcases hid : WriteCAPATemplate.identity K W config v₁ s₃ with ⟨r, s₄⟩
        rw [hid] at hok
        cases r with
        | error e => simp at hok
        | panic msg => simp at hok
        | ok v₂ =>
          simp only at hok ⊢
          rcases hba : WriteCAPATemplate.bastion K W config key v₂ s₄ with ⟨r, s₅⟩
          rw [hba] at hok
          cases r with
          | error e => simp at hok
          | panic msg => simp at hok
          | ok v₃ =>
            simp only at hok ⊢
            refine ⟨objs, s₁, key, v₁, s₃, v₂, s₄, v₃, s₅, rfl, rfl, hobj, hid, hba, ?_⟩
            split <;> simp [State.record]


/-- The calls of a run of `WriteGSAWSTemplate` that succeeds. -/
theorem writeGSAWSTemplate_ok (K : Keys) (W : World) (config : ClusterCRsConfig) (s : State)
    (hok : (WriteGSAWSTemplate K W config s).1 = .ok ()) :
    ∃ (crsConfig : CRsConfig) (crs : ClusterCRs),
      (WriteGSAWSTemplate K W config s).2.log = s.log ++
        [.newClusterCRs crsConfig,
         .marshal (.cluster crs.Cluster), .marshal (.gsAWSCluster crs.AWSCluster),
         .marshal (.g8sControlPlane crs.G8sControlPlane),
         .marshal (.awsControlPlane crs.AWSControlPlane),
         .executeAWS
           { AWSClusterCR := some (.gsAWSCluster crs.AWSCluster)
             ClusterCR := some (.cluster crs.Cluster)
             G8sControlPlaneCR := some (.g8sControlPlane crs.G8sControlPlane)
             AWSControlPlaneCR := some (.awsControlPlane crs.AWSControlPlane) }] := by
  have main : ∀ (crs : ClusterCRs) (s₀ : State) (r : Res Unit × State),
      r = (match yamlMarshal W (.cluster crs.Cluster) s₀ with
        | (.error err, s) => (.error (Mask err), s)
        | (.panic msg, s) => (.panic msg, s)
        | (.ok clusterCRYaml, s) =>
          match yamlMarshal W (.gsAWSCluster crs.AWSCluster) s with
          | (.error err, s) => (.error (Mask err), s)
          | (.panic msg, s) => (.panic msg, s)
          | (.ok awsClusterCRYaml, s) =>
            match yamlMarshal W (.g8sControlPlane crs.G8sControlPlane) s with
            | (.error err, s) => (.error (Mask err), s)
            | (.panic msg, s) => (.panic msg, s)
            | (.ok g8sControlPlaneCRYaml, s) =>
              match yamlMarshal W (.awsControlPlane crs.AWSControlPlane) s with
              | (.error err, s) => (.error (Mask err), s)
              | (.panic msg, s) => (.panic msg, s)
              | (.ok awsControlPlaneCRYaml, s) =>
                let data : AWSData :=
                  { AWSClusterCR := awsClusterCRYaml
                    ClusterCR := clusterCRYaml
                    G8sControlPlaneCR := g8sControlPlaneCRYaml
                    AWSControlPlaneCR := awsControlPlaneCRYaml }
                let s := s.record (.executeAWS data)
                let written := W.ExecuteAWS config.FileName data
                let s := { s with out := s.out ++ written.1 }
                match written.2 with
                | some err => (.error (Mask err), s)
                | none => (.ok (), s)) →
      r.1 = .ok () →
      r.2.log = s₀.log ++
        [.marshal (.cluster crs.Cluster), .marshal (.gsAWSCluster crs.AWSCluster),
         .marshal (.g8sControlPlane crs.G8sControlPlane),
         .marshal (.awsControlPlane crs.AWSControlPlane),
         .executeAWS
           { AWSClusterCR := some (.gsAWSCluster crs.AWSCluster)
             ClusterCR := some (.cluster crs.Cluster)
             G8sControlPlaneCR := some (.g8sControlPlane crs.G8sControlPlane)
             AWSControlPlaneCR := some (.awsControlPlane crs.AWSControlPlane) }] := by
    intro crs s₀ r hr hrok
    subst hr
    rcases yamlMarshal_cases W (.cluster crs.Cluster) s₀ with ⟨e, h₁⟩ | h₁
    · simp [h₁] at hrok
    simp only [h₁] at hrok ⊢
    rcases yamlMarshal_cases W (.gsAWSCluster crs.AWSCluster)
      (s₀.record (.marshal (.cluster crs.Cluster))) with ⟨e, h₂⟩ | h₂
    · simp [h₂] at hrok
    simp only [h₂] at hrok ⊢
    rcases yamlMarshal_cases W (.g8sControlPlane crs.G8sControlPlane)
      ((s₀.record (.marshal (.cluster crs.Cluster))).record
        (.marshal (.gsAWSCluster crs.AWSCluster))) with ⟨e, h₃⟩ | h₃
    · simp [h₃] at hrok
    simp only [h₃] at hrok ⊢
    rcases yamlMarshal_cases W (.awsControlPlane crs.AWSControlPlane)
      (((s₀.record (.marshal (.cluster crs.Cluster))).record
        (.marshal (.gsAWSCluster crs.AWSCluster))).record
        (.marshal (.g8sControlPlane crs.G8sControlPlane))) with ⟨e, h₄⟩ | h₄
    · simp [h₄] at hrok
    simp only [h₄] at hrok ⊢
    split <;> simp [State.record]
  unfold WriteGSAWSTemplate at hok ⊢
  simp only at hok ⊢
  cases hn : W.NewClusterCRs
      { ClusterID := config.Name, ExternalSNAT := config.ExternalSNAT,
        MasterAZ := config.ControlPlaneAZ, Description := config.Description,
        PodsCIDR := config.PodsCIDR, Owner := config.Owner,
        ReleaseVersion := config.ReleaseVersion, Labels := config.Labels } with
  | error e => simp [hn] at hok
  | ok crs =>
    simp only [hn] at hok ⊢
    by_cases hsub : config.ControlPlaneSubnet = ""
    · simp only [hsub, ne_eq, not_true_eq_false, if_false] at hok ⊢
      refine ⟨{ ClusterID := config.Name, ExternalSNAT := config.ExternalSNAT,
                MasterAZ := config.ControlPlaneAZ, Description := config.Description,
                PodsCIDR := config.PodsCIDR, Owner := config.Owner,
                ReleaseVersion := config.ReleaseVersion, Labels := config.Labels },
              (if K.IsOrgNamespaceVersion config.ReleaseVersion then
                moveCRsToOrgNamespace K crs config.Owner else crs), ?_⟩
      rw [main _ _ _ rfl hok]
      simp [State.record]
    · simp only [ne_eq, hsub, not_false_eq_true, if_true] at hok ⊢
      cases ha : crs.AWSCluster.ObjectMeta.Annotations with
      | none => simp [ha] at hok
      | some annotations =>
        simp only [ha] at hok ⊢
        refine ⟨{ ClusterID := config.Name, ExternalSNAT := config.ExternalSNAT,
                  MasterAZ := config.ControlPlaneAZ, Description := config.Description,
                  PodsCIDR := config.PodsCIDR, Owner := config.Owner,
                  ReleaseVersion := config.ReleaseVersion, Labels := config.Labels },
                (if K.IsOrgNamespaceVersion config.ReleaseVersion then
                  moveCRsToOrgNamespace K
                    { crs with AWSCluster := { crs.AWSCluster with
                        ObjectMeta := { crs.AWSCluster.ObjectMeta with
                          Annotations := some
                            (mapSet annotations K.AWSSubnetSize config.ControlPlaneSubnet) } } }
                    config.Owner
                 else
                  { crs with AWSCluster := { crs.AWSCluster with
                      ObjectMeta := { crs.AWSCluster.ObjectMeta with
                        Annotations := some
                          (mapSet annotations K.AWSSubnetSize config.ControlPlaneSubnet) } } }), ?_⟩
        rw [main _ _ _ rfl hok]
        simp [State.record]


theorem marshalled_map_marshal (xs : List Object) : marshalled (xs.map Event.marshal) = xs := by
  induction xs with
  | nil => rfl
  | cons x rest ih => simp [marshalled, ih]

/-- A run of `WriteCAPATemplate` that succeeds on a base set with one object of
each recognized kind has handed eight objects to the encoder, and the documents
of the bundle are these objects. -/
theorem writeCAPATemplate_documents (K : Keys) (W : World) (config : ClusterCRsConfig)
    (s : State) (hok : (WriteCAPATemplate K W config s).1 = .ok ())
    (hbase : ∀ env options objs, W.GetClusterTemplate env options = .ok objs →
      (kindsOf objs).Perm recognizedKinds) :
    ∃ pre data,
      (WriteCAPATemplate K W config s).2.log = s.log ++ pre ++ [.executeCAPA data] ∧
      data.documents.length = 8 ∧ data.documents.Perm (marshalled pre) := by
  obtain ⟨objs, s₁, key, v₁, s₃, v₂, s₄, v₃, s₅, hg, _, hobj, hid, hba, hlog⟩ :=
    writeCAPATemplate_ok K W config s hok
  -- the base set
  have hclient : W.ClientNew = none := by
    cases hc : W.ClientNew with
    | none => rfl
    | some err =>
      rw [getCAPAClusterTemplate_some K W config s err hc] at hg
      simp at hg
  obtain ⟨options, _, _, _, heq⟩ := getCAPAClusterTemplate_none K W config s hclient
  rw [heq, Prod.mk.injEq] at hg
  obtain ⟨hres, hs₁⟩ := hg
  have hgen : W.GetClusterTemplate (fun x => if x ∈ K.CAPAEnvVars then some "" else s.env x)
      options = .ok objs := by
    cases hgt : W.GetClusterTemplate (fun x => if x ∈ K.CAPAEnvVars then some "" else s.env x)
        options with
    | error e => simp [hgt] at hres
    | ok t => simp only [hgt, Res.ok.injEq] at hres; rw [hres]
  have hperm := hbase _ _ _ hgen
  have hnodup : (kindsOf objs).Nodup := hperm.nodup_iff.mpr (by decide)
  have hlen : (kindsOf objs).length = 4 := by rw [hperm.length_eq]; rfl
  -- the loop
  obtain ⟨xs, hl₃, hxs, hp₁, f₁, f₂, f₃, f₄⟩ :=
    objects_ok K W config key objs _ v₁ _ s₃ hobj hnodup (by intro k _; simp [CAPAData.ofKind])
  -- the identity and the bastion
  obtain ⟨x, hd₂, hs₄⟩ := identity_ok K W config v₁ v₂ s₃ s₄ hid
  obtain ⟨x₁, x₂, x₃, hd₃, hl₅⟩ := bastion_ok_log K W config key v₂ v₃ s₄ s₅ hba
  have hp₂ : v₂.data.documents.Perm (v₁.data.documents ++ [x]) :=
    hd₂ ▸ documents_set_identity v₁.data x f₁
  have hp₃ : v₃.data.documents.Perm (v₂.data.documents ++ [x₁, x₂, x₃]) :=
    hd₃ ▸ documents_set_bastion v₂.data x₁ x₂ x₃ (by rw [hd₂]; exact f₂) (by rw [hd₂]; exact f₃)
      (by rw [hd₂]; exact f₄)
  have hall : v₃.data.documents.Perm (xs ++ [x, x₁, x₂, x₃]) := by
    refine hp₃.trans ?_
    refine (List.Perm.append_right _ hp₂).trans ?_
    refine (List.Perm.append_right _ (List.Perm.append_right _ hp₁)).trans ?_
    simp [CAPAData.documents]
  refine ⟨[.clientNew,
      .getClusterTemplate (fun x => if x ∈ K.CAPAEnvVars then some "" else s.env x) options,
      .sshSSOPublicKey] ++ xs.map Event.marshal ++
      [.marshal x, .marshal x₁, .marshal x₂, .marshal x₃], v₃.data, ?_, ?_, ?_⟩
  · rw [hlog, hl₅, hs₄]
    simp only [State.record]
    rw [hl₃, ← hs₁]
    simp [State.record]
  · rw [hall.length_eq]; simp [hxs, hlen]
  · simpa [marshalled_append, marshalled, marshalled_map_marshal] using hall


/-! ## The write into the labels of the machine template -/

theorem newAWSMachineTemplateFromUnstructured_safe (K : Keys) (W : World)
    (config : ClusterCRsConfig) (o : Unstructured) (labels : GoMap) (msg : String) :
    newAWSMachineTemplateFromUnstructured K W config (o.SetLabels (some labels)) ≠ .panic msg := by
  unfold newAWSMachineTemplateFromUnstructured
  cases W.ConvertAWSMachineTemplate (o.SetLabels (some labels)) with
  | error e => simp
  | ok spec => simp [Unstructured.objectMeta, Unstructured.SetLabels]

theorem object_not_panic (K : Keys) (W : World) (config : ClusterCRsConfig) (key : String)
    (o : Unstructured) (v : CAPAVars) (s : State) (msg : String) :
    (WriteCAPATemplate.object K W config key o v s).1 ≠ .panic msg := by
  unfold WriteCAPATemplate.object
  split
  · cases hr : newAWSClusterFromUnstructured K W config (o.SetLabels (some v.crLabels)) with
    | error e => simp [hr]
    | panic m =>
      exfalso
      unfold newAWSClusterFromUnstructured at hr
      cases hc : W.ConvertAWSCluster (o.SetLabels (some v.crLabels)) <;> simp [hc] at hr
    | ok a =>
      simp only [hr]
      rcases yamlMarshal_cases W (.awsCluster a) s with ⟨e, h⟩ | h <;> simp [h]
  · split
    · cases hr : newAWSMachineTemplateFromUnstructured K W config
          (o.SetLabels (some v.crLabels)) with
      | error e => simp [hr]
      | panic m => exact absurd hr (newAWSMachineTemplateFromUnstructured_safe K W config o _ m)
      | ok a =>
        simp only [hr]
        rcases yamlMarshal_cases W (.awsMachineTemplate a) s with ⟨e, h⟩ | h <;> simp [h]
    · split
      · rcases yamlMarshal_cases W
          (.unstructured ((o.SetLabels (some (mapMerge v.crLabels (config.Labels.getD [])))).SetAnnotations
              (some (mapSet [] K.ClusterDescription config.Description)))) s with ⟨e, h⟩ | h <;>
          simp [h]
      · split
        · cases hr : newKubeadmControlPlaneFromUnstructured K W key K.NodeSSHDConfigEncoded
              (o.SetLabels (some v.crLabels)) with
          | error e => simp [hr]
          | panic m =>
            exfalso
            unfold newKubeadmControlPlaneFromUnstructured at hr
            cases hc : W.ConvertKubeadmControlPlane (o.SetLabels (some v.crLabels)) <;>
              simp [hc] at hr
          | ok a =>
            simp only [hr]
            rcases yamlMarshal_cases W (.kubeadmControlPlane a) s with ⟨e, h⟩ | h <;> simp [h]
        · simp

theorem objects_not_panic (K : Keys) (W : World) (config : ClusterCRsConfig) (key : String)
    (objs : List Unstructured) (msg : String) :
    ∀ (v : CAPAVars) (s : State),
      (WriteCAPATemplate.objects K W config key objs v s).1 ≠ .panic msg := by
  induction objs with
  | nil => intro v s; simp [WriteCAPATemplate.objects]
  | cons o rest ih =>
    intro v s
    have h₁ := object_not_panic K W config key o v s
    unfold WriteCAPATemplate.objects
    rcases hstep : WriteCAPATemplate.object K W config key o v s with ⟨r, s'⟩
    rw [hstep] at h₁
    cases r with
    | error e => simp
    | panic m => exact absurd rfl (h₁ m)
    | ok v₁ => exact ih v₁ s'

theorem identity_not_panic (K : Keys) (W : World) (config : ClusterCRsConfig)
    (v : CAPAVars) (s : State) (msg : String) :
    (WriteCAPATemplate.identity K W config v s).1 ≠ .panic msg := by
  unfold WriteCAPATemplate.identity
  rcases yamlMarshal_cases W
      (.awsClusterRoleIdentity { newAWSClusterRoleIdentity K config with
        ObjectMeta := (newAWSClusterRoleIdentity K config).ObjectMeta.SetLabels (some v.crLabels) }) s
    with ⟨e, h⟩ | h <;> simp [h]

theorem bastion_not_panic (K : Keys) (W : World) (config : ClusterCRsConfig) (key : String)
    (v : CAPAVars) (s : State) (msg : String) :
    (WriteCAPATemplate.bastion K W config key v s).1 ≠ .panic msg := by
  intro hp
  unfold WriteCAPATemplate.bastion at hp
  cases hr : newBastionBootstrapSecret K W config K.BastionSSHDConfigEncoded key with
  | error e => simp [hr] at hp
  | panic m =>
    unfold newBastionBootstrapSecret at hr
    cases hc : W.BastionIgnition config.FileName config.Name K.BastionSSHDConfigEncoded key <;>
      simp [hc] at hr
  | ok sec =>
    simp only [hr] at hp
    rcases yamlMarshal_cases W (.secret { sec with
        ObjectMeta := sec.ObjectMeta.SetLabels
          (some (mapSet v.crLabels K.CAPIRoleLabel K.RoleBastion)) }) s with ⟨e, h₁⟩ | h₁
    · simp [h₁] at hp
    · simp only [h₁] at hp
      rcases yamlMarshal_cases W (.machineDeployment
          { newBastionMachineDeployment K config with
            ObjectMeta := (newBastionMachineDeployment K config).ObjectMeta.SetLabels
              (some (mapSet (mapSet v.crLabels K.CAPIRoleLabel K.RoleBastion)
                K.CAPIRoleLabel K.RoleBastion)) })
          (s.record (.marshal (.secret { sec with
            ObjectMeta := sec.ObjectMeta.SetLabels
              (some (mapSet v.crLabels K.CAPIRoleLabel K.RoleBastion)) }))) with ⟨e, h₂⟩ | h₂
      · simp [h₂] at hp
      · simp only [h₂] at hp
        rcases yamlMarshal_cases W (.awsMachineTemplate
            { newBastionAWSMachineTemplate K config v.awsRegion with
              ObjectMeta := (newBastionAWSMachineTemplate K config v.awsRegion).ObjectMeta.SetLabels
                (some (mapSet (mapSet (mapSet v.crLabels K.CAPIRoleLabel K.RoleBastion)
                  K.CAPIRoleLabel K.RoleBastion) K.CAPIRoleLabel K.RoleBastion)) })
            ((s.record (.marshal (.secret { sec with
              ObjectMeta := sec.ObjectMeta.SetLabels
                (some (mapSet v.crLabels K.CAPIRoleLabel K.RoleBastion)) }))).record
              (.marshal (.machineDeployment
                { newBastionMachineDeployment K config with
                  ObjectMeta := (newBastionMachineDeployment K config).ObjectMeta.SetLabels
                    (some (mapSet (mapSet v.crLabels K.CAPIRoleLabel K.RoleBastion)
                      K.CAPIRoleLabel K.RoleBastion)) })))
          with ⟨e, h₃⟩ | h₃
        · simp [h₃] at hp
        · simp [h₃] at hp

/-- No path through `WriteCAPATemplate` ends in a panic: the one write that
could panic, into the labels of the converted machine template, finds the map
that `SetLabels` has put there. -/
theorem writeCAPATemplate_not_panic (K : Keys) (W : World) (config : ClusterCRsConfig)
    (s : State) (msg : String) : (WriteCAPATemplate K W config s).1 ≠ .panic msg := by
  unfold WriteCAPATemplate
  split
  · simp
  split
  · simp
  have hg := getCAPAClusterTemplate_not_panic K W config s
  rcases hgr : getCAPAClusterTemplate K W config s with ⟨r, s₁⟩
  rw [hgr] at hg
  cases r with
  | error e => simp
  | panic m => exact absurd rfl (hg m)
  | ok objs =>
    simp only
    cases hk : W.SSHSSOPublicKey with
    | error e => simp
    | ok key =>
      simp only
      have ho := objects_not_panic K W config key objs
      rcases hobj : WriteCAPATemplate.objects K W config key objs
        { data :=
            { AWSClusterCR := none, AWSMachineTemplateCR := none, ClusterCR := none,
              KubeadmControlPlaneCR := none, AWSClusterRoleIdentityCR := none,
              BastionBootstrapSecret := none, BastionMachineDeploymentCR := none,
              BastionAWSMachineTemplateCR := none }
          awsRegion := "", crLabels := crLabels K config }
        (s₁.record .sshSSOPublicKey) with ⟨r, s₃⟩
      cases r with
      | error e => simp
      | panic m => exact absurd (by rw [hobj]) (ho m _ _)
      | ok v₁ =>
        simp only
        have hi := identity_not_panic K W config v₁ s₃
        rcases hid : WriteCAPATemplate.identity K W config v₁ s₃ with ⟨r, s₄⟩
        rw [hid] at hi
        cases r with
        | error e => simp
        | panic m => exact absurd rfl (hi m)
        | ok v₂ =>
          simp only
          have hb := bastion_not_panic K W config key v₂ s₄
          rcases hba : WriteCAPATemplate.bastion K W config key v₂ s₄ with ⟨r, s₅⟩
          rw [hba] at hb
          cases r with
          | error e => simp
          | panic m => exact absurd rfl (hb m)
          | ok v₃ =>
            simp only
            split <;> simp


/-! ## The claims, continued -/

/-- C11 as stated fails for the modern generation: for the base set with one
object of each of the four recognized kinds, the bundle that `WriteCAPATemplate`
hands to the template has eight object documents, not seven. -/
theorem capa_bundle_has_eight_documents :
    kindsOf [sampleObject "AWSCluster", sampleObject "AWSMachineTemplate", sampleObject "Cluster",
      sampleObject "KubeadmControlPlane"] = recognizedKinds ∧
    (executedCAPA (WriteCAPATemplate sampleKeys sampleWorld sampleConfig sampleState).2.log).map
      (fun d => d.documents.length) = [8] := by
  decide

/-- C11, amended: a run of `WriteGSAWSTemplate` that succeeds has handed to the
template a bundle of exactly 4 object documents, and a run of
`WriteCAPATemplate` that succeeds on a base set with one object of each of the
four recognized kinds a bundle of exactly 8; in both the documents are the
objects the run has handed to the encoder, one document for each. -/
theorem bundle_documents (K : Keys) (W : World) (config : ClusterCRsConfig) (s : State) :
    ((WriteGSAWSTemplate K W config s).1 = .ok () →
      ∃ pre data,
        (WriteGSAWSTemplate K W config s).2.log = s.log ++ pre ++ [.executeAWS data] ∧
        data.documents.length = 4 ∧ data.documents.Perm (marshalled pre)) ∧
    ((WriteCAPATemplate K W config s).1 = .ok () →
      (∀ env options objs, W.GetClusterTemplate env options = .ok objs →
        (kindsOf objs).Perm recognizedKinds) →
      ∃ pre data,
        (WriteCAPATemplate K W config s).2.log = s.log ++ pre ++ [.executeCAPA data] ∧
        data.documents.length = 8 ∧ data.documents.Perm (marshalled pre)) := by
  constructor
  · intro hok
    obtain ⟨crsConfig, crs, hlog⟩ := writeGSAWSTemplate_ok K W config s hok
    refine ⟨[.newClusterCRs crsConfig,
        .marshal (.cluster crs.Cluster), .marshal (.gsAWSCluster crs.AWSCluster),
        .marshal (.g8sControlPlane crs.G8sControlPlane),
        .marshal (.awsControlPlane crs.AWSControlPlane)],
      { AWSClusterCR := some (.gsAWSCluster crs.AWSCluster)
        ClusterCR := some (.cluster crs.Cluster)
        G8sControlPlaneCR := some (.g8sControlPlane crs.G8sControlPlane)
        AWSControlPlaneCR := some (.awsControlPlane crs.AWSControlPlane) }, ?_, ?_, ?_⟩
    · rw [hlog]; simp
    · rfl
    · rw [List.perm_iff_count]
      intro a
      simp only [AWSData.documents, Option.toList, marshalled, List.count_append,
        List.count_cons, List.count_nil]
      omega
  · intro hok hbase
    exact writeCAPATemplate_documents K W config s hok hbase

/-- C11, amended, at the sample requests: the legacy run hands over 4 documents
and the modern run 8. -/
theorem bundle_documents_witness :
    (WriteGSAWSTemplate sampleKeys sampleWorld sampleConfigLegacy sampleState).1 = .ok () ∧
    (WriteCAPATemplate sampleKeys sampleWorld sampleConfig sampleState).1 = .ok () ∧
    (∃ pre data,
      (WriteGSAWSTemplate sampleKeys sampleWorld sampleConfigLegacy sampleState).2.log
        = sampleState.log ++ pre ++ [.executeAWS data] ∧
      data.documents.length = 4 ∧ data.documents.Perm (marshalled pre)) ∧
    ∃ pre data,
      (WriteCAPATemplate sampleKeys sampleWorld sampleConfig sampleState).2.log
        = sampleState.log ++ pre ++ [.executeCAPA data] ∧
      data.documents.length = 8 ∧ data.documents.Perm (marshalled pre) :=
  ⟨by decide, by decide,
    (bundle_documents sampleKeys sampleWorld sampleConfigLegacy sampleState).1 (by decide),
    (bundle_documents sampleKeys sampleWorld sampleConfig sampleState).2 (by decide)
      (by
        intro env options objs h
        simp only [sampleWorld, Except.ok.injEq] at h
        subst h
        exact List.Perm.of_eq (by decide))⟩

/-- C12 fails on the code: with the caller label `team = rocket` and a base set
in which the `Cluster` object comes before the `AWSMachineTemplate`, the labels
of the converted machine template are the shared label set, the entry
`team = rocket`, which is not in the shared label set, and the role entry. -/
theorem caller_labels_reach_machine_template :
    mapGet (crLabels sampleKeys sampleConfigTeam) "team" = none ∧
    ((marshalled (WriteCAPATemplate sampleKeys sampleWorldClusterFirst sampleConfigTeam
        sampleState).2.log).filter
      (fun o => decide (o.label "cluster.x-k8s.io/role" = some "control-plane"))).map Object.labels
      = [some [("release.giantswarm.io/version", "20.0.0"), ("giantswarm.io/cluster", "abc12"),
               ("cluster.x-k8s.io/cluster-name", "abc12"), ("giantswarm.io/organization", "acme"),
               ("cluster.x-k8s.io/watch-filter", "capi"), ("team", "rocket"),
               ("cluster.x-k8s.io/role", "control-plane")]] := by
  decide

end KubectlGs
